import Mathlib

/-!
# Auxiliary-peak acquisition and spoofing detector of the SPREE GNSS-SDR fork

A shallow embedding of

* `pcps_sd_acquisition_cc::general_work`
  (`src/algorithms/acquisition/gnuradio_blocks/pcps_sd_acquisition_cc.cc`), and
* `Spoofing_Detector` (`src/algorithms/libs/spoofing_detector.cc`).

Conventions of the embedding.

* `float` and `double` values are rationals with exact arithmetic; rounding, infinities and
  NaN are outside the model. A quotient by 0 is 0 in the model, where the source gets an
  infinity or a NaN; statements on quotients are meant for divisors other than 0.
* `int`, `unsigned int` and `size_t` values are `Int` or `Nat`; the values are taken to be in
  the range of their machine type (signed overflow is undefined behaviour in the source).
* `std::map<K, V>` is a list of pairs kept in ascending key order; `begin() .. end()` walks the
  list, `rbegin() .. rend()` walks its reverse.
* `global_spoofing_queue` is the list of pushed messages, oldest first.
* The library function `sqrt` is a parameter of the functions that call it, and a local that
  the source declares without initialising it is a parameter named `declared`.
* A message keeps the literal text that opens its description; the numbers streamed after it
  are left out.
-/

namespace Spree

/-! ## Containers -/

/-- The assignment `m[k] = v` on a `std::map`: overwrite the value of an existing key, insert
a new key at its place in the key order. -/
def mapAssign {κ β : Type} [LinearOrder κ] : List (κ × β) → κ → β → List (κ × β)
  | [], k, v => [(k, v)]
  | (k', v') :: t, k, v =>
      if k < k' then (k, v) :: (k', v') :: t
      else if k = k' then (k, v) :: t
      else (k', v') :: mapAssign t k v

/-- The lookup `m.at(k)`; `none` stands for the `std::out_of_range` exception. -/
def mapAt {κ β : Type} [LinearOrder κ] (m : List (κ × β)) (k : κ) : Option β :=
  (m.find? (fun e => decide (e.1 = k))).map Prod.snd

/-- The insertion `s.insert(x)` on a `std::set<int>`, kept in ascending order. -/
def setInsert : List Int → Int → List Int
  | [], x => [x]
  | y :: t, x =>
      if x < y then x :: y :: t
      else if x = y then y :: t
      else y :: setInsert t x

/-! ## Acquisition: data -/

/-- The `struct Peak` of `pcps_sd_acquisition_cc.cc`. -/
structure Peak where
  code_phase : Int
  doppler : Int
  mag : ℚ
deriving DecidableEq, Repr

/-- The members of `pcps_sd_acquisition_cc` that are set by the constructor and the setters. -/
structure AcqConfig where
  d_peak : Nat
  d_threshold : ℚ
  d_doppler_max : Nat
  d_doppler_step : Nat
  d_samples_per_code : Nat
  d_fft_size : Nat
  d_num_doppler_bins : Nat
  d_max_dwells : Nat
  d_bit_transition_flag : Bool

/-- The members of `pcps_sd_acquisition_cc` (and of `*d_gnss_synchro`) that a dwell updates. -/
structure AcqState where
  d_state : Nat
  d_well_count : Nat
  d_sample_counter : Nat
  d_mag : ℚ
  d_input_power : ℚ
  d_test_statistics : ℚ
  Acq_delay_samples : ℚ
  Acq_doppler_hz : ℚ
  Acq_samplestamp_samples : Nat
deriving DecidableEq, Repr

/-- What a dwell reads from outside the block: the sample block `in`, the contents of
`d_ifft->get_outbuf()` after the FFT chain of each Doppler index (the FFT is a library
primitive), and the `MaxIndex` entries that `Persistence1D::GetPairedExtrema` returns for a
row (the header `persistence1d.hpp` is a third-party library). -/
structure DwellInput where
  input : List (ℚ × ℚ)
  ifft_outbuf : Nat → List (ℚ × ℚ)
  RunPersistence : List ℚ → List Nat

/-! ## Acquisition: VOLK kernels used by the dwell -/

/-- The kernel `volk_32fc_magnitude_squared_32f_a(out, in, n)`. -/
def volk_32fc_magnitude_squared_32f (v : List (ℚ × ℚ)) (n : Nat) : List ℚ :=
  (List.range n).map (fun i => (v.getD i (0, 0)).1 * (v.getD i (0, 0)).1
    + (v.getD i (0, 0)).2 * (v.getD i (0, 0)).2)

/-- The kernel `volk_32f_accumulator_s32f_a(&sum, in, n)`. -/
def volk_32f_accumulator_s32f (v : List ℚ) (n : Nat) : ℚ :=
  (List.range n).foldl (fun s i => s + v.getD i 0) 0

/-- The kernel `volk_32f_index_max_16u_a(&index, in, n)`: the first index of the largest of the
first `n` values. -/
def volk_32f_index_max_16u (v : List ℚ) (n : Nat) : Nat :=
  (List.range n).foldl (fun best i => if v.getD i 0 > v.getD best 0 then i else best) 0

/-! ## Acquisition: the dwell (`case 1` of `general_work`) -/

/-- The Doppler of a bin: `-(int)d_doppler_max + d_doppler_step*doppler_index`. -/
def binDoppler (cfg : AcqConfig) (doppler_index : Nat) : Int :=
  -(cfg.d_doppler_max : Int) + (cfg.d_doppler_step : Int) * (doppler_index : Int)

/-- The loop of lines 298-302: `peaks2[doppler] = std::vector<float>(d_fft_size)`. -/
def initPeaks2 (cfg : AcqConfig) : List (Int × List ℚ) :=
  (List.range cfg.d_num_doppler_bins).foldl
    (fun peaks2 doppler_index =>
      mapAssign peaks2 (binDoppler cfg doppler_index) (List.replicate cfg.d_fft_size 0))
    []

/-- The loop of lines 345-365 over the cells of one Doppler bin: `tmp` starts at 0, is
refreshed at the cells above `threshold_spoofing` only, and is pushed to the row at every
cell. -/
def pushRow (d_magnitude : List ℚ) (threshold_spoofing nf : ℚ) (n : Nat) (row : List ℚ) :
    List ℚ :=
  ((List.range n).foldl
    (fun (acc : ℚ × List ℚ) i =>
      let tmp := if d_magnitude.getD i 0 > threshold_spoofing
        then d_magnitude.getD i 0 / (nf * nf) else acc.1
      (tmp, acc.2 ++ [tmp]))
    (0, row)).2

/-- Step 4 of the Doppler loop (lines 368-389): record the maximum peak. -/
def recordMax (cfg : AcqConfig) (st : AcqState) (magt : ℚ) (indext : Nat) (doppler : Int) :
    AcqState :=
  if st.d_mag < magt then
    if st.d_test_statistics < magt / st.d_input_power || !cfg.d_bit_transition_flag then
      { st with
        d_mag := magt
        Acq_delay_samples := ((indext % cfg.d_samples_per_code : Nat) : ℚ)
        Acq_doppler_hz := (doppler : ℚ)
        Acq_samplestamp_samples := st.d_sample_counter
        d_test_statistics := magt / st.d_input_power }
    else { st with d_mag := magt }
  else st

/-- One turn of the Doppler frequency search loop (lines 315-406). -/
def dopplerStep (cfg : AcqConfig) (inp : DwellInput) (threshold_spoofing : ℚ)
    (acc : AcqState × List (Int × List ℚ)) (doppler_index : Nat) :
    AcqState × List (Int × List ℚ) :=
  let nf : ℚ := (cfg.d_fft_size : ℚ) * (cfg.d_fft_size : ℚ)
  let doppler := binDoppler cfg doppler_index
  let d_magnitude := volk_32fc_magnitude_squared_32f (inp.ifft_outbuf doppler_index) cfg.d_fft_size
  let indext := volk_32f_index_max_16u d_magnitude cfg.d_fft_size
  let magt := d_magnitude.getD indext 0 / (nf * nf)
  let row := pushRow d_magnitude threshold_spoofing nf cfg.d_fft_size
    ((mapAt acc.2 doppler).getD [])
  (recordMax cfg acc.1 magt indext doppler, mapAssign acc.2 doppler row)

/-- The dwell up to the end of the Doppler loop (lines 237-406): counters, input power, the
rows `peaks2` and the grid maximum. -/
def searchPhase (cfg : AcqConfig) (inp : DwellInput) (st : AcqState) :
    AcqState × List (Int × List ℚ) :=
  let nf : ℚ := (cfg.d_fft_size : ℚ) * (cfg.d_fft_size : ℚ)
  let d_magnitude := volk_32fc_magnitude_squared_32f inp.input cfg.d_fft_size
  let d_input_power := volk_32f_accumulator_s32f d_magnitude cfg.d_fft_size / (cfg.d_fft_size : ℚ)
  let st1 : AcqState :=
    { st with
      d_input_power := d_input_power
      d_mag := 0
      d_sample_counter := st.d_sample_counter + cfg.d_fft_size
      d_well_count := st.d_well_count + 1 }
  let threshold_spoofing := cfg.d_threshold * d_input_power * (nf * nf)
  (List.range cfg.d_num_doppler_bins).foldl (dopplerStep cfg inp threshold_spoofing)
    (st1, initPeaks2 cfg)

/-- The value `*std::max_element(dp.begin(), dp.end())` (0 stands in for the empty row, which
the source never builds when `d_fft_size > 0`). -/
def maxElement : List ℚ → ℚ
  | [] => 0
  | x :: t => t.foldl (fun m y => if m < y then y else m) x

/-- The loop of lines 438-445 over the paired extrema of one row. -/
def collectRow (cfg : AcqConfig) (doppler : Int) (dp : List ℚ) (extrema : List Nat)
    (d_highest_peaks : List (ℚ × Peak)) : List (ℚ × Peak) :=
  extrema.foldl
    (fun hp MaxIndex =>
      mapAssign hp (dp.getD MaxIndex 0)
        { mag := dp.getD MaxIndex 0
          doppler := doppler
          code_phase := ((MaxIndex % cfg.d_samples_per_code : Nat) : Int) })
    d_highest_peaks

/-- The loop of lines 429-446 over the rows of `peaks2`: the candidate peaks
`d_highest_peaks`. -/
def collectCandidates (cfg : AcqConfig) (RunPersistence : List ℚ → List Nat)
    (threshold_spoofing : ℚ) (peaks2 : List (Int × List ℚ)) : List (ℚ × Peak) :=
  peaks2.foldl
    (fun hp row =>
      if maxElement row.2 < threshold_spoofing then hp
      else collectRow cfg row.1 row.2 (RunPersistence row.2) hp)
    []

/-- The test of lines 462-463: the two peaks overlap. -/
def overlaps (d_doppler_step : Nat) (p q : Peak) : Bool :=
  decide (|p.code_phase - q.code_phase| ≤ 2) &&
    decide (|p.doppler - q.doppler| ≤ (d_doppler_step : Int))

/-- The inner loop of lines 459-467: `use_peak` after the walk over the kept peaks. -/
def usePeak (d_doppler_step : Nat) (reduced : List (ℚ × Peak)) (p : Peak) : Bool :=
  reduced.reverse.foldl (fun use_peak q => if overlaps d_doppler_step p q.2 then false else use_peak)
    true

/-- One turn of the outer loop of lines 454-473: the peak is kept when `use_peak` holds. -/
def dedupStep (d_doppler_step : Nat) (reduced : List (ℚ × Peak)) (e : ℚ × Peak) :
    List (ℚ × Peak) :=
  if usePeak d_doppler_step reduced e.2 then mapAssign reduced e.1 e.2 else reduced

/-- The de-duplication walk of lines 454-473: `d_highest_peaks_reduced`. -/
def dedupWalk (d_doppler_step : Nat) (d_highest_peaks : List (ℚ × Peak)) : List (ℚ × Peak) :=
  d_highest_peaks.reverse.foldl (dedupStep d_doppler_step) []

/-- The assignments of lines 495-502, made at the peak whose rank is `d_peak`. -/
def reportPeak (st : AcqState) (e : ℚ × Peak) : AcqState :=
  { st with
    d_test_statistics := e.1 / st.d_input_power
    Acq_delay_samples := (e.2.code_phase : ℚ)
    Acq_doppler_hz := (e.2.doppler : ℚ) }

/-- One turn of the loop of lines 488-506; the accumulator holds `found_peak`, the state and
the counter `i`. -/
def selectStep (cfg : AcqConfig) (acc : (Bool × AcqState) × Nat) (e : ℚ × Peak) :
    (Bool × AcqState) × Nat :=
  if acc.2 = cfg.d_peak then ((true, reportPeak acc.1.2 e), acc.2 + 1)
  else (acc.1, acc.2 + 1)

/-- The selection of lines 478-508 on `d_highest_peaks_reduced`: the new `found_peak` and
state. -/
def selectPeak (cfg : AcqConfig) (reduced : List (ℚ × Peak)) (st : AcqState) :
    Bool × AcqState :=
  if cfg.d_peak = 0 ∧ reduced.length > 0 then (true, st)
  else if reduced.length ≥ cfg.d_peak then
    (reduced.reverse.foldl (selectStep cfg) ((false, st), 1)).1
  else (false, st)

/-- The value of `threshold_spoofing` after line 427: the threshold of line 312 divided by
the square of `fft_normalization_factor`. -/
def auxThreshold (cfg : AcqConfig) (d_input_power : ℚ) : ℚ :=
  cfg.d_threshold * d_input_power
      * (((cfg.d_fft_size : ℚ) * (cfg.d_fft_size : ℚ)) * ((cfg.d_fft_size : ℚ) * (cfg.d_fft_size : ℚ)))
    / (((cfg.d_fft_size : ℚ) * (cfg.d_fft_size : ℚ)) * ((cfg.d_fft_size : ℚ) * (cfg.d_fft_size : ℚ)))

/-- The list `d_highest_peaks_reduced` of a dwell, from the rows `peaks2` and the input power
that the search phase left. -/
def reducedPeaks (cfg : AcqConfig) (inp : DwellInput) (st : AcqState) : List (ℚ × Peak) :=
  dedupWalk cfg.d_doppler_step
    (collectCandidates cfg inp.RunPersistence
      (auxThreshold cfg (searchPhase cfg inp st).1.d_input_power) (searchPhase cfg inp st).2)

/-- The list `L`: `d_highest_peaks_reduced` in the order of its reverse iterator, strongest
peak first. -/
def peakList (cfg : AcqConfig) (inp : DwellInput) (st : AcqState) : List (ℚ × Peak) :=
  (reducedPeaks cfg inp st).reverse

/-- The block of lines 421-510: `found_peak` and the state after the auxiliary-peak search,
which runs when `d_peak != 1`. -/
def auxPhase (cfg : AcqConfig) (inp : DwellInput) (st : AcqState) : Bool × AcqState :=
  if cfg.d_peak ≠ 1 then
    selectPeak cfg (reducedPeaks cfg inp st) (searchPhase cfg inp st).1
  else (false, (searchPhase cfg inp st).1)

/-- The verdict of lines 691-724. -/
def verdict (cfg : AcqConfig) (acquire_auxiliary_peaks found_peak : Bool) (st : AcqState) :
    AcqState :=
  if !cfg.d_bit_transition_flag then
    if acquire_auxiliary_peaks && !found_peak then { st with d_state := 3 }
    else if st.d_test_statistics > cfg.d_threshold then { st with d_state := 2 }
    else if st.d_well_count = cfg.d_max_dwells then { st with d_state := 3 }
    else st
  else
    if st.d_well_count = cfg.d_max_dwells then
      if acquire_auxiliary_peaks && !found_peak then { st with d_state := 3 }
      else if st.d_test_statistics > cfg.d_threshold then { st with d_state := 2 }
      else { st with d_state := 3 }
    else st

/-- One dwell: `case 1` of `pcps_sd_acquisition_cc::general_work`. -/
def general_work_case1 (cfg : AcqConfig) (inp : DwellInput) (st : AcqState) : AcqState :=
  verdict cfg (decide (cfg.d_peak ≠ 1)) (auxPhase cfg inp st).1 (auxPhase cfg inp st).2

/-! ## Spoofing detector: data -/

/-- The `Spoofing_Message` pushed on `global_spoofing_queue`. -/
structure Spoofing_Message where
  spoofing_case : Int
  description : String
deriving DecidableEq, Repr

/-- The `struct GPS_time_t` of `spoofing_detector.cc`. -/
structure GPS_time_t where
  week : Int
  TOW : ℚ
  timestamp : ℚ
  subframe_id : Int
deriving DecidableEq, Repr

/-- The `struct Subframe` as `spoofing_detector.cc` uses it. -/
structure Subframe where
  subframe : String
  subframe_id : Nat
  PRN : Nat
  timestamp : ℚ
deriving DecidableEq, Repr

/-- The constant `seconds_per_week`. -/
def seconds_per_week : Int := 604800

/-- The conversion of a `double` to `int`: the fraction is discarded. -/
def toInt (q : ℚ) : Int := Int.tdiv q.num (q.den : Int)

/-- The function `Spoofing_Detector::spoofing_detected`: one message is pushed. -/
def spoofing_detected (queue : List Spoofing_Message) (description : String)
    (spoofing_case : Int) : List Spoofing_Message :=
  queue ++ [{ spoofing_case := spoofing_case, description := description }]

/-! ## Spoofing detector: TOW continuity -/

/-- The function `Spoofing_Detector::check_new_TOW` on the queue and on `global_last_gps_time`
(keys 0, 1, 2: week, TOW, timestamp); `none` stands for the exception of `at`. -/
def check_new_TOW (d_max_tow_discrepancy : ℚ) (queue : List Spoofing_Message)
    (global_last_gps_time : List (Int × ℚ)) (current_timestamp_ms : ℚ) (new_week : Int)
    (new_TOW : ℚ) : Option (List Spoofing_Message × List (Int × ℚ)) :=
  let written :=
    mapAssign (mapAssign (mapAssign global_last_gps_time 0 (new_week : ℚ)) 1 new_TOW) 2
      current_timestamp_ms
  if global_last_gps_time.length > 2 then
    match mapAt global_last_gps_time 2, mapAt global_last_gps_time 0,
      mapAt global_last_gps_time 1 with
    | some old_timestamp_ms, some old_week, some old_TOW =>
      let old_gps_time : Int := toInt (old_week * (seconds_per_week : ℚ) + old_TOW)
      let new_gps_time : Int := toInt (((new_week * seconds_per_week : Int) : ℚ) + new_TOW)
      let duration : ℚ := (current_timestamp_ms - old_timestamp_ms) / 1000
      if |((|new_gps_time - old_gps_time| : Int) : ℚ) - duration| > d_max_tow_discrepancy then
        if old_gps_time < new_gps_time then
          some (spoofing_detected queue
            " received new ephemeris TOW that is later than last received one and incorrect" 3,
            written)
        else
          some (spoofing_detected queue
            " received new ephemeris TOW that is earlier than last received one and incorrect" 3,
            written)
      else some (queue, written)
    | _, _, _ => none
  else some (queue, written)

/-! ## Spoofing detector: inter-satellite GPS time -/

/-- The locals of `check_GPS_time` that its loop updates. -/
structure GpsTimeLocals where
  GPS_TOW : List Int
  subframe_IDs : List Int
  smallest : ℚ
  largest : ℚ
deriving DecidableEq, Repr

/-- One turn of the loop of lines 228-243. -/
def gpsTimeStep (acc : GpsTimeLocals) (e : Int × GPS_time_t) : GpsTimeLocals :=
  if e.2.week = 0 then acc
  else
    { largest := if e.2.timestamp > acc.largest then e.2.timestamp else acc.largest
      smallest := if e.2.timestamp < acc.smallest then e.2.timestamp else acc.smallest
      GPS_TOW := setInsert acc.GPS_TOW (toInt (((e.2.week * 604800 : Int) : ℚ) + e.2.TOW))
      subframe_IDs := setInsert acc.subframe_IDs e.2.subframe_id }

/-- The function `Spoofing_Detector::check_GPS_time` on the queue and a copy of
`global_gps_time`; `smallest` and `largest` start at 0. -/
def check_GPS_time (queue : List Spoofing_Message) (global_gps_time : List (Int × GPS_time_t)) :
    List Spoofing_Message :=
  let acc := global_gps_time.foldl gpsTimeStep
    { GPS_TOW := [], subframe_IDs := [], smallest := 0, largest := 0 }
  if acc.subframe_IDs.length > 1 ∨ |acc.largest - acc.smallest| > 30000 then queue
  else if acc.GPS_TOW.length > 1 then
    spoofing_detected queue "satellites GPS TOW are not synced" 4
  else queue

/-! ## Spoofing detector: reception time of the peaks of one satellite -/

/-- The first loop of `check_RX_time` (lines 453-462): `smallest` and `largest` become the
first subframe of the PRN; with no such subframe they stay as declared. -/
def rxFirst (subframes : List (Int × Subframe)) (PRN : Nat) (declared : Subframe × Subframe) :
    Subframe × Subframe :=
  match subframes.find? (fun e => decide (e.2.PRN = PRN)) with
  | some e => (e.2, e.2)
  | none => declared

/-- One turn of the second loop of `check_RX_time` (lines 464-482) on `(smallest, largest)`. -/
def rxStep (PRN : Nat) (acc : Subframe × Subframe) (e : Int × Subframe) : Subframe × Subframe :=
  if e.2.PRN ≠ PRN then acc
  else
    (if acc.1.timestamp > e.2.timestamp then e.2 else acc.1,
      if acc.2.timestamp < e.2.timestamp then e.2 else acc.2)

/-- The function `Spoofing_Detector::check_RX_time` on the queue and a copy of
`global_subframe_map`. `declared` holds the values of the locals `smallest` and `largest` as
declared (their numeric members are not initialised by the source). -/
def check_RX_time (d_max_rx_discrepancy : ℚ) (queue : List Spoofing_Message)
    (subframes : List (Int × Subframe)) (declared : Subframe × Subframe) (PRN : Nat)
    (_subframe_id : Nat) : List Spoofing_Message :=
  let sl := subframes.foldl (rxStep PRN) (rxFirst subframes PRN declared)
  let spoofed : Bool :=
    if |sl.2.timestamp - sl.1.timestamp| > d_max_rx_discrepancy then
      if sl.2.subframe_id ≠ sl.1.subframe_id then false else true
    else false
  if spoofed then spoofing_detected queue " for satellite " 1 else queue

/-! ## Spoofing detector: comparison of two subframes -/

/-- The function `Spoofing_Detector::compare_subframes`: the returned flag (compared or not)
and the queue. -/
def compare_subframes (queue : List Spoofing_Message) (subframeA subframeB : Subframe)
    (_idA _idB : Int) : Bool × List Spoofing_Message :=
  if subframeA.timestamp = 0 ∨ subframeB.timestamp = 0 then (false, queue)
  else if |subframeA.timestamp - subframeB.timestamp| > 1 then (false, queue)
  else if subframeA.subframe ≠ subframeB.subframe ∧ subframeA.subframe ≠ ""
      ∧ subframeB.subframe ≠ "" then
    (true, spoofing_detected queue "Ephemeris data not consistent " 2)
  else (true, queue)

/-! ## Properties used in the statements -/

/-- No two entries of the list overlap. -/
def NonOverlapping (step : Nat) (r : List (ℚ × Peak)) : Prop :=
  ∀ a ∈ r, ∀ b ∈ r, a ≠ b → overlaps step a.2 b.2 = false

/-- Every key of the map is the magnitude of its peak. -/
def KeyIsMag (r : List (ℚ × Peak)) : Prop :=
  ∀ e ∈ r, e.1 = e.2.mag

/-- The input power estimate of a dwell: the mean of the squared magnitudes of the sample
block (lines 292-294). -/
def inputPower (cfg : AcqConfig) (inp : DwellInput) : ℚ :=
  volk_32f_accumulator_s32f (volk_32fc_magnitude_squared_32f inp.input cfg.d_fft_size)
    cfg.d_fft_size / (cfg.d_fft_size : ℚ)

/-- All candidate maxima of the rows: the peaks built at lines 440-443, in the order of the
loops, before line 444 stores them under their magnitude. -/
def candidateMaxima (cfg : AcqConfig) (RunPersistence : List ℚ → List Nat)
    (threshold_spoofing : ℚ) (peaks2 : List (Int × List ℚ)) : List Peak :=
  peaks2.foldl
    (fun cands row =>
      if maxElement row.2 < threshold_spoofing then cands
      else cands ++ (RunPersistence row.2).map (fun MaxIndex =>
        { mag := row.2.getD MaxIndex 0
          doppler := row.1
          code_phase := ((MaxIndex % cfg.d_samples_per_code : Nat) : Int) }))
    []

/-! ## Concrete dwells -/

/-- Modelled from the spec: the extrema finder of `persistence1d.hpp`, which is not among the
sources ("pair each local maximum with its nearest local minimum and keep pairs whose
persistence (max - min) exceeds the threshold", the threshold being 0 at line 436). The
`MaxIndex` entries are the indices of the strict interior local maxima of the row. Only the
concrete dwells below use it; their rows hold strict peaks, each followed by a lower value. -/
def interiorMaxima (dp : List ℚ) : List Nat :=
  (List.range dp.length).filter (fun i =>
    decide (0 < i ∧ i + 1 < dp.length ∧ dp.getD (i - 1) 0 < dp.getD i 0 ∧
      dp.getD (i + 1) 0 < dp.getD i 0))

/-- The state in which `case 0` hands over to the first dwell of an acquisition. -/
def stActivated : AcqState :=
  { d_state := 1, d_well_count := 0, d_sample_counter := 0, d_mag := 0, d_input_power := 0,
    d_test_statistics := 0, Acq_delay_samples := 0, Acq_doppler_hz := 0,
    Acq_samplestamp_samples := 0 }

/-- A block of 8 samples of unit power. -/
def unitSamples : List (ℚ × ℚ) := List.replicate 8 (1, 0)

/-- Peak rank 0, one Doppler bin, 8 cells, threshold 1/2. -/
def cfgRankZero : AcqConfig :=
  { d_peak := 0, d_threshold := 1 / 2, d_doppler_max := 0, d_doppler_step := 500,
    d_samples_per_code := 8, d_fft_size := 8, d_num_doppler_bins := 1, d_max_dwells := 1,
    d_bit_transition_flag := false }

/-- One correlation peak at cell 3 (normalised magnitude 4) with a weaker neighbour at cell 4
(normalised magnitude 1); the row handed to the extrema finder has its only maximum at
index 11. -/
def inpOnePeak : DwellInput :=
  { input := unitSamples
    ifft_outbuf := fun _ => [(0, 0), (0, 0), (0, 0), (128, 0), (64, 0), (0, 0), (0, 0), (0, 0)]
    RunPersistence := interiorMaxima }

/-- Peak rank 2, Doppler bins -500 and 500 (step 1000), 8 cells, threshold 1/2. -/
def cfgTwoBins : AcqConfig :=
  { d_peak := 2, d_threshold := 1 / 2, d_doppler_max := 500, d_doppler_step := 1000,
    d_samples_per_code := 8, d_fft_size := 8, d_num_doppler_bins := 2, d_max_dwells := 1,
    d_bit_transition_flag := false }

/-- Two correlation peaks of the same normalised magnitude 4: cell 1 of the bin at -500 Hz and
cell 5 of the bin at 500 Hz, each followed by a weaker cell of normalised magnitude 1. -/
def inpEqualPeaks : DwellInput :=
  { input := unitSamples
    ifft_outbuf := fun doppler_index =>
      if doppler_index = 0
      then [(0, 0), (128, 0), (64, 0), (0, 0), (0, 0), (0, 0), (0, 0), (0, 0)]
      else [(0, 0), (0, 0), (0, 0), (0, 0), (0, 0), (128, 0), (64, 0), (0, 0)]
    RunPersistence := interiorMaxima }

/-- Two correlation peaks in one Doppler bin: cell 1 (normalised magnitude 9) and cell 5
(normalised magnitude 4), each followed by a weaker cell of normalised magnitude 1. -/
def inpTwoPeaks : DwellInput :=
  { input := unitSamples
    ifft_outbuf := fun _ =>
      [(0, 0), (192, 0), (64, 0), (0, 0), (0, 0), (128, 0), (64, 0), (0, 0)]
    RunPersistence := interiorMaxima }

/-- Peak rank 2, one Doppler bin, 8 cells, threshold 1/2. -/
def cfgRankTwo : AcqConfig :=
  { d_peak := 2, d_threshold := 1 / 2, d_doppler_max := 0, d_doppler_step := 500,
    d_samples_per_code := 8, d_fft_size := 8, d_num_doppler_bins := 1, d_max_dwells := 1,
    d_bit_transition_flag := false }

/-- The discrepancy of the TOW check in the words of the specification: `|dT - dT'|` with
`dT = (timestamp - timestamp0)/1000` and `dT'` the signed difference of the GPS times
`week*604800 + tow`. -/
def claimedTowDiscrepancy (timestamp0 : ℚ) (week0 : Int) (tow0 : ℚ) (timestamp : ℚ)
    (week : Int) (tow : ℚ) : ℚ :=
  |(timestamp - timestamp0) / 1000
    - ((((week * 604800 : Int) : ℚ) + tow) - (((week0 * 604800 : Int) : ℚ) + tow0))|

/-- The record that `check_new_TOW` leaves in an empty `global_last_gps_time` for week 2048,
TOW 100 s, timestamp 1000 ms. -/
def towRecord : List (Int × ℚ) := [(0, 2048), (1, 100), (2, 1000)]

/-- Five satellites of week 2048 on subframe 1, four with TOW 345600 and one with TOW 345590,
received within 1 s of each other around the timestamp `t0`. -/
def gpsTimesE6 (t0 : ℚ) : List (Int × GPS_time_t) :=
  [(0, { week := 2048, TOW := 345600, timestamp := t0, subframe_id := 1 }),
    (1, { week := 2048, TOW := 345600, timestamp := t0 + 200, subframe_id := 1 }),
    (2, { week := 2048, TOW := 345600, timestamp := t0 + 400, subframe_id := 1 }),
    (3, { week := 2048, TOW := 345600, timestamp := t0 + 600, subframe_id := 1 }),
    (4, { week := 2048, TOW := 345590, timestamp := t0 + 800, subframe_id := 1 })]

/-- The subframes of one PRN in a copy of `global_subframe_map`, in the order of the UIDs. -/
def prnEntries (subframes : List (Int × Subframe)) (PRN : Nat) : List Subframe :=
  (subframes.map Prod.snd).filter (fun s => decide (s.PRN = PRN))

/-- The subframe `a` is the first entry of `es` with the smallest timestamp. -/
def IsFirstMin (es : List Subframe) (a : Subframe) : Prop :=
  ∃ i, es[i]? = some a ∧ (∀ x ∈ es, a.timestamp ≤ x.timestamp) ∧
    ∀ (j : Nat) (x : Subframe), j < i → es[j]? = some x → a.timestamp < x.timestamp

/-- The subframe `b` is the first entry of `es` with the largest timestamp. -/
def IsFirstMax (es : List Subframe) (b : Subframe) : Prop :=
  ∃ i, es[i]? = some b ∧ (∀ x ∈ es, x.timestamp ≤ b.timestamp) ∧
    ∀ (j : Nat) (x : Subframe), j < i → es[j]? = some x → x.timestamp < b.timestamp

/-- The update of `smallest` in the second loop of `check_RX_time`. -/
def rxMin (s x : Subframe) : Subframe := if s.timestamp > x.timestamp then x else s

/-- The update of `largest` in the second loop of `check_RX_time`. -/
def rxMax (s x : Subframe) : Subframe := if s.timestamp < x.timestamp then x else s

/-- Three peaks of PRN 7: UIDs 1 and 3 on subframe 1, UID 2 on subframe 2, received at
1000 ms, 1005 ms and 1010 ms. -/
def subframesThreePeaks : List (Int × Subframe) :=
  [(1, { subframe := "", subframe_id := 1, PRN := 7, timestamp := 1000 }),
    (2, { subframe := "", subframe_id := 2, PRN := 7, timestamp := 1005 }),
    (3, { subframe := "", subframe_id := 1, PRN := 7, timestamp := 1010 })]

/-- The locals `smallest` and `largest` of `check_RX_time` with zeroed members. -/
def declaredZero : Subframe × Subframe :=
  ({ subframe := "", subframe_id := 0, PRN := 0, timestamp := 0 },
    { subframe := "", subframe_id := 0, PRN := 0, timestamp := 0 })

/-! ## Acquisition: activation and the adapter -/

/-- The assignment of `max_dwells_` in the constructor of `GpsL1CaPcpsSdAcquisition`
(lines 73-82 of `gps_l1_ca_pcps_sd_acquisition.cc`); `configured` is the value of the
property `max_dwells`. The block constructor copies it to `d_max_dwells`, and no setter
changes it. -/
def adapterMaxDwells (bit_transition_flag_ : Bool) (configured : Nat) : Nat :=
  if !bit_transition_flag_ then configured else 2

/-- The step `case 0` of `general_work` (lines 212-233): an active block restarts the
acquisition variables and moves to state 1; the sample counter advances by
`d_fft_size * ninput_items[0]`. -/
def general_work_case0 (cfg : AcqConfig) (d_active : Bool) (ninput_items : Nat)
    (st : AcqState) : AcqState :=
  if d_active then
    { d_state := 1
      d_well_count := 0
      d_sample_counter := st.d_sample_counter + cfg.d_fft_size * ninput_items
      d_mag := 0
      d_input_power := 0
      d_test_statistics := 0
      Acq_delay_samples := 0
      Acq_doppler_hz := 0
      Acq_samplestamp_samples := 0 }
  else { st with d_sample_counter := st.d_sample_counter + cfg.d_fft_size * ninput_items }

/-- Peak rank 1 with `bit_transition_flag`, one Doppler bin, 8 cells, threshold 1/2, and the
two dwells that the adapter sets. -/
def cfgBitTransition : AcqConfig :=
  { d_peak := 1, d_threshold := 1 / 2, d_doppler_max := 0, d_doppler_step := 500,
    d_samples_per_code := 8, d_fft_size := 8, d_num_doppler_bins := 1,
    d_max_dwells := adapterMaxDwells true 1, d_bit_transition_flag := true }

/-! ## Spoofing detector: subframes of the peaks of one satellite -/

/-- Modelled from the spec: the member `add` of `concurrent_map` (the header `concurrent_map.h`
is not among the sources). The ledgers are "last-writer-wins" stores, and the counters of
`check_ap_subframe` can only grow ("track how many of subframes {1,2,3} have been compared")
if `add` replaces the value stored under the key. -/
def concurrent_map_add {β : Type} (m : List (Int × β)) (key : Int) (value : β) :
    List (Int × β) :=
  mapAssign m key value

/-- The member `read` of `concurrent_map`: the value stored under the key, if any. -/
def concurrent_map_read {β : Type} (m : List (Int × β)) (key : Int) : Option β :=
  mapAt m key

/-- The block of lines 620-637 (and again 639-654): the counter that `global_subframe_check`
holds for the pair `(idX, idY)` is read (0 when absent), incremented and stored. -/
def bumpCheck (check : List (Int × List (Nat × Nat))) (idX idY : Nat) :
    List (Int × List (Nat × Nat)) :=
  concurrent_map_add check (idX : Int)
    (mapAssign ((concurrent_map_read check (idX : Int)).getD []) idY
      ((mapAt ((concurrent_map_read check (idX : Int)).getD []) idY).getD 0 + 1))

/-- One turn of the loop of `check_ap_subframe` (lines 596-656) on the queue and
`global_subframe_check`. -/
def apStep (subframeA : Subframe) (idA PRN subframe_id : Nat)
    (acc : List Spoofing_Message × List (Int × List (Nat × Nat))) (e : Int × Subframe) :
    List Spoofing_Message × List (Int × List (Nat × Nat)) :=
  if e.2.PRN ≠ PRN ∨ e.2.subframe_id ≠ subframe_id ∨ e.1.toNat = idA then acc
  else if !(compare_subframes acc.1 subframeA e.2 (idA : Int) e.1).1 then
    ((compare_subframes acc.1 subframeA e.2 (idA : Int) e.1).2, acc.2)
  else if subframe_id ≠ 4 ∧ subframe_id ≠ 5 then
    ((compare_subframes acc.1 subframeA e.2 (idA : Int) e.1).2,
      bumpCheck (bumpCheck acc.2 idA e.1.toNat) e.1.toNat idA)
  else ((compare_subframes acc.1 subframeA e.2 (idA : Int) e.1).2, acc.2)

/-- The function `Spoofing_Detector::check_ap_subframe` on the queue, a copy of
`global_subframe_map` and `global_subframe_check`. -/
def check_ap_subframe (queue : List Spoofing_Message) (subframes : List (Int × Subframe))
    (check : List (Int × List (Nat × Nat))) (uid PRN subframe_id : Nat) :
    List Spoofing_Message × List (Int × List (Nat × Nat)) :=
  match mapAt subframes (uid : Int) with
  | some subframeA => subframes.foldl (apStep subframeA uid PRN subframe_id) (queue, check)
  | none => (queue, check)

/-- The function `Spoofing_Detector::checked_subframes` on `global_subframe_check`. -/
def checked_subframes (check : List (Int × List (Nat × Nat))) (id1 id2 : Nat) : Bool :=
  match concurrent_map_read check (id1 : Int) with
  | none => false
  | some c =>
    match mapAt c id2 with
    | none => false
    | some n => if n < 3 then false else true

/-- One turn of the loop of `check_inter_satellite_subframe` (lines 706-716). -/
def interStep (subframeA : Subframe) (idA subframe_id : Nat) (queue : List Spoofing_Message)
    (e : Int × Subframe) : List Spoofing_Message :=
  if e.2.subframe_id ≠ subframe_id ∨ e.1.toNat = idA then queue
  else (compare_subframes queue subframeA e.2 (idA : Int) e.1).2

/-- The function `Spoofing_Detector::check_inter_satellite_subframe` on the queue and a copy
of `global_subframe_map`. -/
def check_inter_satellite_subframe (queue : List Spoofing_Message)
    (subframes : List (Int × Subframe)) (uid subframe_id : Nat) : List Spoofing_Message :=
  match mapAt subframes (uid : Int) with
  | some subframeA => subframes.foldl (interStep subframeA uid subframe_id) queue
  | none => queue

/-- The ledger of two peaks of PRN 7 (UIDs 1 and 2) that both decoded the subframe
`subframe_id` at the timestamp `t`, with the payloads `payload1` and `payload2`. -/
def twoPeaksLedger (subframe_id : Nat) (t : ℚ) (payload1 payload2 : String) :
    List (Int × Subframe) :=
  [(1, { subframe := payload1, subframe_id := subframe_id, PRN := 7, timestamp := t }),
    (2, { subframe := payload2, subframe_id := subframe_id, PRN := 7, timestamp := t })]

/-- The ledger of one peak of PRN 3 (UID 1) and one peak of PRN 7 (UID 2) that both decoded
the subframe `subframe_id` at the timestamp 1000 ms, with the payloads "01" and "10". -/
def twoSatellitesLedger (subframe_id : Nat) : List (Int × Subframe) :=
  [(1, { subframe := "01", subframe_id := subframe_id, PRN := 3, timestamp := 1000 }),
    (2, { subframe := "10", subframe_id := subframe_id, PRN := 7, timestamp := 1000 })]

/-- The queue and `global_subframe_check` after the two peaks of PRN 7 have each checked
subframe 1 (received at 1000 ms) and UID 1 has checked subframe 2 (received at 7000 ms); all
payloads agree and no subframe 3 has been received. -/
def checkAfterTwoSubframes : List Spoofing_Message × List (Int × List (Nat × Nat)) :=
  check_ap_subframe [] (twoPeaksLedger 2 7000 "10" "10")
    (check_ap_subframe [] (twoPeaksLedger 1 1000 "01" "01")
      (check_ap_subframe [] (twoPeaksLedger 1 1000 "01" "01") [] 1 7 1).2 2 7 1).2 1 7 2

/-- The queue and `global_subframe_check` after three checks of subframe 1 by UID 1 while the
payloads of the two peaks differ. -/
def checkAfterThreeMismatches : List Spoofing_Message × List (Int × List (Nat × Nat)) :=
  check_ap_subframe
    (check_ap_subframe
      (check_ap_subframe [] (twoPeaksLedger 1 1000 "01" "10") [] 1 7 1).1
      (twoPeaksLedger 1 1000 "01" "10")
      (check_ap_subframe [] (twoPeaksLedger 1 1000 "01" "10") [] 1 7 1).2 1 7 1).1
    (twoPeaksLedger 1 1000 "01" "10")
    (check_ap_subframe
      (check_ap_subframe [] (twoPeaksLedger 1 1000 "01" "10") [] 1 7 1).1
      (twoPeaksLedger 1 1000 "01" "10")
      (check_ap_subframe [] (twoPeaksLedger 1 1000 "01" "10") [] 1 7 1).2 1 7 1).2 1 7 1

/-! ## Spoofing detector: satellite positions -/

/-- The `struct Satpos` held by `Satpos_map`. -/
structure Satpos where
  x : ℚ
  y : ℚ
  z : ℚ
  time : ℚ
deriving DecidableEq, Repr

/-- The function `Spoofing_Detector::check_satpos` on the queue and `Satpos_map`. `sqrt` is
the library function `sqrt`; `declared` is the local `p` as declared (the source does not
initialise it). Lines 211-214 assign `p.x = x; p.y = y; p.y = z; p.time = time`. -/
def check_satpos (sqrt : ℚ → ℚ) (declared : Satpos) (queue : List Spoofing_Message)
    (Satpos_map : List (Int × Satpos)) (sat : Nat) (time x y z : ℚ) :
    List Spoofing_Message × List (Int × Satpos) :=
  let r : Satpos × List Spoofing_Message :=
    match mapAt Satpos_map (sat : Int) with
    | some p =>
      let sat_speed : ℚ := 1400000 / (60 * 60)
      let distance : ℚ := sqrt ((p.x - x) ^ 2 + (p.y - y) ^ 2 + (p.z - z) ^ 2)
      let time_diff : ℚ := |time - p.time| / 1000
      if distance ≠ 0 ∧ (distance - time_diff * sat_speed > 500
          ∨ distance - time_diff * sat_speed < 10000) then
        (p, spoofing_detected queue "New satellite position for sat: " 5)
      else (p, queue)
    | none => (declared, queue)
  (r.2, mapAssign Satpos_map (sat : Int)
    { { { { r.1 with x := x } with y := y } with y := z } with time := time })

/-- The value of `sqrt` on the square of a rational number; the concrete reports below take
square roots of such values only. -/
def sqrtOfSquare (q : ℚ) : ℚ := (Nat.sqrt q.num.natAbs : ℚ) / (Nat.sqrt q.den : ℚ)

/-- The local `p` of `check_satpos` with zeroed members. -/
def declaredSatposZero : Satpos := { x := 0, y := 0, z := 0, time := 0 }

/-! ## Spoofing detector: position and orbit sanity -/

/-- The function `Spoofing_Detector::check_position` on the queue. -/
def check_position (d_max_alt : ℚ) (queue : List Spoofing_Message) (_lat _lng alt : ℚ) :
    List Spoofing_Message :=
  if alt < 0 then spoofing_detected queue "Height of position is negative" 4
  else if alt > d_max_alt then spoofing_detected queue "Height of position is above " 4
  else queue

/-- The function `Spoofing_Detector::check_middle_earth` on the queue. -/
def check_middle_earth (queue : List Spoofing_Message) (sqrtA : ℚ) : List Spoofing_Message :=
  if sqrtA = 0 then spoofing_detected queue "middle of the earth attack" 5 else queue

/-! ## Spoofing detector: C/N0 statistics -/

/-- A `boost::circular_buffer<double>`: its capacity and its elements, oldest first. -/
structure CircularBuffer where
  capacity : Nat
  items : List ℚ
deriving DecidableEq, Repr

/-- The member `push_back` of `boost::circular_buffer`: a full buffer drops its oldest
element, a buffer of capacity 0 stays empty. -/
def cbPushBack (cb : CircularBuffer) (x : ℚ) : CircularBuffer :=
  if cb.capacity = 0 then cb
  else if cb.items.length < cb.capacity then { cb with items := cb.items ++ [x] }
  else { cb with items := cb.items.tail ++ [x] }

/-- The function `Spoofing_Detector::StdDeviation`; `sqrt` is the library function. -/
def StdDeviation (sqrt : ℚ → ℚ) (v : List ℚ) : ℚ :=
  sqrt (((v.map (fun x => x - v.foldl (fun s y => s + y) 0 / (v.length : ℚ))).foldl
    (fun s d => s + d * d) 0) / (v.length : ℚ))

/-- The call `std::accumulate(first, last, 0)` of line 416: the initial value 0 is an `int`,
so the running sum is an `int` and every partial sum is converted back to `int`. -/
def accumulateInt (v : List ℚ) : Int :=
  v.foldl (fun (acc : Int) x => toInt ((acc : ℚ) + x)) 0

/-- The function `Spoofing_Detector::check_SNR`: the returned value, the queue and `stdev_cb`.
`CN0_dB_hz i` is `in[i][0].CN0_dB_hz`; the test `channels.size() < d_cno_count` compares
`size_t` values, so `d_cno_count` is taken modulo 2^64. -/
def check_SNR (sqrt : ℚ → ℚ) (d_cno_count : Int) (d_cno_min : ℚ)
    (queue : List Spoofing_Message) (stdev_cb : CircularBuffer) (channels : List Nat)
    (CN0_dB_hz : Nat → ℚ) : ℚ × List Spoofing_Message × CircularBuffer :=
  if (channels.length : Int) < d_cno_count % 18446744073709551616 then (0, queue, stdev_cb)
  else
    (StdDeviation sqrt (channels.map CN0_dB_hz),
      (if (cbPushBack stdev_cb (StdDeviation sqrt (channels.map CN0_dB_hz))).items.length ≥ 1000
        then
          if ((accumulateInt
                (cbPushBack stdev_cb (StdDeviation sqrt (channels.map CN0_dB_hz))).items : Int) : ℚ)
              / ((cbPushBack stdev_cb
                  (StdDeviation sqrt (channels.map CN0_dB_hz))).items.length : ℚ) < d_cno_min
          then spoofing_detected queue " the SNR stdev is below expected values, " 10
          else queue
        else queue),
      cbPushBack stdev_cb (StdDeviation sqrt (channels.map CN0_dB_hz)))

/-- The arithmetic mean of a list of values. -/
def arithmeticMean (v : List ℚ) : ℚ := v.sum / (v.length : ℚ)

/-- A sigma buffer of capacity 1000 that holds 999 values, all 0.9. -/
def sigmaBuffer : CircularBuffer := { capacity := 1000, items := List.replicate 999 (9 / 10) }

/-- Two channels with C/N0 40.1 and 41.9 dB-Hz, whose standard deviation is 0.9. -/
def twoChannelsCN0 (i : Nat) : ℚ := if i = 0 then 401 / 10 else 419 / 10

/-! ## Spoofing detector: external assistance data -/

/-- The members of `Gps_Ephemeris` that `compare_ephemeris` reads. -/
structure Gps_Ephemeris where
  i_satellite_PRN : Nat
  i_peak : Int
  d_TOW : ℚ
  d_Crs : ℚ
  d_Delta_n : ℚ
  d_M_0 : ℚ
  d_Cuc : ℚ
  d_e_eccentricity : ℚ
  d_Cus : ℚ
  d_sqrt_A : ℚ
  d_Toe : ℚ
  d_Toc : ℚ
  d_Cic : ℚ
  d_OMEGA0 : ℚ
  d_Cis : ℚ
  d_i_0 : ℚ
  d_Crc : ℚ
  d_OMEGA : ℚ
  d_OMEGA_DOT : ℚ
  d_IDOT : ℚ
  i_code_on_L2 : Int
  i_GPS_week : Int
  b_L2_P_data_flag : Bool
  i_SV_accuracy : Int
  i_SV_health : Int
  d_TGD : ℚ
  d_IODC : ℚ
  i_AODO : Int
  b_fit_interval_flag : Bool
  d_spare1 : ℚ
  d_spare2 : ℚ
  d_A_f0 : ℚ
  d_A_f1 : ℚ
  d_A_f2 : ℚ
  b_integrity_status_flag : Bool
  b_alert_flag : Bool
  b_antispoofing_flag : Bool
deriving DecidableEq

/-- The members of `Gps_Almanac` that `compare_almanac` reads, and `i_SV_health`, whose
comparison is commented out. -/
structure Gps_Almanac where
  i_satellite_PRN : Nat
  d_Delta_i : ℚ
  d_Toa : ℚ
  d_M_0 : ℚ
  d_e_eccentricity : ℚ
  d_sqrt_A : ℚ
  d_OMEGA0 : ℚ
  d_OMEGA : ℚ
  d_OMEGA_DOT : ℚ
  i_SV_health : Int
  d_A_f0 : ℚ
  d_A_f1 : ℚ
deriving DecidableEq

/-- The members of `Gps_Iono` that `compare_iono` reads. -/
structure Gps_Iono where
  d_alpha0 : ℚ
  d_alpha1 : ℚ
  d_alpha2 : ℚ
  d_alpha3 : ℚ
  d_beta0 : ℚ
  d_beta1 : ℚ
  d_beta2 : ℚ
  d_beta3 : ℚ
  valid : Bool
deriving DecidableEq

/-- The members of `Gps_Utc_Model` that `compare_utc` reads. -/
structure Gps_Utc_Model where
  valid : Bool
  d_A1 : ℚ
  d_A0 : ℚ
  d_t_OT : ℚ
  i_WN_T : Int
  d_DeltaT_LS : ℚ
  i_WN_LSF : Int
  i_DN : Int
  d_DeltaT_LSF : ℚ
deriving DecidableEq

/-- The members of `Gps_Ref_Time` that `check_external_gps_time` reads. -/
structure Gps_Ref_Time where
  valid : Bool
  d_Week : ℚ
  d_TOW : ℚ
deriving DecidableEq

/-- The flag `the_same` after a run of tests `if (a.f != b.f) the_same = false;`: it starts
true and every test that finds a difference clears it. -/
def theSame (differs : List Bool) : Bool :=
  differs.foldl (fun the_same d => if d then false else the_same) true

/-- The function `Spoofing_Detector::compare_ephemeris`, with its tests in the order of the
source (the last eight tests repeat earlier ones). -/
def compare_ephemeris (a b : Gps_Ephemeris) : Bool :=
  if a.i_satellite_PRN ≠ b.i_satellite_PRN then true
  else
    theSame
      [decide (a.i_peak ≠ b.i_peak), decide (a.d_TOW ≠ b.d_TOW), decide (a.d_Crs ≠ b.d_Crs),
        decide (a.d_Delta_n ≠ b.d_Delta_n), decide (a.d_M_0 ≠ b.d_M_0),
        decide (a.d_Cuc ≠ b.d_Cuc), decide (a.d_e_eccentricity ≠ b.d_e_eccentricity),
        decide (a.d_Cus ≠ b.d_Cus), decide (a.d_sqrt_A ≠ b.d_sqrt_A),
        decide (a.d_Toe ≠ b.d_Toe), decide (a.d_Toc ≠ b.d_Toc), decide (a.d_Cic ≠ b.d_Cic),
        decide (a.d_OMEGA0 ≠ b.d_OMEGA0), decide (a.d_Cis ≠ b.d_Cis),
        decide (a.d_i_0 ≠ b.d_i_0), decide (a.d_Crc ≠ b.d_Crc), decide (a.d_OMEGA ≠ b.d_OMEGA),
        decide (a.d_OMEGA_DOT ≠ b.d_OMEGA_DOT), decide (a.d_IDOT ≠ b.d_IDOT),
        decide (a.i_code_on_L2 ≠ b.i_code_on_L2), decide (a.i_GPS_week ≠ b.i_GPS_week),
        decide (a.b_L2_P_data_flag ≠ b.b_L2_P_data_flag),
        decide (a.i_SV_accuracy ≠ b.i_SV_accuracy), decide (a.i_SV_health ≠ b.i_SV_health),
        decide (a.d_TGD ≠ b.d_TGD), decide (a.d_IODC ≠ b.d_IODC), decide (a.i_AODO ≠ b.i_AODO),
        decide (a.b_fit_interval_flag ≠ b.b_fit_interval_flag),
        decide (a.d_spare1 ≠ b.d_spare1), decide (a.d_spare2 ≠ b.d_spare2),
        decide (a.d_A_f0 ≠ b.d_A_f0), decide (a.d_A_f1 ≠ b.d_A_f1),
        decide (a.d_A_f2 ≠ b.d_A_f2),
        decide (a.b_integrity_status_flag ≠ b.b_integrity_status_flag),
        decide (a.b_alert_flag ≠ b.b_alert_flag),
        decide (a.b_antispoofing_flag ≠ b.b_antispoofing_flag),
        decide (a.d_spare1 ≠ b.d_spare1), decide (a.d_spare2 ≠ b.d_spare2),
        decide (a.d_A_f0 ≠ b.d_A_f0), decide (a.d_A_f1 ≠ b.d_A_f1),
        decide (a.d_A_f2 ≠ b.d_A_f2),
        decide (a.b_integrity_status_flag ≠ b.b_integrity_status_flag),
        decide (a.b_alert_flag ≠ b.b_alert_flag),
        decide (a.b_antispoofing_flag ≠ b.b_antispoofing_flag)]

/-- The function `Spoofing_Detector::compare_almanac`. -/
def compare_almanac (a b : Gps_Almanac) : Bool :=
  if a.i_satellite_PRN ≠ b.i_satellite_PRN then true
  else
    theSame
      [decide (a.d_Delta_i ≠ b.d_Delta_i), decide (a.d_Toa ≠ b.d_Toa),
        decide (a.d_M_0 ≠ b.d_M_0), decide (a.d_e_eccentricity ≠ b.d_e_eccentricity),
        decide (a.d_sqrt_A ≠ b.d_sqrt_A), decide (a.d_OMEGA0 ≠ b.d_OMEGA0),
        decide (a.d_OMEGA ≠ b.d_OMEGA), decide (a.d_OMEGA_DOT ≠ b.d_OMEGA_DOT),
        decide (a.d_A_f0 ≠ b.d_A_f0), decide (a.d_A_f1 ≠ b.d_A_f1)]

/-- The function `Spoofing_Detector::compare_iono`. -/
def compare_iono (a b : Gps_Iono) : Bool :=
  theSame
    [decide (a.d_alpha0 ≠ b.d_alpha0), decide (a.d_alpha1 ≠ b.d_alpha1),
      decide (a.d_alpha2 ≠ b.d_alpha2), decide (a.d_alpha3 ≠ b.d_alpha3),
      decide (a.d_beta0 ≠ b.d_beta0), decide (a.d_beta1 ≠ b.d_beta1),
      decide (a.d_beta2 ≠ b.d_beta2), decide (a.d_beta3 ≠ b.d_beta3),
      decide (a.valid ≠ b.valid)]

/-- The function `Spoofing_Detector::compare_utc`. -/
def compare_utc (a b : Gps_Utc_Model) : Bool :=
  theSame
    [decide (a.valid ≠ b.valid), decide (a.d_A1 ≠ b.d_A1), decide (a.d_A0 ≠ b.d_A0),
      decide (a.d_t_OT ≠ b.d_t_OT), decide (a.i_WN_T ≠ b.i_WN_T),
      decide (a.d_DeltaT_LS ≠ b.d_DeltaT_LS), decide (a.i_WN_LSF ≠ b.i_WN_LSF),
      decide (a.i_DN ≠ b.i_DN), decide (a.d_DeltaT_LSF ≠ b.d_DeltaT_LSF)]

/-- The function `Spoofing_Detector::check_external_ephemeris` on the queue;
`gps_ephemeris_map` is the member of `supl_client_` after `lookup_external_nav_data`. -/
def check_external_ephemeris (queue : List Spoofing_Message)
    (gps_ephemeris_map : List (Int × Gps_Ephemeris)) (eph_internal : Gps_Ephemeris)
    (PRN : Int) : List Spoofing_Message :=
  match mapAt gps_ephemeris_map PRN with
  | some eph_external =>
    if !compare_ephemeris eph_internal eph_external then
      spoofing_detected queue
        "External ephemeris not consistent with ephemeris records from satellite " 0
    else queue
  | none => queue

/-- The function `Spoofing_Detector::check_external_utc` on the queue; `gps_utc` is the member
of `supl_client_` after `lookup_external_nav_data`. -/
def check_external_utc (queue : List Spoofing_Message) (gps_utc : Gps_Utc_Model)
    (internal : Gps_Utc_Model) : List Spoofing_Message :=
  if gps_utc.valid && internal.valid then
    if !compare_utc internal gps_utc then
      spoofing_detected queue
        "Externautc utc model not consistent with records from satellites " 0
    else queue
  else queue

/-- The function `Spoofing_Detector::check_external_iono` on the queue; `gps_iono` is the
member of `supl_client_` after `lookup_external_nav_data`. -/
def check_external_iono (queue : List Spoofing_Message) (gps_iono : Gps_Iono)
    (internal : Gps_Iono) : List Spoofing_Message :=
  if gps_iono.valid && internal.valid then
    if !compare_iono internal gps_iono then
      spoofing_detected queue
        "Externautc iono data not consistent with records from satellites " 0
    else queue
  else queue

/-- The function `Spoofing_Detector::check_external_gps_time` on the queue; `gps_time` is the
member of `supl_client_` after `lookup_external_nav_data`. -/
def check_external_gps_time (queue : List Spoofing_Message) (gps_time : Gps_Ref_Time)
    (internal_week internal_TOW : Int) : List Spoofing_Message :=
  if gps_time.valid then
    if toInt (gps_time.d_Week * (seconds_per_week : ℚ) + gps_time.d_TOW)
        ≠ internal_week * seconds_per_week + internal_TOW then
      spoofing_detected queue
        "Externautc gps time not consistent with records from satellites " 0
    else queue
  else queue

/-- One turn of the loop of `check_external_almanac` (lines 863-890). -/
def almanacStep (gps_almanac_map : List (Int × Gps_Almanac)) (queue : List Spoofing_Message)
    (e : Int × Gps_Almanac) : List Spoofing_Message :=
  match mapAt gps_almanac_map e.1 with
  | some external =>
    if !compare_almanac e.2 external then
      spoofing_detected queue
        "Externautc almanac data not consistent with records from satellite " 0
    else queue
  | none => queue

/-- The function `Spoofing_Detector::check_external_almanac` on the queue; `gps_almanac_map`
is the member of `supl_client_` after `lookup_external_nav_data`. -/
def check_external_almanac (queue : List Spoofing_Message)
    (gps_almanac_map : List (Int × Gps_Almanac)) (internal_map : List (Int × Gps_Almanac)) :
    List Spoofing_Message :=
  internal_map.foldl (almanacStep gps_almanac_map) queue

/-- An ephemeris record of PRN 3 with `d_IODC = 10`. -/
def ephPRN3 : Gps_Ephemeris :=
  { i_satellite_PRN := 3, i_peak := 1, d_TOW := 345600, d_Crs := 1, d_Delta_n := 2, d_M_0 := 3,
    d_Cuc := 4, d_e_eccentricity := 1 / 100, d_Cus := 5, d_sqrt_A := 5153, d_Toe := 345600,
    d_Toc := 345600, d_Cic := 6, d_OMEGA0 := 7, d_Cis := 8, d_i_0 := 9, d_Crc := 10,
    d_OMEGA := 11, d_OMEGA_DOT := 12, d_IDOT := 13, i_code_on_L2 := 1, i_GPS_week := 2048,
    b_L2_P_data_flag := false, i_SV_accuracy := 0, i_SV_health := 0, d_TGD := 0, d_IODC := 10,
    i_AODO := 0, b_fit_interval_flag := false, d_spare1 := 0, d_spare2 := 0, d_A_f0 := 0,
    d_A_f1 := 0, d_A_f2 := 0, b_integrity_status_flag := false, b_alert_flag := false,
    b_antispoofing_flag := false }

/-- The members that the five-argument constructor of `Spoofing_Detector` assigns. -/
structure DetectorTimeMembers where
  d_ap_detection : Bool
  d_inter_satellite_check : Bool
  d_external_nav_check : Bool
  d_max_rx_discrepancy : ℚ
  d_max_tow_discrepancy : ℚ
deriving DecidableEq, Repr

/-- The five-argument constructor of `Spoofing_Detector` (lines 75-83): line 80 converts the
argument from ns to ms and line 81 overwrites the member with 0.0005. -/
def Spoofing_Detector_time (ap_detection inter_satellite_check external_nav_check : Bool)
    (max_rx_discrepancy max_tow_discrepancy : ℚ) : DetectorTimeMembers :=
  { ({ d_ap_detection := ap_detection
       d_inter_satellite_check := inter_satellite_check
       d_external_nav_check := external_nav_check
       d_max_rx_discrepancy := max_rx_discrepancy / 1000000
       d_max_tow_discrepancy := max_tow_discrepancy / 1000 } : DetectorTimeMembers) with
    d_max_rx_discrepancy := 5 / 10000 }

/-- The members that the eight-argument constructor of `Spoofing_Detector` assigns. -/
structure DetectorSnrMembers where
  d_ap_detection : Bool
  d_cno_detection : Bool
  d_cno_count : Int
  d_cno_min : ℚ
  d_alt_detection : Bool
  d_max_alt : ℚ
  d_satpos_detection : Bool
  d_snr_moving_avg_window : Int
  stdev_cb : CircularBuffer
deriving DecidableEq, Repr

/-- The eight-argument constructor of `Spoofing_Detector` (lines 85-97). The capacity of
`stdev_cb` is the window converted to `size_t`; for a negative window that is more than
`max_size()` and the constructor of `boost::circular_buffer` throws (`none`). -/
def Spoofing_Detector_snr (ap_detection cno_detection : Bool) (cno_count : Int) (cno_min : ℚ)
    (alt_detection : Bool) (max_alt : ℚ) (satpos_detection : Bool)
    (snr_moving_avg_window : Int) : Option DetectorSnrMembers :=
  if snr_moving_avg_window < 0 then none
  else
    some
      { d_ap_detection := ap_detection
        d_cno_detection := cno_detection
        d_cno_count := cno_count
        d_cno_min := cno_min
        d_alt_detection := alt_detection
        d_max_alt := max_alt
        d_satpos_detection := satpos_detection
        d_snr_moving_avg_window := snr_moving_avg_window
        stdev_cb := { capacity := snr_moving_avg_window.toNat, items := [] } }

/-- One call of `check_SNR` in a sequence: the queue and `stdev_cb` after the call with the
channels `call.1` and the C/N0 values `call.2`. -/
def snrCall (sqrt : ℚ → ℚ) (d_cno_count : Int) (d_cno_min : ℚ)
    (acc : List Spoofing_Message × CircularBuffer) (call : List Nat × (Nat → ℚ)) :
    List Spoofing_Message × CircularBuffer :=
  (check_SNR sqrt d_cno_count d_cno_min acc.1 acc.2 call.1 call.2).2

/-! ## Acquisition: counting the Doppler bins -/

/-- The expression `(d_sample_counter % (rate_ms / 4)) == 0`. The division by 4 truncates;
a remainder by 0 has no value (`none`). The counter and the rates are integer members whose
declarations are in a header that is not among the sources. -/
def counterIsMultiple (d_sample_counter : Nat) (rate_ms : Int) : Option Bool :=
  if Int.tdiv rate_ms 4 = 0 then none
  else some (decide ((d_sample_counter : Int) % Int.tdiv rate_ms 4 = 0))

/-- The condition `((d_sample_counter % (rate_ms / 4)) == 0) && (rate_ms != 0)` of lines 410,
417, 460 and 468: the remainder is the left operand of `&&` and is evaluated first. -/
def rtcmDue (d_sample_counter : Nat) (rate_ms : Int) : Option Bool :=
  (counterIsMultiple d_sample_counter rate_ms).bind
    (fun isMultiple => some (isMultiple && decide (rate_ms ≠ 0)))

/-- The condition of line 424, `(d_sample_counter % (MT1097 / 4)) == 0 ||
(d_sample_counter % (MT1077 / 4)) == 0`: the right operand is evaluated when the left one
is false. -/
def rtcmEitherMsm (d_sample_counter : Nat) (d_rtcm_MT1077_rate_ms d_rtcm_MT1097_rate_ms : Int) :
    Option Bool :=
  (counterIsMultiple d_sample_counter d_rtcm_MT1097_rate_ms).bind
    (fun isMultiple =>
      if isMultiple then some true
      else counterIsMultiple d_sample_counter d_rtcm_MT1077_rate_ms)

/-- The branch `if(b_rtcm_writing_started)` of `hybrid_pvt_cc::general_work` (lines 408-475):
the message types handed to `d_rtcm_printer`, in order, or `none` when a remainder by 0 is
evaluated. `gps_ephemerides` and `galileo_ephemerides` are the sizes of the two ephemeris
maps; `gps_found` and `gal_found` tell whether the search over the pseudoranges left the
iterators on an ephemeris. -/
def rtcm_writing (d_sample_counter : Nat)
    (d_rtcm_MT1019_rate_ms d_rtcm_MT1045_rate_ms d_rtcm_MT1077_rate_ms
      d_rtcm_MT1097_rate_ms : Int)
    (gps_ephemerides galileo_ephemerides : Nat) (gps_found gal_found : Bool) :
    Option (List Nat) :=
  (rtcmDue d_sample_counter d_rtcm_MT1019_rate_ms).bind fun due1019 =>
  (rtcmDue d_sample_counter d_rtcm_MT1045_rate_ms).bind fun due1045 =>
  (rtcmEitherMsm d_sample_counter d_rtcm_MT1077_rate_ms d_rtcm_MT1097_rate_ms).bind fun msm =>
  (if msm then
      (rtcmDue d_sample_counter d_rtcm_MT1097_rate_ms).bind fun due1097 =>
      (rtcmDue d_sample_counter d_rtcm_MT1077_rate_ms).bind fun due1077 =>
      some ((if due1097 && gal_found then [1097] else [])
        ++ (if due1077 && gps_found then [1077] else []))
    else some []).bind fun printedMsm =>
  some ((if due1019 then List.replicate gps_ephemerides 1019 else [])
    ++ (if due1045 then List.replicate galileo_ephemerides 1045 else [])
    ++ printedMsm)

/-- The branch `if(!b_rtcm_writing_started)` (lines 477-538), which compares each rate with 0
and takes no remainder: the message types that are printed the first time. -/
def rtcm_first_time (d_rtcm_MT1019_rate_ms d_rtcm_MT1045_rate_ms d_rtcm_MT1077_rate_ms
      d_rtcm_MT1097_rate_ms : Int)
    (gps_ephemerides galileo_ephemerides : Nat) (gps_found gal_found : Bool) : List Nat :=
  (if d_rtcm_MT1019_rate_ms ≠ 0 then List.replicate gps_ephemerides 1019 else [])
    ++ (if d_rtcm_MT1045_rate_ms ≠ 0 then List.replicate galileo_ephemerides 1045 else [])
    ++ (if gps_found && decide (d_rtcm_MT1077_rate_ms ≠ 0) then [1077] else [])
    ++ (if gal_found && decide (d_rtcm_MT1097_rate_ms ≠ 0) then [1097] else [])

/-! ## Acquisition: the rows handed to the extrema finder -/

/-- The squared correlation magnitudes `d_magnitude` of one Doppler bin (line 335). -/
def gridMagnitude (cfg : AcqConfig) (inp : DwellInput) (doppler_index : Nat) : List ℚ :=
  volk_32fc_magnitude_squared_32f (inp.ifft_outbuf doppler_index) cfg.d_fft_size

/-- The value of `threshold_spoofing` at line 312. -/
def thresholdSpoofing (cfg : AcqConfig) (inp : DwellInput) : ℚ :=
  cfg.d_threshold * inputPower cfg inp
    * (((cfg.d_fft_size : ℚ) * (cfg.d_fft_size : ℚ))
      * ((cfg.d_fft_size : ℚ) * (cfg.d_fft_size : ℚ)))

/-- The value of `tmp` (lines 344-354) after the cells `0 .. k-1` of a row: 0 before the
first cell, refreshed at a cell above `threshold_spoofing`, kept at the other cells. -/
def tmpAfter (d_magnitude : List ℚ) (threshold_spoofing nf : ℚ) : Nat → ℚ
  | 0 => 0
  | k + 1 =>
    if d_magnitude.getD k 0 > threshold_spoofing then d_magnitude.getD k 0 / (nf * nf)
    else tmpAfter d_magnitude threshold_spoofing nf k

/-- The normalised magnitude of a cell: its squared correlation magnitude divided by
`fft_normalization_factor^2`, which is `d_fft_size^4`. -/
def cellMagnitude (cfg : AcqConfig) (inp : DwellInput) (doppler_index i : Nat) : ℚ :=
  (gridMagnitude cfg inp doppler_index).getD i 0
    / (((cfg.d_fft_size : ℚ) * (cfg.d_fft_size : ℚ))
      * ((cfg.d_fft_size : ℚ) * (cfg.d_fft_size : ℚ)))

/-- The row of `peaks2` that the block of lines 429-446 reads for a Doppler bin after the
Doppler loop of a dwell. -/
def extremaRow (cfg : AcqConfig) (inp : DwellInput) (st : AcqState) (doppler_index : Nat) :
    Option (List ℚ) :=
  mapAt (searchPhase cfg inp st).2 (binDoppler cfg doppler_index)

/-! ## Acquisition: dwells on particular sample blocks -/

/-- An all-zero sample block: every sample of `in` is zero, and so is every cell of
`d_ifft->get_outbuf()`, since the FFT chain of lines 320-332 is linear in the samples. -/
def ZeroBlock (inp : DwellInput) : Prop :=
  (∀ i : Nat, inp.input.getD i (0, 0) = (0, 0)) ∧
    ∀ doppler_index i : Nat, (inp.ifft_outbuf doppler_index).getD i (0, 0) = (0, 0)

/-- A block of 8 zero samples and its correlation. -/
def inpZeroBlock : DwellInput :=
  { input := List.replicate 8 (0, 0)
    ifft_outbuf := fun _ => List.replicate 8 (0, 0)
    RunPersistence := interiorMaxima }

/-! ## Acquisition: the running test statistic -/

/-- The normalised magnitudes of all the cells of the search grid of a dwell. -/
def gridCells (cfg : AcqConfig) (inp : DwellInput) : List ℚ :=
  (List.range cfg.d_num_doppler_bins).flatMap
    (fun doppler_index => (List.range cfg.d_fft_size).map (cellMagnitude cfg inp doppler_index))

/-- The largest normalised magnitude of the search grid of a dwell (0 for an empty grid;
magnitudes are not negative). -/
def gridMaximum (cfg : AcqConfig) (inp : DwellInput) : ℚ :=
  (gridCells cfg inp).foldl max 0

/-- The test statistic of one dwell: its largest normalised magnitude divided by its input
power. -/
def dwellStatistic (cfg : AcqConfig) (inp : DwellInput) : ℚ :=
  gridMaximum cfg inp / inputPower cfg inp

/-- The dwells of one acquisition on consecutive sample blocks: `general_work` runs `case 1`
while `d_state` is 1. -/
def runDwells (cfg : AcqConfig) : List DwellInput → AcqState → AcqState
  | [], st => st
  | inp :: rest, st =>
    if st.d_state = 1 then runDwells cfg rest (general_work_case1 cfg inp st) else st

/-! # Theorems -/

/-! ## The containers -/

theorem mem_mapAssign {κ β : Type} [LinearOrder κ] (m : List (κ × β)) (k : κ) (v : β)
    (x : κ × β) (hx : x ∈ mapAssign m k v) : x = (k, v) ∨ x ∈ m := by
  induction m with
  | nil => simpa [mapAssign] using hx
  | cons h t ih =>
    obtain ⟨k', v'⟩ := h
    simp only [mapAssign] at hx
    split_ifs at hx with h1 h2
    · rcases List.mem_cons.1 hx with h | h
      · exact Or.inl h
      · exact Or.inr h
    · rcases List.mem_cons.1 hx with h | h
      · exact Or.inl h
      · exact Or.inr (List.mem_cons_of_mem _ h)
    · rcases List.mem_cons.1 hx with h | h
      · exact Or.inr (h ▸ List.mem_cons_self _ _)
      · rcases ih h with h | h
        · exact Or.inl h
        · exact Or.inr (List.mem_cons_of_mem _ h)

theorem mapAssign_sorted {κ β : Type} [LinearOrder κ] (m : List (κ × β)) (k : κ) (v : β)
    (h : m.Pairwise (fun a b => a.1 < b.1)) :
    (mapAssign m k v).Pairwise (fun a b => a.1 < b.1) := by
  induction m with
  | nil => simp [mapAssign]
  | cons e t ih =>
    obtain ⟨k', v'⟩ := e
    have ht := List.pairwise_cons.1 h
    simp only [mapAssign]
    split_ifs with h1 h2
    · refine List.pairwise_cons.2 ⟨?_, h⟩
      intro b hb
      rcases List.mem_cons.1 hb with hb | hb
      · subst hb; exact h1
      · exact lt_trans h1 (ht.1 b hb)
    · subst h2
      exact List.pairwise_cons.2 ⟨ht.1, ht.2⟩
    · refine List.pairwise_cons.2 ⟨?_, ih ht.2⟩
      intro b hb
      rcases mem_mapAssign t k v b hb with hb | hb
      · subst hb
        exact lt_of_le_of_ne (not_lt.1 h1) (Ne.symm h2)
      · exact ht.1 b hb

/-! ## The de-duplication walk -/

theorem overlaps_comm (step : Nat) (p q : Peak) : overlaps step p q = overlaps step q p := by
  simp only [overlaps, abs_sub_comm p.code_phase q.code_phase, abs_sub_comm p.doppler q.doppler]

theorem foldl_flag_true {α : Type} (c : α → Bool) (l : List α) (b : Bool)
    (h : l.foldl (fun u q => if c q then false else u) b = true) :
    b = true ∧ ∀ q ∈ l, c q = false := by
  induction l generalizing b with
  | nil => exact ⟨by simpa using h, by simp⟩
  | cons x t ih =>
    simp only [List.foldl_cons] at h
    obtain ⟨h1, h2⟩ := ih _ h
    by_cases hc : c x = true
    · simp [hc] at h1
    · simp only [hc] at h1
      refine ⟨by simpa using h1, ?_⟩
      intro q hq
      rcases List.mem_cons.1 hq with h | h
      · subst h; simpa using hc
      · exact h2 q h

theorem usePeak_true (step : Nat) (reduced : List (ℚ × Peak)) (p : Peak)
    (h : usePeak step reduced p = true) : ∀ q ∈ reduced, overlaps step p q.2 = false := by
  intro q hq
  exact (foldl_flag_true (fun q : ℚ × Peak => overlaps step p q.2) reduced.reverse true h).2 q
    (List.mem_reverse.2 hq)

theorem dedupStep_nonOverlapping (step : Nat) (r : List (ℚ × Peak)) (e : ℚ × Peak)
    (hr : NonOverlapping step r) : NonOverlapping step (dedupStep step r e) := by
  unfold dedupStep
  split_ifs with hu
  · have hno := usePeak_true step r e.2 hu
    intro a ha b hb hab
    rcases mem_mapAssign r e.1 e.2 a ha with ha | ha <;>
      rcases mem_mapAssign r e.1 e.2 b hb with hb | hb
    · exact absurd (ha.trans hb.symm) hab
    · rw [ha]; exact hno b hb
    · rw [hb, overlaps_comm]; exact hno a ha
    · exact hr a ha b hb hab
  · exact hr

theorem foldl_dedupStep_nonOverlapping (step : Nat) (l r : List (ℚ × Peak))
    (hr : NonOverlapping step r) : NonOverlapping step (l.foldl (dedupStep step) r) := by
  induction l generalizing r with
  | nil => exact hr
  | cons e t ih => exact ih _ (dedupStep_nonOverlapping step r e hr)

theorem dedupWalk_nonOverlapping (step : Nat) (hp : List (ℚ × Peak)) :
    NonOverlapping step (dedupWalk step hp) :=
  foldl_dedupStep_nonOverlapping step _ [] (by intro a ha; simp at ha)

theorem dedupStep_sorted (step : Nat) (r : List (ℚ × Peak)) (e : ℚ × Peak)
    (hr : r.Pairwise (fun a b => a.1 < b.1)) :
    (dedupStep step r e).Pairwise (fun a b => a.1 < b.1) := by
  unfold dedupStep
  split_ifs
  · exact mapAssign_sorted r e.1 e.2 hr
  · exact hr

theorem foldl_dedupStep_sorted (step : Nat) (l r : List (ℚ × Peak))
    (hr : r.Pairwise (fun a b => a.1 < b.1)) :
    (l.foldl (dedupStep step) r).Pairwise (fun a b => a.1 < b.1) := by
  induction l generalizing r with
  | nil => exact hr
  | cons e t ih => exact ih _ (dedupStep_sorted step r e hr)

theorem dedupWalk_sorted (step : Nat) (hp : List (ℚ × Peak)) :
    (dedupWalk step hp).Pairwise (fun a b => a.1 < b.1) :=
  foldl_dedupStep_sorted step _ [] List.Pairwise.nil

theorem foldl_dedupStep_mem (step : Nat) (l r : List (ℚ × Peak)) (x : ℚ × Peak)
    (hx : x ∈ l.foldl (dedupStep step) r) : x ∈ r ∨ x ∈ l := by
  induction l generalizing r with
  | nil => exact Or.inl hx
  | cons e t ih =>
    rcases ih _ hx with h | h
    · unfold dedupStep at h
      split_ifs at h
      · rcases mem_mapAssign r e.1 e.2 x h with h | h
        · exact Or.inr (h ▸ List.mem_cons_self _ _)
        · exact Or.inl h
      · exact Or.inl h
    · exact Or.inr (List.mem_cons_of_mem _ h)

theorem dedupWalk_mem (step : Nat) (hp : List (ℚ × Peak)) (x : ℚ × Peak)
    (hx : x ∈ dedupWalk step hp) : x ∈ hp := by
  rcases foldl_dedupStep_mem step hp.reverse [] x hx with h | h
  · simp at h
  · exact List.mem_reverse.1 h

/-- C1. Any two distinct peaks kept in `d_highest_peaks_reduced` by the de-duplication walk
differ by more than 2 samples in code phase or by more than `d_doppler_step` in Doppler,
whatever candidate peaks the walk is fed. -/
theorem dedup_kept_peaks_do_not_overlap (d_doppler_step : Nat)
    (d_highest_peaks : List (ℚ × Peak)) (p q : ℚ × Peak)
    (hp : p ∈ dedupWalk d_doppler_step d_highest_peaks)
    (hq : q ∈ dedupWalk d_doppler_step d_highest_peaks) (hpq : p ≠ q) :
    |p.2.code_phase - q.2.code_phase| > 2 ∨
      |p.2.doppler - q.2.doppler| > (d_doppler_step : Int) := by
  have h := dedupWalk_nonOverlapping d_doppler_step d_highest_peaks p hp q hq hpq
  simp only [overlaps, Bool.and_eq_false_iff, decide_eq_false_iff_not, not_le] at h
  exact h


/-! ## The candidate peaks -/

theorem collectRow_keyMag (cfg : AcqConfig) (doppler : Int) (dp : List ℚ) (extrema : List Nat)
    (hp : List (ℚ × Peak)) (h : KeyIsMag hp) :
    KeyIsMag (collectRow cfg doppler dp extrema hp) := by
  unfold collectRow
  induction extrema generalizing hp with
  | nil => exact h
  | cons i t ih =>
    refine ih _ ?_
    intro x hx
    rcases mem_mapAssign _ _ _ x hx with hx | hx
    · rw [hx]
    · exact h x hx

theorem collectCandidates_keyMag (cfg : AcqConfig) (RunPersistence : List ℚ → List Nat)
    (thr : ℚ) (peaks2 : List (Int × List ℚ)) :
    KeyIsMag (collectCandidates cfg RunPersistence thr peaks2) := by
  unfold collectCandidates
  suffices h : ∀ hp : List (ℚ × Peak), KeyIsMag hp →
      KeyIsMag (peaks2.foldl (fun hp row =>
        if maxElement row.2 < thr then hp
        else collectRow cfg row.1 row.2 (RunPersistence row.2) hp) hp) from
    h [] (by intro x hx; simp at hx)
  induction peaks2 with
  | nil => intro hp h; exact h
  | cons row t ih =>
    intro hp h
    simp only [List.foldl_cons]
    split_ifs
    · exact ih hp h
    · exact ih _ (collectRow_keyMag cfg _ _ _ hp h)

theorem peakList_keyMag (cfg : AcqConfig) (inp : DwellInput) (st : AcqState) :
    KeyIsMag (peakList cfg inp st) := by
  intro x hx
  have h1 : x ∈ reducedPeaks cfg inp st := List.mem_reverse.1 hx
  exact collectCandidates_keyMag cfg _ _ _ x (dedupWalk_mem _ _ x h1)

theorem peakList_sorted (cfg : AcqConfig) (inp : DwellInput) (st : AcqState) :
    (peakList cfg inp st).Pairwise (fun a b => b.2.mag < a.2.mag) := by
  have hs : (peakList cfg inp st).Pairwise (fun a b => b.1 < a.1) := by
    unfold peakList reducedPeaks
    exact List.pairwise_reverse.2 (dedupWalk_sorted _ _)
  have hk := peakList_keyMag cfg inp st
  refine List.Pairwise.imp_of_mem ?_ hs
  intro a b ha hb hab
  rw [← hk a ha, ← hk b hb]
  exact hab

/-! ## The selection of the peak of rank `d_peak` -/

theorem foldl_selectStep_past (cfg : AcqConfig) (l : List (ℚ × Peak))
    (acc : (Bool × AcqState) × Nat) (h : cfg.d_peak < acc.2) :
    (l.foldl (selectStep cfg) acc).1 = acc.1 := by
  induction l generalizing acc with
  | nil => rfl
  | cons e t ih =>
    have hne : acc.2 ≠ cfg.d_peak := by omega
    have hstep : selectStep cfg acc e = (acc.1, acc.2 + 1) := by
      simp [selectStep, hne]
    rw [List.foldl_cons, hstep, ih]
    show cfg.d_peak < acc.2 + 1
    omega

theorem foldl_selectStep_hit (cfg : AcqConfig) (l : List (ℚ × Peak))
    (acc : (Bool × AcqState) × Nat) (e : ℚ × Peak) (hi : acc.2 ≤ cfg.d_peak)
    (he : l[cfg.d_peak - acc.2]? = some e) :
    (l.foldl (selectStep cfg) acc).1 = (true, reportPeak acc.1.2 e) := by
  induction l generalizing acc with
  | nil => simp at he
  | cons x t ih =>
    by_cases hk : acc.2 = cfg.d_peak
    · have hstep : selectStep cfg acc x = ((true, reportPeak acc.1.2 x), acc.2 + 1) := by
        simp [selectStep, hk]
      have hx : x = e := by
        rw [hk, Nat.sub_self] at he
        simpa using he
      rw [List.foldl_cons, hstep, foldl_selectStep_past, hx]
      show cfg.d_peak < acc.2 + 1
      omega
    · have hstep : selectStep cfg acc x = (acc.1, acc.2 + 1) := by
        simp [selectStep, hk]
      have hlt : acc.2 < cfg.d_peak := lt_of_le_of_ne hi hk
      have hidx : cfg.d_peak - acc.2 = (cfg.d_peak - (acc.2 + 1)) + 1 := by omega
      rw [hidx, List.getElem?_cons_succ] at he
      rw [List.foldl_cons, hstep]
      exact ih (acc.1, acc.2 + 1) (by show acc.2 + 1 ≤ cfg.d_peak; omega) he

theorem selectPeak_hit (cfg : AcqConfig) (reduced : List (ℚ × Peak)) (st : AcqState)
    (e : ℚ × Peak) (hk : 1 ≤ cfg.d_peak) (he : reduced.reverse[cfg.d_peak - 1]? = some e) :
    selectPeak cfg reduced st = (true, reportPeak st e) := by
  have hlen : cfg.d_peak - 1 < reduced.reverse.length := by
    by_contra hcon
    rw [List.getElem?_eq_none (not_lt.1 hcon)] at he
    exact absurd he (by simp)
  rw [List.length_reverse] at hlen
  have h0 : ¬ (cfg.d_peak = 0 ∧ reduced.length > 0) := by omega
  have h1 : reduced.length ≥ cfg.d_peak := by omega
  unfold selectPeak
  rw [if_neg h0, if_pos h1]
  exact foldl_selectStep_hit cfg reduced.reverse ((false, st), 1) e hk he

theorem recordMax_kept (cfg : AcqConfig) (st : AcqState) (magt : ℚ) (indext : Nat)
    (doppler : Int) :
    (recordMax cfg st magt indext doppler).d_input_power = st.d_input_power ∧
    (recordMax cfg st magt indext doppler).d_well_count = st.d_well_count ∧
    (recordMax cfg st magt indext doppler).d_state = st.d_state ∧
    (recordMax cfg st magt indext doppler).d_sample_counter = st.d_sample_counter := by
  unfold recordMax
  split_ifs <;> simp

theorem foldl_dopplerStep_kept (cfg : AcqConfig) (inp : DwellInput) (thr : ℚ) (l : List Nat)
    (acc : AcqState × List (Int × List ℚ)) :
    (l.foldl (dopplerStep cfg inp thr) acc).1.d_input_power = acc.1.d_input_power ∧
    (l.foldl (dopplerStep cfg inp thr) acc).1.d_well_count = acc.1.d_well_count ∧
    (l.foldl (dopplerStep cfg inp thr) acc).1.d_state = acc.1.d_state ∧
    (l.foldl (dopplerStep cfg inp thr) acc).1.d_sample_counter = acc.1.d_sample_counter := by
  induction l generalizing acc with
  | nil => simp
  | cons i t ih =>
    rw [List.foldl_cons]
    obtain ⟨h1, h2, h3, h4⟩ := ih (dopplerStep cfg inp thr acc i)
    obtain ⟨g1, g2, g3, g4⟩ := recordMax_kept cfg acc.1
      ((volk_32fc_magnitude_squared_32f (inp.ifft_outbuf i) cfg.d_fft_size).getD
        (volk_32f_index_max_16u
          (volk_32fc_magnitude_squared_32f (inp.ifft_outbuf i) cfg.d_fft_size) cfg.d_fft_size) 0
        / (((cfg.d_fft_size : ℚ) * (cfg.d_fft_size : ℚ))
          * ((cfg.d_fft_size : ℚ) * (cfg.d_fft_size : ℚ))))
      (volk_32f_index_max_16u
          (volk_32fc_magnitude_squared_32f (inp.ifft_outbuf i) cfg.d_fft_size) cfg.d_fft_size)
      (binDoppler cfg i)
    exact ⟨h1.trans g1, h2.trans g2, h3.trans g3, h4.trans g4⟩

theorem searchPhase_kept (cfg : AcqConfig) (inp : DwellInput) (st : AcqState) :
    (searchPhase cfg inp st).1.d_input_power = inputPower cfg inp ∧
    (searchPhase cfg inp st).1.d_well_count = st.d_well_count + 1 ∧
    (searchPhase cfg inp st).1.d_state = st.d_state ∧
    (searchPhase cfg inp st).1.d_sample_counter = st.d_sample_counter + cfg.d_fft_size := by
  unfold searchPhase
  obtain ⟨h1, h2, h3, h4⟩ := foldl_dopplerStep_kept cfg inp
    (cfg.d_threshold * (volk_32f_accumulator_s32f
        (volk_32fc_magnitude_squared_32f inp.input cfg.d_fft_size) cfg.d_fft_size
        / (cfg.d_fft_size : ℚ))
      * (((cfg.d_fft_size : ℚ) * (cfg.d_fft_size : ℚ))
        * ((cfg.d_fft_size : ℚ) * (cfg.d_fft_size : ℚ))))
    (List.range cfg.d_num_doppler_bins)
    ({ st with
        d_input_power := volk_32f_accumulator_s32f
          (volk_32fc_magnitude_squared_32f inp.input cfg.d_fft_size) cfg.d_fft_size
          / (cfg.d_fft_size : ℚ)
        d_mag := 0
        d_sample_counter := st.d_sample_counter + cfg.d_fft_size
        d_well_count := st.d_well_count + 1 }, initPeaks2 cfg)
  exact ⟨h1, h2, h3, h4⟩


/-! ## The verdict of a dwell -/

theorem verdict_kept (cfg : AcqConfig) (aux found : Bool) (st : AcqState) :
    (verdict cfg aux found st).d_test_statistics = st.d_test_statistics ∧
    (verdict cfg aux found st).Acq_delay_samples = st.Acq_delay_samples ∧
    (verdict cfg aux found st).Acq_doppler_hz = st.Acq_doppler_hz ∧
    (verdict cfg aux found st).d_input_power = st.d_input_power := by
  unfold verdict
  split_ifs <;> simp

theorem auxPhase_hit (cfg : AcqConfig) (inp : DwellInput) (st : AcqState) (e : ℚ × Peak)
    (hk : 2 ≤ cfg.d_peak) (he : (peakList cfg inp st)[cfg.d_peak - 1]? = some e) :
    auxPhase cfg inp st = (true, reportPeak (searchPhase cfg inp st).1 e) := by
  have h1 : cfg.d_peak ≠ 1 := by omega
  unfold auxPhase
  rw [if_pos h1]
  exact selectPeak_hit cfg _ _ e (by omega) he

theorem auxPhase_rank_one (cfg : AcqConfig) (inp : DwellInput) (st : AcqState)
    (hk : cfg.d_peak = 1) : auxPhase cfg inp st = (false, (searchPhase cfg inp st).1) := by
  unfold auxPhase
  rw [if_neg (by simp [hk])]

/-- C4. For a peak rank `k >= 2` and a list `L` of at least `k` de-duplicated peaks, `L` is in
strictly descending order of magnitude and the dwell leaves `Acq_delay_samples` and
`Acq_doppler_hz` at the code phase and Doppler of `L[k-1]` and `d_test_statistics` at the
magnitude of `L[k-1]` divided by the input power of the dwell. -/
theorem dwell_reports_peak_of_rank (cfg : AcqConfig) (inp : DwellInput) (st : AcqState)
    (hk : 2 ≤ cfg.d_peak) (hL : cfg.d_peak ≤ (peakList cfg inp st).length) :
    (peakList cfg inp st).Pairwise (fun a b => b.2.mag < a.2.mag) ∧
    ∃ e, (peakList cfg inp st)[cfg.d_peak - 1]? = some e ∧
      (general_work_case1 cfg inp st).Acq_delay_samples = (e.2.code_phase : ℚ) ∧
      (general_work_case1 cfg inp st).Acq_doppler_hz = (e.2.doppler : ℚ) ∧
      (general_work_case1 cfg inp st).d_test_statistics = e.2.mag / inputPower cfg inp := by
  refine ⟨peakList_sorted cfg inp st, ?_⟩
  have hlt : cfg.d_peak - 1 < (peakList cfg inp st).length := by omega
  refine ⟨(peakList cfg inp st)[cfg.d_peak - 1], List.getElem?_eq_getElem hlt, ?_⟩
  have haux := auxPhase_hit cfg inp st _ hk (List.getElem?_eq_getElem hlt)
  have hkey := peakList_keyMag cfg inp st _ (List.getElem_mem hlt)
  obtain ⟨v1, v2, v3, _⟩ := verdict_kept cfg (decide (cfg.d_peak ≠ 1))
    (auxPhase cfg inp st).1 (auxPhase cfg inp st).2
  unfold general_work_case1
  rw [v1, v2, v3, haux]
  refine ⟨rfl, rfl, ?_⟩
  show _ / (searchPhase cfg inp st).1.d_input_power = _
  rw [(searchPhase_kept cfg inp st).1, hkey]


/-- Witness of C1: the two peaks kept from a dwell with two correlation peaks. -/
theorem dedup_kept_peaks_do_not_overlap_witness :
    |(1 : Int) - 5| > 2 ∨ |(0 : Int) - 0| > ((500 : Nat) : Int) :=
  dedup_kept_peaks_do_not_overlap 500
    [(4, { code_phase := 5, doppler := 0, mag := 4 }),
      (9, { code_phase := 1, doppler := 0, mag := 9 })]
    (9, { code_phase := 1, doppler := 0, mag := 9 })
    (4, { code_phase := 5, doppler := 0, mag := 4 })
    (by decide!) (by decide!) (by decide!)

/-- Witness of C4: with rank 2 and two peaks in one Doppler bin the dwell reports the weaker
one, at code phase 5. -/
theorem dwell_reports_peak_of_rank_witness :
    (peakList cfgRankTwo inpTwoPeaks stActivated).Pairwise (fun a b => b.2.mag < a.2.mag) ∧
    ∃ e, (peakList cfgRankTwo inpTwoPeaks stActivated)[cfgRankTwo.d_peak - 1]? = some e ∧
      (general_work_case1 cfgRankTwo inpTwoPeaks stActivated).Acq_delay_samples
        = (e.2.code_phase : ℚ) ∧
      (general_work_case1 cfgRankTwo inpTwoPeaks stActivated).Acq_doppler_hz
        = (e.2.doppler : ℚ) ∧
      (general_work_case1 cfgRankTwo inpTwoPeaks stActivated).d_test_statistics
        = e.2.mag / inputPower cfgRankTwo inpTwoPeaks :=
  dwell_reports_peak_of_rank cfgRankTwo inpTwoPeaks stActivated (by decide) (by decide!)

/-- C2 at a dwell whose de-duplicated list holds one peak only: with peak rank 0 the test of
line 478 sets `found_peak` and the dwell ends Positive (state 2). -/
theorem rank_zero_single_peak_is_positive :
    cfgRankZero.d_peak = 0 ∧
    peakList cfgRankZero inpOnePeak stActivated
      = [(4, { code_phase := 3, doppler := 0, mag := 4 })] ∧
    (auxPhase cfgRankZero inpOnePeak stActivated).1 = true ∧
    (general_work_case1 cfgRankZero inpOnePeak stActivated).d_state = 2 := by
  decide!

/-- C5 at a dwell with two candidate maxima of equal magnitude that do not overlap: the
assignment of line 444 stores the second under the key of the first, and the first is neither
in `L` nor overlapped by a peak of `L`. -/
theorem equal_magnitude_candidate_is_lost :
    candidateMaxima cfgTwoBins inpEqualPeaks.RunPersistence
        (auxThreshold cfgTwoBins (searchPhase cfgTwoBins inpEqualPeaks stActivated).1.d_input_power)
        (searchPhase cfgTwoBins inpEqualPeaks stActivated).2
      = [{ code_phase := 1, doppler := -500, mag := 4 },
          { code_phase := 5, doppler := 500, mag := 4 }] ∧
    peakList cfgTwoBins inpEqualPeaks stActivated
      = [(4, { code_phase := 5, doppler := 500, mag := 4 })] ∧
    overlaps cfgTwoBins.d_doppler_step { code_phase := 1, doppler := -500, mag := 4 }
      { code_phase := 5, doppler := 500, mag := 4 } = false := by
  decide!


/-! ## The TOW continuity check -/

/-- C6 at a TOW that goes back by 6 s while 6 s of wall-clock time pass: the first call leaves
the record (week 2048, TOW 100, timestamp 1000 ms), the second call reports TOW 94 at
timestamp 7000 ms, and no message is pushed. -/
theorem backward_tow_is_accepted :
    check_new_TOW (1 / 1000) [] [] 1000 2048 100 = some ([], towRecord) ∧
    ((2048 * 604800 : Int) : ℚ) + 94 < ((2048 * 604800 : Int) : ℚ) + 100 ∧
    check_new_TOW (1 / 1000) [] towRecord 7000 2048 94
      = some ([], [(0, 2048), (1, 94), (2, 7000)]) := by
  decide!

/-- Counterexample to C7 as stated: after the record (week 2048, TOW 100, timestamp 1000 ms)
the call with timestamp 1500 ms and TOW 100.5 has `dT = dT' = 0.5`, so the claimed
discrepancy is 0; the detector compares whole seconds, finds 0 against 0.5 and pushes a case-3
message, and the message says that the TOW is earlier. -/
theorem tow_alert_counterexample :
    ¬ claimedTowDiscrepancy 1000 2048 100 1500 2048 (201 / 2) > 1 / 1000 ∧
    check_new_TOW (1 / 1000) [] towRecord 1500 2048 (201 / 2)
      = some ([{ spoofing_case := 3
                 description :=
                  " received new ephemeris TOW that is earlier than last received one and incorrect" }],
          [(0, 2048), (1, 201 / 2), (2, 1500)]) := by
  decide!

/-- C7, amended. With a previous record `(week0, tow0, timestamp0)`, let `G0` and `G` be the old
and the new GPS time in whole seconds (`week*604800 + tow` with the fraction discarded) and
`dT = (timestamp - timestamp0)/1000`. When `G0 <= G`, exactly one case-3 message is pushed if
`|(G - G0) - dT| > d_max_tow_discrepancy` and none otherwise; the message says later when
`G0 < G` and earlier when `G0 = G`. With no previous record (fewer than three entries) no
message is pushed. -/
theorem check_new_TOW_forward (d_max_tow_discrepancy : ℚ) (queue : List Spoofing_Message)
    (m : List (Int × ℚ)) (timestamp : ℚ) (week : Int) (tow : ℚ) :
    (m.length ≤ 2 →
      (check_new_TOW d_max_tow_discrepancy queue m timestamp week tow).map Prod.fst
        = some queue) ∧
    (∀ week0 tow0 timestamp0 : ℚ, 2 < m.length → mapAt m 0 = some week0 →
      mapAt m 1 = some tow0 → mapAt m 2 = some timestamp0 →
      toInt (week0 * 604800 + tow0) ≤ toInt (((week * 604800 : Int) : ℚ) + tow) →
      (|((toInt (((week * 604800 : Int) : ℚ) + tow) - toInt (week0 * 604800 + tow0) : Int) : ℚ)
          - (timestamp - timestamp0) / 1000| > d_max_tow_discrepancy →
        (check_new_TOW d_max_tow_discrepancy queue m timestamp week tow).map Prod.fst
          = some (queue ++ [{ spoofing_case := 3
                              description :=
                                if toInt (week0 * 604800 + tow0)
                                    < toInt (((week * 604800 : Int) : ℚ) + tow)
                                then " received new ephemeris TOW that is later than last received one and incorrect"
                                else " received new ephemeris TOW that is earlier than last received one and incorrect" }])) ∧
      (¬ |((toInt (((week * 604800 : Int) : ℚ) + tow) - toInt (week0 * 604800 + tow0) : Int) : ℚ)
          - (timestamp - timestamp0) / 1000| > d_max_tow_discrepancy →
        (check_new_TOW d_max_tow_discrepancy queue m timestamp week tow).map Prod.fst
          = some queue)) := by
  refine ⟨fun hlen => ?_, fun week0 tow0 timestamp0 hlen h0 h1 h2 hle => ?_⟩
  · have h : ¬ m.length > 2 := by omega
    simp [check_new_TOW, h]
  · have habs : |toInt (((week * 604800 : Int) : ℚ) + tow) - toInt (week0 * 604800 + tow0)|
        = toInt (((week * 604800 : Int) : ℚ) + tow) - toInt (week0 * 604800 + tow0) :=
      abs_of_nonneg (by omega)
    have hw : (seconds_per_week : ℚ) = 604800 := by norm_num [seconds_per_week]
    have hw2 : week * seconds_per_week = week * 604800 := by simp [seconds_per_week]
    refine ⟨fun hgt => ?_, fun hngt => ?_⟩
    · simp only [check_new_TOW, h0, h1, h2, hw, hw2, habs, if_pos hlen, if_pos hgt]
      split_ifs <;> simp [spoofing_detected]
    · simp only [check_new_TOW, h0, h1, h2, hw, hw2, habs, if_pos hlen, if_neg hngt]
      simp

/-- Witness of C7, amended: after the record (week 2048, TOW 100, timestamp 1000 ms) a TOW of
112 s reported 6 s later is 6 s ahead of the wall clock, and one case-3 message says that it
is later. -/
theorem check_new_TOW_forward_witness :
    (check_new_TOW (1 / 1000) [] towRecord 7000 2048 112).map Prod.fst
      = some ([] ++ [{ spoofing_case := 3
                       description :=
                        if toInt ((2048 : ℚ) * 604800 + 100)
                            < toInt ((((2048 : Int) * 604800 : Int) : ℚ) + 112)
                        then " received new ephemeris TOW that is later than last received one and incorrect"
                        else " received new ephemeris TOW that is earlier than last received one and incorrect" }]) :=
  ((check_new_TOW_forward (1 / 1000) [] towRecord 7000 2048 112).2 2048 100 1000
    (by decide) (by decide!) (by decide!) (by decide!) (by decide!)).1 (by decide!)

/-! ## The inter-satellite GPS time check -/

/-- C8 at the ledger of scenario E6 with timestamps from 100000 ms to 100800 ms: `smallest`
starts at 0 and stays there, the range is taken to be 100800 ms and nothing is pushed. The
same ledger with timestamps from 1000 ms to 1800 ms gets its case-4 message. -/
theorem aligned_gps_times_not_compared :
    check_GPS_time [] (gpsTimesE6 100000) = [] ∧
    check_GPS_time [] (gpsTimesE6 1000)
      = [{ spoofing_case := 4, description := "satellites GPS TOW are not synced" }] := by
  decide!


/-! ## The reception-time check -/

theorem foldl_rxStep (PRN : Nat) (subframes : List (Int × Subframe))
    (acc : Subframe × Subframe) :
    subframes.foldl (rxStep PRN) acc
      = ((prnEntries subframes PRN).foldl rxMin acc.1,
          (prnEntries subframes PRN).foldl rxMax acc.2) := by
  induction subframes generalizing acc with
  | nil => rfl
  | cons e t ih =>
    by_cases h : e.2.PRN = PRN
    · have hs : rxStep PRN acc e = (rxMin acc.1 e.2, rxMax acc.2 e.2) := by
        simp [rxStep, h, rxMin, rxMax]
      have hp : prnEntries (e :: t) PRN = e.2 :: prnEntries t PRN := by
        simp [prnEntries, h]
      rw [List.foldl_cons, hs, ih, hp]
      rfl
    · have hs : rxStep PRN acc e = acc := by simp [rxStep, h]
      have hp : prnEntries (e :: t) PRN = prnEntries t PRN := by
        simp [prnEntries, h]
      rw [List.foldl_cons, hs, ih, hp]

theorem rxFirst_eq (PRN : Nat) (subframes : List (Int × Subframe))
    (declared : Subframe × Subframe) (e0 : Subframe) (rest : List Subframe)
    (h : prnEntries subframes PRN = e0 :: rest) : rxFirst subframes PRN declared = (e0, e0) := by
  induction subframes with
  | nil => simp [prnEntries] at h
  | cons e t ih =>
    by_cases hP : e.2.PRN = PRN
    · have hp : prnEntries (e :: t) PRN = e.2 :: prnEntries t PRN := by
        simp [prnEntries, hP]
      rw [hp] at h
      have he : e.2 = e0 := (List.cons.inj h).1
      rw [← he]
      simp [rxFirst, List.find?_cons, hP]
    · have hp : prnEntries (e :: t) PRN = prnEntries t PRN := by
        simp [prnEntries, hP]
      rw [hp] at h
      have := ih h
      simpa [rxFirst, List.find?_cons, hP] using this

theorem foldl_rxMin_firstMin (s : Subframe) (l : List Subframe) :
    IsFirstMin (s :: l) (l.foldl rxMin s) := by
  induction l using List.reverseRecOn with
  | nil =>
    refine ⟨0, rfl, ?_, ?_⟩
    · intro x hx
      simp at hx
      subst hx
      exact le_refl _
    · intro j x hj
      omega
  | append_singleton l x ih =>
    obtain ⟨i, hi, hmin, hfirst⟩ := ih
    have hilt : i < (s :: l).length := by
      by_contra hcon
      rw [List.getElem?_eq_none (not_lt.1 hcon)] at hi
      exact absurd hi (by simp)
    rw [List.foldl_append, List.foldl_cons, List.foldl_nil]
    have hcons : s :: (l ++ [x]) = (s :: l) ++ [x] := rfl
    by_cases hgt : (l.foldl rxMin s).timestamp > x.timestamp
    · have hr : rxMin (l.foldl rxMin s) x = x := by simp [rxMin, hgt]
      rw [hr, hcons]
      refine ⟨(s :: l).length, by simp, ?_, ?_⟩
      · intro y hy
        rcases List.mem_append.1 hy with hy | hy
        · exact le_of_lt (lt_of_lt_of_le hgt (hmin y hy))
        · simp at hy
          exact le_of_eq (by rw [hy])
      · intro j y hj hy
        rw [List.getElem?_append_left hj] at hy
        exact lt_of_lt_of_le hgt (hmin y (List.getElem?_mem hy))
    · have hr : rxMin (l.foldl rxMin s) x = l.foldl rxMin s := by simp [rxMin, hgt]
      rw [hr, hcons]
      refine ⟨i, by rw [List.getElem?_append_left hilt]; exact hi, ?_, ?_⟩
      · intro y hy
        rcases List.mem_append.1 hy with hy | hy
        · exact hmin y hy
        · simp at hy
          rw [hy]
          exact not_lt.1 hgt
      · intro j y hj hy
        rw [List.getElem?_append_left (lt_trans hj hilt)] at hy
        exact hfirst j y hj hy

theorem foldl_rxMax_firstMax (s : Subframe) (l : List Subframe) :
    IsFirstMax (s :: l) (l.foldl rxMax s) := by
  induction l using List.reverseRecOn with
  | nil =>
    refine ⟨0, rfl, ?_, ?_⟩
    · intro x hx
      simp at hx
      subst hx
      exact le_refl _
    · intro j x hj
      omega
  | append_singleton l x ih =>
    obtain ⟨i, hi, hmax, hfirst⟩ := ih
    have hilt : i < (s :: l).length := by
      by_contra hcon
      rw [List.getElem?_eq_none (not_lt.1 hcon)] at hi
      exact absurd hi (by simp)
    rw [List.foldl_append, List.foldl_cons, List.foldl_nil]
    have hcons : s :: (l ++ [x]) = (s :: l) ++ [x] := rfl
    by_cases hlt : (l.foldl rxMax s).timestamp < x.timestamp
    · have hr : rxMax (l.foldl rxMax s) x = x := by simp [rxMax, hlt]
      rw [hr, hcons]
      refine ⟨(s :: l).length, by simp, ?_, ?_⟩
      · intro y hy
        rcases List.mem_append.1 hy with hy | hy
        · exact le_of_lt (lt_of_le_of_lt (hmax y hy) hlt)
        · simp at hy
          exact le_of_eq (by rw [hy])
      · intro j y hj hy
        rw [List.getElem?_append_left hj] at hy
        exact lt_of_le_of_lt (hmax y (List.getElem?_mem hy)) hlt
    · have hr : rxMax (l.foldl rxMax s) x = l.foldl rxMax s := by simp [rxMax, hlt]
      rw [hr, hcons]
      refine ⟨i, by rw [List.getElem?_append_left hilt]; exact hi, ?_, ?_⟩
      · intro y hy
        rcases List.mem_append.1 hy with hy | hy
        · exact hmax y hy
        · simp at hy
          rw [hy]
          exact not_lt.1 hlt
      · intro j y hj hy
        rw [List.getElem?_append_left (lt_trans hj hilt)] at hy
        exact hfirst j y hj hy

theorem isFirstMin_unique (es : List Subframe) (a b : Subframe) (ha : IsFirstMin es a)
    (hb : IsFirstMin es b) : a = b := by
  obtain ⟨i, hi, hmin, hfirst⟩ := ha
  obtain ⟨j, hj, hmin', hfirst'⟩ := hb
  rcases lt_trichotomy i j with h | h | h
  · exact absurd (hfirst' i a h hi) (not_lt.2 (hmin b (List.getElem?_mem hj)))
  · rw [h, hj] at hi
    exact (Option.some.inj hi).symm
  · exact absurd (hfirst j b h hj) (not_lt.2 (hmin' a (List.getElem?_mem hi)))

theorem isFirstMax_unique (es : List Subframe) (a b : Subframe) (ha : IsFirstMax es a)
    (hb : IsFirstMax es b) : a = b := by
  obtain ⟨i, hi, hmax, hfirst⟩ := ha
  obtain ⟨j, hj, hmax', hfirst'⟩ := hb
  rcases lt_trichotomy i j with h | h | h
  · exact absurd (hfirst' i a h hi) (not_lt.2 (hmax b (List.getElem?_mem hj)))
  · rw [h, hj] at hi
    exact (Option.some.inj hi).symm
  · exact absurd (hfirst j b h hj) (not_lt.2 (hmax' a (List.getElem?_mem hi)))

theorem rx_extremes (PRN : Nat) (subframes : List (Int × Subframe))
    (declared : Subframe × Subframe) (a b : Subframe)
    (ha : IsFirstMin (prnEntries subframes PRN) a)
    (hb : IsFirstMax (prnEntries subframes PRN) b) :
    subframes.foldl (rxStep PRN) (rxFirst subframes PRN declared) = (a, b) := by
  have hi : ∃ i, (prnEntries subframes PRN)[i]? = some a := ⟨ha.choose, ha.choose_spec.1⟩
  obtain ⟨i, hi⟩ := hi
  cases hes : prnEntries subframes PRN with
  | nil => rw [hes] at hi; simp at hi
  | cons e0 rest =>
    have hself_min : rxMin e0 e0 = e0 := by simp [rxMin]
    have hself_max : rxMax e0 e0 = e0 := by simp [rxMax]
    rw [foldl_rxStep, rxFirst_eq PRN subframes declared e0 rest hes, hes]
    simp only [List.foldl_cons, hself_min, hself_max]
    have h1 := foldl_rxMin_firstMin e0 rest
    have h2 := foldl_rxMax_firstMax e0 rest
    rw [← hes] at h1 h2
    rw [isFirstMin_unique _ _ _ h1 ha, isFirstMax_unique _ _ _ h2 hb]

/-- Counterexample to C9 as stated: three peaks of PRN 7 received 10 ms apart, the middle
one on another subframe. The entries do not all share one `subframe_id`, yet a case-1
message is pushed, since the earliest and the latest entry are on the same subframe. -/
theorem rx_time_counterexample :
    ¬ (∀ x ∈ prnEntries subframesThreePeaks 7, ∀ y ∈ prnEntries subframesThreePeaks 7,
        x.subframe_id = y.subframe_id) ∧
    check_RX_time (1 / 2000) [] subframesThreePeaks declaredZero 7 1
      = [{ spoofing_case := 1, description := " for satellite " }] := by
  decide!

/-- C9, amended. For a PRN with at least one ledger entry, let `a` be the first entry (in UID order)
with the smallest timestamp and `b` the first with the largest. `check_RX_time` pushes one
case-1 message if `a` and `b` have the same `subframe_id` and
`b.timestamp - a.timestamp > d_max_rx_discrepancy`, and pushes nothing otherwise; the entries
between the two extremes are not consulted. -/
theorem check_RX_time_extremes (d_max_rx_discrepancy : ℚ) (queue : List Spoofing_Message)
    (subframes : List (Int × Subframe)) (declared : Subframe × Subframe) (PRN subframe_id : Nat)
    (a b : Subframe) (ha : IsFirstMin (prnEntries subframes PRN) a)
    (hb : IsFirstMax (prnEntries subframes PRN) b) :
    (a.subframe_id = b.subframe_id ∧ b.timestamp - a.timestamp > d_max_rx_discrepancy →
      check_RX_time d_max_rx_discrepancy queue subframes declared PRN subframe_id
        = queue ++ [{ spoofing_case := 1, description := " for satellite " }]) ∧
    (¬ (a.subframe_id = b.subframe_id ∧ b.timestamp - a.timestamp > d_max_rx_discrepancy) →
      check_RX_time d_max_rx_discrepancy queue subframes declared PRN subframe_id = queue) := by
  have hsl := rx_extremes PRN subframes declared a b ha hb
  have hle : a.timestamp ≤ b.timestamp := by
    obtain ⟨i, hi, hmin, _⟩ := ha
    obtain ⟨j, hj, _, _⟩ := hb
    exact hmin b (List.getElem?_mem hj)
  have habs : |b.timestamp - a.timestamp| = b.timestamp - a.timestamp :=
    abs_of_nonneg (sub_nonneg.2 hle)
  refine ⟨fun h => ?_, fun h => ?_⟩
  · simp only [check_RX_time, hsl, habs, if_pos h.2]
    simp [h.1, spoofing_detected]
  · simp only [check_RX_time, hsl, habs]
    by_cases hgt : b.timestamp - a.timestamp > d_max_rx_discrepancy
    · have hne : a.subframe_id ≠ b.subframe_id := fun heq => h ⟨heq, hgt⟩
      simp [hgt, Ne.symm hne]
    · simp [hgt]

/-- Witness of C9, amended: of the three peaks of PRN 7 the first is the earliest and the third
the latest; both are on subframe 1 and 10 ms apart, so one case-1 message is pushed. -/
theorem check_RX_time_extremes_witness :
    check_RX_time (1 / 2000) [] subframesThreePeaks declaredZero 7 1
      = [] ++ [{ spoofing_case := 1, description := " for satellite " }] :=
  (check_RX_time_extremes (1 / 2000) [] subframesThreePeaks declaredZero 7 1
    { subframe := "", subframe_id := 1, PRN := 7, timestamp := 1000 }
    { subframe := "", subframe_id := 1, PRN := 7, timestamp := 1010 }
    ⟨0, by decide!, by decide!, by intro j x hj; omega⟩
    ⟨2, by decide!, by decide!, by
      intro j x hj hx
      have hj2 : j = 0 ∨ j = 1 := by omega
      rcases hj2 with h | h
      · subst h
        have : x = { subframe := "", subframe_id := 1, PRN := 7, timestamp := 1000 } := by
          have h0 : (prnEntries subframesThreePeaks 7)[0]?
              = some { subframe := "", subframe_id := 1, PRN := 7, timestamp := 1000 } := by
            decide!
          rw [h0] at hx
          exact (Option.some.inj hx).symm
        rw [this]
        norm_num
      · subst h
        have : x = { subframe := "", subframe_id := 2, PRN := 7, timestamp := 1005 } := by
          have h0 : (prnEntries subframesThreePeaks 7)[1]?
              = some { subframe := "", subframe_id := 2, PRN := 7, timestamp := 1005 } := by
            decide!
          rw [h0] at hx
          exact (Option.some.inj hx).symm
        rw [this]
        norm_num⟩).1 ⟨rfl, by norm_num⟩


/-! ## The comparison of two subframes -/

/-- Counterexample to C10 as stated: two subframes with the payloads "0" and "1" received 5 ms
apart (well within 6000 ms) are skipped without a message, because the window of the code is
1 ms; and a pair with an empty payload received at the same time is reported as compared. -/
theorem compare_subframes_counterexample :
    |(1000 : ℚ) - 1005| ≤ 6000 ∧
    compare_subframes [] { subframe := "0", subframe_id := 1, PRN := 7, timestamp := 1000 }
      { subframe := "1", subframe_id := 1, PRN := 7, timestamp := 1005 } 1 2 = (false, []) ∧
    compare_subframes [] { subframe := "", subframe_id := 1, PRN := 7, timestamp := 1000 }
      { subframe := "1", subframe_id := 1, PRN := 7, timestamp := 1000 } 1 2 = (true, []) := by
  decide!

/-- C10, amended. When a timestamp is 0 or the timestamps differ by more than 1 (ms), the pair is
skipped: no message, and the pair is reported as not compared. Otherwise the pair is reported
as compared; when both payloads are non-empty a case-2 message is pushed if and only if the
payloads differ, and when a payload is empty no message is pushed. -/
theorem compare_subframes_window (queue : List Spoofing_Message) (subframeA subframeB : Subframe)
    (idA idB : Int) :
    (subframeA.timestamp = 0 ∨ subframeB.timestamp = 0 ∨
        |subframeA.timestamp - subframeB.timestamp| > 1 →
      compare_subframes queue subframeA subframeB idA idB = (false, queue)) ∧
    (subframeA.timestamp ≠ 0 → subframeB.timestamp ≠ 0 →
      |subframeA.timestamp - subframeB.timestamp| ≤ 1 →
      (compare_subframes queue subframeA subframeB idA idB).1 = true ∧
      (subframeA.subframe ≠ "" → subframeB.subframe ≠ "" →
        ((compare_subframes queue subframeA subframeB idA idB).2
            = queue ++ [{ spoofing_case := 2, description := "Ephemeris data not consistent " }]
          ↔ subframeA.subframe ≠ subframeB.subframe) ∧
        (subframeA.subframe = subframeB.subframe →
          (compare_subframes queue subframeA subframeB idA idB).2 = queue)) ∧
      (subframeA.subframe = "" ∨ subframeB.subframe = "" →
        (compare_subframes queue subframeA subframeB idA idB).2 = queue)) := by
  refine ⟨fun h => ?_, fun hA hB hw => ?_⟩
  · unfold compare_subframes
    rcases h with h | h | h
    · simp [h]
    · simp [h]
    · split_ifs <;> rfl
  · have h1 : ¬ (subframeA.timestamp = 0 ∨ subframeB.timestamp = 0) := by
      rintro (h | h)
      · exact hA h
      · exact hB h
    have h2 : ¬ |subframeA.timestamp - subframeB.timestamp| > 1 := not_lt.2 hw
    unfold compare_subframes
    rw [if_neg h1, if_neg h2]
    refine ⟨by split_ifs <;> rfl, fun hAe hBe => ⟨?_, fun heq => ?_⟩, fun hempty => ?_⟩
    · by_cases hne : subframeA.subframe = subframeB.subframe
      · simp [hne]
      · simp [hne, hAe, hBe, spoofing_detected]
    · simp [heq]
    · rcases hempty with h | h
      · simp [h]
      · simp [h]

/-- Witness of C10, amended: two subframes received 1 ms apart with the payloads "0" and "1" are
compared and a case-2 message is pushed. -/
theorem compare_subframes_window_witness :
    (compare_subframes [] { subframe := "0", subframe_id := 1, PRN := 7, timestamp := 1000 }
      { subframe := "1", subframe_id := 1, PRN := 7, timestamp := 1001 } 1 2).2
      = [] ++ [{ spoofing_case := 2, description := "Ephemeris data not consistent " }] :=
  ((((compare_subframes_window []
      { subframe := "0", subframe_id := 1, PRN := 7, timestamp := 1000 }
      { subframe := "1", subframe_id := 1, PRN := 7, timestamp := 1001 } 1 2).2
    (by decide!) (by decide!) (by decide!)).2.1 (by decide) (by decide)).1).2 (by decide)



/-! ## Dwells with `bit_transition_flag` -/

theorem reportPeak_kept (st : AcqState) (e : ℚ × Peak) :
    (reportPeak st e).d_well_count = st.d_well_count ∧
    (reportPeak st e).d_state = st.d_state := ⟨rfl, rfl⟩

theorem foldl_selectStep_kept (cfg : AcqConfig) (l : List (ℚ × Peak))
    (acc : (Bool × AcqState) × Nat) :
    (l.foldl (selectStep cfg) acc).1.2.d_well_count = acc.1.2.d_well_count ∧
    (l.foldl (selectStep cfg) acc).1.2.d_state = acc.1.2.d_state := by
  induction l generalizing acc with
  | nil => exact ⟨rfl, rfl⟩
  | cons e t ih =>
    rw [List.foldl_cons]
    obtain ⟨h1, h2⟩ := ih (selectStep cfg acc e)
    have hs : (selectStep cfg acc e).1.2.d_well_count = acc.1.2.d_well_count ∧
        (selectStep cfg acc e).1.2.d_state = acc.1.2.d_state := by
      unfold selectStep
      split_ifs
      · exact ⟨rfl, rfl⟩
      · exact ⟨rfl, rfl⟩
    exact ⟨h1.trans hs.1, h2.trans hs.2⟩

theorem selectPeak_kept (cfg : AcqConfig) (reduced : List (ℚ × Peak)) (st : AcqState) :
    (selectPeak cfg reduced st).2.d_well_count = st.d_well_count ∧
    (selectPeak cfg reduced st).2.d_state = st.d_state := by
  unfold selectPeak
  split_ifs
  · exact ⟨rfl, rfl⟩
  · exact foldl_selectStep_kept cfg reduced.reverse ((false, st), 1)
  · exact ⟨rfl, rfl⟩

theorem auxPhase_kept (cfg : AcqConfig) (inp : DwellInput) (st : AcqState) :
    (auxPhase cfg inp st).2.d_well_count = st.d_well_count + 1 ∧
    (auxPhase cfg inp st).2.d_state = st.d_state := by
  obtain ⟨_, hW, hS, _⟩ := searchPhase_kept cfg inp st
  unfold auxPhase
  split_ifs
  · obtain ⟨h1, h2⟩ := selectPeak_kept cfg (reducedPeaks cfg inp st) (searchPhase cfg inp st).1
    exact ⟨h1.trans hW, h2.trans hS⟩
  · exact ⟨hW, hS⟩

theorem verdict_well_count (cfg : AcqConfig) (aux found : Bool) (st : AcqState) :
    (verdict cfg aux found st).d_well_count = st.d_well_count := by
  unfold verdict
  split_ifs <;> rfl

theorem verdict_flagged (cfg : AcqConfig) (aux found : Bool) (st : AcqState)
    (hflag : cfg.d_bit_transition_flag = true) :
    (st.d_well_count ≠ cfg.d_max_dwells → (verdict cfg aux found st).d_state = st.d_state) ∧
    (st.d_well_count = cfg.d_max_dwells →
      (verdict cfg aux found st).d_state = 2 ∨ (verdict cfg aux found st).d_state = 3) := by
  unfold verdict
  simp only [hflag, Bool.not_true, Bool.false_eq_true, if_false]
  refine ⟨fun h => ?_, fun h => ?_⟩
  · rw [if_neg h]
  · rw [if_pos h]
    split_ifs
    · exact Or.inr rfl
    · exact Or.inl rfl
    · exact Or.inr rfl

theorem dwell_flagged (cfg : AcqConfig) (inp : DwellInput) (st : AcqState)
    (hflag : cfg.d_bit_transition_flag = true) :
    (general_work_case1 cfg inp st).d_well_count = st.d_well_count + 1 ∧
    (st.d_well_count + 1 ≠ cfg.d_max_dwells →
      (general_work_case1 cfg inp st).d_state = st.d_state) ∧
    (st.d_well_count + 1 = cfg.d_max_dwells →
      (general_work_case1 cfg inp st).d_state = 2 ∨
        (general_work_case1 cfg inp st).d_state = 3) := by
  obtain ⟨hW, hS⟩ := auxPhase_kept cfg inp st
  obtain ⟨h1, h2⟩ := verdict_flagged cfg (decide (cfg.d_peak ≠ 1)) (auxPhase cfg inp st).1
    (auxPhase cfg inp st).2 hflag
  unfold general_work_case1
  refine ⟨(verdict_well_count _ _ _ _).trans hW, fun h => ?_, fun h => ?_⟩
  · rw [h1 (by rw [hW]; exact h), hS]
  · exact h2 (by rw [hW]; exact h)

/-- C17. With `bit_transition_flag` set the adapter sets `max_dwells` to 2 whatever value is
configured, and an acquisition started by `case 0` stays in state 1 after its first dwell
(dwell count 1) and is in state 2 or 3 after its second dwell (dwell count 2), whatever the
two sample blocks are. -/
theorem bit_transition_verdict_on_second_dwell (cfg : AcqConfig) (configured ninput_items : Nat)
    (st : AcqState) (inp1 inp2 : DwellInput) (hflag : cfg.d_bit_transition_flag = true)
    (hmax : cfg.d_max_dwells = adapterMaxDwells cfg.d_bit_transition_flag configured) :
    cfg.d_max_dwells = 2 ∧
    (general_work_case0 cfg true ninput_items st).d_state = 1 ∧
    (general_work_case1 cfg inp1 (general_work_case0 cfg true ninput_items st)).d_well_count = 1 ∧
    (general_work_case1 cfg inp1 (general_work_case0 cfg true ninput_items st)).d_state = 1 ∧
    (general_work_case1 cfg inp2
      (general_work_case1 cfg inp1 (general_work_case0 cfg true ninput_items st))).d_well_count
        = 2 ∧
    ((general_work_case1 cfg inp2
      (general_work_case1 cfg inp1 (general_work_case0 cfg true ninput_items st))).d_state = 2 ∨
     (general_work_case1 cfg inp2
      (general_work_case1 cfg inp1 (general_work_case0 cfg true ninput_items st))).d_state = 3) := by
  have hm : cfg.d_max_dwells = 2 := by
    rw [hmax, hflag]
    rfl
  have h0s : (general_work_case0 cfg true ninput_items st).d_state = 1 := rfl
  have h0w : (general_work_case0 cfg true ninput_items st).d_well_count = 0 := rfl
  obtain ⟨w1, s1, _⟩ := dwell_flagged cfg inp1 (general_work_case0 cfg true ninput_items st) hflag
  rw [h0w] at w1
  have hs1 := s1 (by rw [h0w, hm]; decide)
  rw [h0s] at hs1
  obtain ⟨w2, _, s2⟩ := dwell_flagged cfg inp2
    (general_work_case1 cfg inp1 (general_work_case0 cfg true ninput_items st)) hflag
  rw [w1] at w2
  exact ⟨hm, h0s, w1, hs1, w2, s2 (by rw [w1, hm])⟩

/-- Witness of C17: rank 1 with the flag, a peak at cell 3 in both dwells; the second dwell ends
in state 2 or 3. -/
theorem bit_transition_verdict_on_second_dwell_witness :
    (general_work_case1 cfgBitTransition inpOnePeak
      (general_work_case1 cfgBitTransition inpOnePeak
        (general_work_case0 cfgBitTransition true 1 stActivated))).d_state = 2 ∨
    (general_work_case1 cfgBitTransition inpOnePeak
      (general_work_case1 cfgBitTransition inpOnePeak
        (general_work_case0 cfgBitTransition true 1 stActivated))).d_state = 3 :=
  (bit_transition_verdict_on_second_dwell cfgBitTransition 1 1 stActivated inpOnePeak inpOnePeak
    rfl rfl).2.2.2.2.2



theorem recordMax_mono (cfg : AcqConfig) (st : AcqState) (magt : ℚ) (indext : Nat)
    (doppler : Int) (hflag : cfg.d_bit_transition_flag = true) :
    st.d_test_statistics ≤ (recordMax cfg st magt indext doppler).d_test_statistics := by
  unfold recordMax
  simp only [hflag, Bool.not_true, Bool.or_false, decide_eq_true_eq]
  split_ifs with h1 h2
  · exact le_of_lt h2
  · exact le_refl _
  · exact le_refl _

theorem foldl_dopplerStep_mono (cfg : AcqConfig) (inp : DwellInput) (thr : ℚ) (l : List Nat)
    (acc : AcqState × List (Int × List ℚ)) (hflag : cfg.d_bit_transition_flag = true) :
    acc.1.d_test_statistics ≤ (l.foldl (dopplerStep cfg inp thr) acc).1.d_test_statistics := by
  induction l generalizing acc with
  | nil => exact le_refl _
  | cons i t ih =>
    rw [List.foldl_cons]
    refine le_trans ?_ (ih (dopplerStep cfg inp thr acc i))
    exact recordMax_mono cfg acc.1 _ _ _ hflag

theorem searchPhase_mono (cfg : AcqConfig) (inp : DwellInput) (st : AcqState)
    (hflag : cfg.d_bit_transition_flag = true) :
    st.d_test_statistics ≤ (searchPhase cfg inp st).1.d_test_statistics := by
  unfold searchPhase
  exact foldl_dopplerStep_mono cfg inp _ _ _ hflag

/-- Counterexample to C18 as stated: rank 1 with the flag; the grid maximum of dwell 1 is at
code phase 3 and that of dwell 2 at code phase 1, and the acquisition ends Positive (state 2)
after dwell 2, with the cell of dwell 2 reported. -/
theorem primary_cell_counterexample :
    cfgBitTransition.d_bit_transition_flag = true ∧ cfgBitTransition.d_peak = 1 ∧
    (searchPhase cfgBitTransition inpOnePeak stActivated).1.Acq_delay_samples = 3 ∧
    (searchPhase cfgBitTransition inpTwoPeaks stActivated).1.Acq_delay_samples = 1 ∧
    (general_work_case1 cfgBitTransition inpOnePeak stActivated).d_state = 1 ∧
    (general_work_case1 cfgBitTransition inpTwoPeaks
      (general_work_case1 cfgBitTransition inpOnePeak stActivated)).d_state = 2 ∧
    (general_work_case1 cfgBitTransition inpTwoPeaks
      (general_work_case1 cfgBitTransition inpOnePeak stActivated)).Acq_delay_samples = 1 := by
  decide!

/-- C18, amended. With `bit_transition_flag` set and peak rank 1, the dwell that completes
`d_max_dwells` ends Positive (state 2) if `d_test_statistics` after its Doppler loop exceeds
`d_threshold` and Negative (state 3) otherwise. The loop never lowers `d_test_statistics`, so
a test statistic above the threshold left by dwell 1 gives a Positive verdict after dwell 2
whatever the primary peak cell of dwell 2 is: the cells of the two dwells are not compared. -/
theorem second_dwell_verdict_on_running_statistic (cfg : AcqConfig) (inp : DwellInput)
    (st : AcqState) (hflag : cfg.d_bit_transition_flag = true) (hk : cfg.d_peak = 1)
    (hw : st.d_well_count + 1 = cfg.d_max_dwells) :
    ((general_work_case1 cfg inp st).d_state = 2 ↔
      (searchPhase cfg inp st).1.d_test_statistics > cfg.d_threshold) ∧
    ((general_work_case1 cfg inp st).d_state = 3 ↔
      ¬ (searchPhase cfg inp st).1.d_test_statistics > cfg.d_threshold) ∧
    st.d_test_statistics ≤ (searchPhase cfg inp st).1.d_test_statistics ∧
    (st.d_test_statistics > cfg.d_threshold → (general_work_case1 cfg inp st).d_state = 2) := by
  obtain ⟨_, hW, _, _⟩ := searchPhase_kept cfg inp st
  have hmono := searchPhase_mono cfg inp st hflag
  have hwc : (searchPhase cfg inp st).1.d_well_count = cfg.d_max_dwells := hW.trans hw
  have hgw : general_work_case1 cfg inp st
      = if (searchPhase cfg inp st).1.d_test_statistics > cfg.d_threshold
        then { (searchPhase cfg inp st).1 with d_state := 2 }
        else { (searchPhase cfg inp st).1 with d_state := 3 } := by
    unfold general_work_case1
    rw [auxPhase_rank_one cfg inp st hk]
    simp [verdict, hflag, hk, hwc]
  rw [hgw]
  refine ⟨?_, ?_, hmono, fun h => ?_⟩
  · split_ifs with h <;> simp [h]
  · split_ifs with h <;> simp [h]
  · rw [if_pos (lt_of_lt_of_le h hmono)]

/-- Witness of C18, amended: dwell 1 leaves the test statistic 4 above the threshold 1/2, and
dwell 2, whose grid maximum is at another cell, ends Positive. -/
theorem second_dwell_verdict_on_running_statistic_witness :
    (general_work_case1 cfgBitTransition inpTwoPeaks
      (general_work_case1 cfgBitTransition inpOnePeak stActivated)).d_state = 2 :=
  (second_dwell_verdict_on_running_statistic cfgBitTransition inpTwoPeaks
    (general_work_case1 cfgBitTransition inpOnePeak stActivated) rfl rfl (by decide!)).2.2.2
    (by decide!)



/-! ## The subframes of the peaks of one satellite -/

/-- C11 at two runs from an empty `global_subframe_check`. In the first the two peaks of PRN 7
check subframe 1 once each and UID 1 checks subframe 2: the counter of the pair reaches 3
and `checked_subframes(1, 2)` is true, although subframe 3 was never compared. In the second
UID 1 checks subframe 1 three times while the payloads differ: three case-2 messages are
pushed and `checked_subframes(1, 2)` is true as well. -/
theorem pair_verified_by_counting_comparisons :
    checkAfterTwoSubframes = ([], [(1, [(2, 3)]), (2, [(1, 3)])]) ∧
    checked_subframes checkAfterTwoSubframes.2 1 2 = true ∧
    checkAfterThreeMismatches.1
      = [{ spoofing_case := 2, description := "Ephemeris data not consistent " },
          { spoofing_case := 2, description := "Ephemeris data not consistent " },
          { spoofing_case := 2, description := "Ephemeris data not consistent " }] ∧
    checked_subframes checkAfterThreeMismatches.2 1 2 = true := by
  decide!

theorem foldl_fixed {α β : Type} (f : β → α → β) (l : List α) (b : β)
    (h : ∀ e ∈ l, ∀ acc, f acc e = acc) : l.foldl f b = b := by
  induction l generalizing b with
  | nil => rfl
  | cons e t ih =>
    rw [List.foldl_cons, h e (List.mem_cons_self _ _) b]
    exact ih b (fun x hx => h x (List.mem_cons_of_mem _ hx))

theorem mapAt_mem {β : Type} (m : List (Int × β)) (k : Int) (v : β)
    (h : mapAt m k = some v) : (k, v) ∈ m := by
  unfold mapAt at h
  cases hf : m.find? (fun e => decide (e.1 = k)) with
  | none => rw [hf] at h; simp at h
  | some e =>
    rw [hf] at h
    have hv : e.2 = v := by simpa using h
    have hk : e.1 = k := by simpa using List.find?_some hf
    have hm := List.mem_of_find?_eq_some hf
    have he : e = (k, v) := Prod.ext hk hv
    rw [← he]
    exact hm

/-- Counterexample to C19 as stated, on ledgers that hold one peak of PRN 3 and one of PRN 7
with different payloads: `check_inter_satellite_subframe` compares the two satellites and
pushes a case-2 message; `check_ap_subframe` called for UID 1 with the PRN 7 does the same;
and `check_RX_time` called for PRN 5, which has no entry, decides on the locals `smallest`
and `largest` as declared (here with the timestamps 0 and 1) and pushes a case-1 message. -/
theorem single_peak_ledger_counterexample :
    ((twoSatellitesLedger 4).map (fun e => e.2.PRN)).Nodup ∧
    check_inter_satellite_subframe [] (twoSatellitesLedger 4) 1 4
      = [{ spoofing_case := 2, description := "Ephemeris data not consistent " }] ∧
    (check_ap_subframe [] (twoSatellitesLedger 1) [] 1 7 1).1
      = [{ spoofing_case := 2, description := "Ephemeris data not consistent " }] ∧
    check_RX_time (1 / 2000) [] (twoSatellitesLedger 1)
        ({ subframe := "", subframe_id := 0, PRN := 0, timestamp := 0 },
          { subframe := "", subframe_id := 0, PRN := 0, timestamp := 1 }) 5 1
      = [{ spoofing_case := 1, description := " for satellite " }] := by
  decide!

/-- C19, amended. If no two entries of the subframe ledger share a PRN, then
`check_ap_subframe(uid, PRN, subframe_id)` pushes nothing (and counts nothing) when `PRN` is
the PRN of the entry stored for `uid` or `uid` has no entry, and `check_RX_time(PRN, ...)`
pushes nothing when the ledger holds an entry of that PRN and `d_max_rx_discrepancy >= 0`.
Nothing is stated for `check_inter_satellite_subframe`, which compares the entries of
different PRNs. -/
theorem single_peak_ledger_is_silent (subframes : List (Int × Subframe))
    (hu : (subframes.map (fun e => e.2.PRN)).Nodup) (queue : List Spoofing_Message) :
    (∀ (check : List (Int × List (Nat × Nat))) (uid PRN subframe_id : Nat),
      (∀ A, mapAt subframes (uid : Int) = some A → A.PRN = PRN) →
      check_ap_subframe queue subframes check uid PRN subframe_id = (queue, check)) ∧
    (∀ (d_max_rx_discrepancy : ℚ) (declared : Subframe × Subframe) (PRN subframe_id : Nat),
      0 ≤ d_max_rx_discrepancy → (∃ e ∈ subframes, e.2.PRN = PRN) →
      check_RX_time d_max_rx_discrepancy queue subframes declared PRN subframe_id = queue) := by
  have hinj := List.inj_on_of_nodup_map hu
  refine ⟨fun check uid PRN subframe_id hA => ?_, fun thr declared PRN subframe_id hthr hex => ?_⟩
  · unfold check_ap_subframe
    cases hm : mapAt subframes (uid : Int) with
    | none => rfl
    | some A =>
      have hmem := mapAt_mem subframes (uid : Int) A hm
      have hPRN := hA A hm
      refine foldl_fixed _ _ _ (fun e he acc => ?_)
      have hskip : e.2.PRN ≠ PRN ∨ e.2.subframe_id ≠ subframe_id ∨ e.1.toNat = uid := by
        by_cases hp : e.2.PRN = PRN
        · have heq : e = ((uid : Int), A) := hinj he hmem (by simp [hp, hPRN])
          refine Or.inr (Or.inr ?_)
          rw [heq]
          simp
        · exact Or.inl hp
      simp only [apStep, if_pos hskip]
  · obtain ⟨e, he, hp⟩ := hex
    have hval : ∀ x ∈ prnEntries subframes PRN, x = e.2 := by
      intro x hx
      unfold prnEntries at hx
      obtain ⟨hx1, hx2⟩ := List.mem_filter.1 hx
      obtain ⟨p, hp1, hp2⟩ := List.mem_map.1 hx1
      have hxP : x.PRN = PRN := by simpa using hx2
      have : p = e := hinj hp1 he (by simp [hp2, hxP, hp])
      rw [← hp2, this]
    have hne : e.2 ∈ prnEntries subframes PRN := by
      unfold prnEntries
      exact List.mem_filter.2 ⟨List.mem_map.2 ⟨e, he, rfl⟩, by simp [hp]⟩
    cases hes : prnEntries subframes PRN with
    | nil => rw [hes] at hne; simp at hne
    | cons e0 rest =>
      have h1 := foldl_rxMin_firstMin e0 rest
      have h2 := foldl_rxMax_firstMax e0 rest
      rw [← hes] at h1 h2
      have ha : rest.foldl rxMin e0 = e.2 := by
        obtain ⟨i, hi, _, _⟩ := h1
        exact hval _ (List.getElem?_mem hi)
      have hb : rest.foldl rxMax e0 = e.2 := by
        obtain ⟨i, hi, _, _⟩ := h2
        exact hval _ (List.getElem?_mem hi)
      have hsl := rx_extremes PRN subframes declared _ _ h1 h2
      rw [ha, hb] at hsl
      have hnot : ¬ |e.2.timestamp - e.2.timestamp| > thr := by
        rw [sub_self, abs_zero]
        exact not_lt.2 hthr
      simp only [check_RX_time, hsl, if_neg hnot]
      simp

/-- Witness of C19, amended: on the ledger with one peak of PRN 3 and one of PRN 7,
`check_RX_time` for PRN 7 with the threshold 0.0005 pushes nothing. -/
theorem single_peak_ledger_is_silent_witness :
    check_RX_time (1 / 2000) [] (twoSatellitesLedger 1) declaredZero 7 1 = [] :=
  (single_peak_ledger_is_silent (twoSatellitesLedger 1) (by decide!) []).2 (1 / 2000)
    declaredZero 7 1 (by decide!) (by decide!)



/-! ## The satellite position check -/

/-- C12 at the first report (1, 1, 4) of satellite 5 at 1000 ms: whatever `sqrt` and the
declared local are, the entry stored for the satellite has `y = 4` and keeps the `z` of the
declared local, because line 213 assigns `z` to `p.y`; it is not (1, 1, 4, 1000). Reporting
the same position again at 7000 ms is then measured at distance 5 from the stored entry and
pushes a case-5 message. -/
theorem satpos_entry_is_not_the_report :
    (∀ (sqrt : ℚ → ℚ) (declared : Satpos),
      (check_satpos sqrt declared [] [] 5 1000 1 1 4).2
        = [(5, { x := 1, y := 4, z := declared.z, time := 1000 })]) ∧
    (check_satpos sqrtOfSquare declaredSatposZero []
        (check_satpos sqrtOfSquare declaredSatposZero [] [] 5 1000 1 1 4).2 5 7000 1 1 4).1
      = [{ spoofing_case := 5, description := "New satellite position for sat: " }] := by
  refine ⟨fun sqrt declared => rfl, by decide!⟩

/-- C13. On a PRN with a stored entry `p`, with `d` the distance to the stored entry,
`dt = |time - p.time|/1000` and the speed `1400e3/3600`, `check_satpos` pushes exactly one
case-5 message if `d != 0` and (`d - dt*v > 500` or `d - dt*v < 10000`) and nothing otherwise;
the disjunction always holds, so the message is pushed if and only if `d != 0`. On the first
report of a PRN nothing is pushed. -/
theorem check_satpos_alert (sqrt : ℚ → ℚ) (declared : Satpos) (queue : List Spoofing_Message)
    (Satpos_map : List (Int × Satpos)) (sat : Nat) (time x y z : ℚ) :
    (∀ p, mapAt Satpos_map (sat : Int) = some p →
      ((check_satpos sqrt declared queue Satpos_map sat time x y z).1
          = queue ++ [{ spoofing_case := 5, description := "New satellite position for sat: " }]
        ↔ sqrt ((p.x - x) ^ 2 + (p.y - y) ^ 2 + (p.z - z) ^ 2) ≠ 0 ∧
          (sqrt ((p.x - x) ^ 2 + (p.y - y) ^ 2 + (p.z - z) ^ 2)
              - |time - p.time| / 1000 * (1400000 / 3600) > 500 ∨
            sqrt ((p.x - x) ^ 2 + (p.y - y) ^ 2 + (p.z - z) ^ 2)
              - |time - p.time| / 1000 * (1400000 / 3600) < 10000)) ∧
      ((check_satpos sqrt declared queue Satpos_map sat time x y z).1
          = queue ++ [{ spoofing_case := 5, description := "New satellite position for sat: " }]
        ↔ sqrt ((p.x - x) ^ 2 + (p.y - y) ^ 2 + (p.z - z) ^ 2) ≠ 0) ∧
      (sqrt ((p.x - x) ^ 2 + (p.y - y) ^ 2 + (p.z - z) ^ 2) = 0 →
        (check_satpos sqrt declared queue Satpos_map sat time x y z).1 = queue)) ∧
    (mapAt Satpos_map (sat : Int) = none →
      (check_satpos sqrt declared queue Satpos_map sat time x y z).1 = queue) := by
  have hspeed : (1400000 : ℚ) / (60 * 60) = 1400000 / 3600 := by norm_num
  have hdisj : ∀ q : ℚ, q > 500 ∨ q < 10000 := by
    intro q
    rcases lt_or_le (500 : ℚ) q with h | h
    · exact Or.inl h
    · exact Or.inr (lt_of_le_of_lt h (by norm_num))
  refine ⟨fun p hp => ?_, fun hnone => ?_⟩
  · have hval : (check_satpos sqrt declared queue Satpos_map sat time x y z).1
        = if sqrt ((p.x - x) ^ 2 + (p.y - y) ^ 2 + (p.z - z) ^ 2) ≠ 0
          then queue ++ [{ spoofing_case := 5,
                            description := "New satellite position for sat: " }]
          else queue := by
      simp only [check_satpos, hp, hspeed, spoofing_detected]
      by_cases hd : sqrt ((p.x - x) ^ 2 + (p.y - y) ^ 2 + (p.z - z) ^ 2) = 0
      · simp [hd]
      · simp [hd, hdisj]
    rw [hval]
    by_cases hd : sqrt ((p.x - x) ^ 2 + (p.y - y) ^ 2 + (p.z - z) ^ 2) = 0
    · simp [hd]
    · simp [hd, hdisj]
  · simp only [check_satpos, hnone]

/-- Witness of C13: satellite 5 stored at (1, 4, 0) and reported at (1, 1, 4) is at distance 5
from the stored entry, so one case-5 message is pushed. -/
theorem check_satpos_alert_witness :
    (check_satpos sqrtOfSquare declaredSatposZero []
        [(5, { x := 1, y := 4, z := 0, time := 1000 })] 5 7000 1 1 4).1
      = [] ++ [{ spoofing_case := 5, description := "New satellite position for sat: " }] :=
  (((check_satpos_alert sqrtOfSquare declaredSatposZero []
      [(5, { x := 1, y := 4, z := 0, time := 1000 })] 5 7000 1 1 4).1
    { x := 1, y := 4, z := 0, time := 1000 } (by decide!)).2.1).2 (by decide!)



/-! ## The C/N0 statistics -/

/-- C14 at a sigma buffer that holds 999 values of 0.9 and a call with two channels
(C/N0 40.1 and 41.9, sigma 0.9, `d_cno_count = 2`, `d_cno_min = 0.5`): after the call the
buffer holds 1000 values with the arithmetic mean 0.9, which is not below 0.5, yet the sum
that line 416 accumulates in an `int` is 0 and a case-10 message is pushed. -/
theorem sigma_mean_is_summed_in_int :
    (check_SNR sqrtOfSquare 2 (1 / 2) [] sigmaBuffer [0, 1] twoChannelsCN0).2.2.items.length
      = 1000 ∧
    arithmeticMean (check_SNR sqrtOfSquare 2 (1 / 2) [] sigmaBuffer [0, 1] twoChannelsCN0).2.2.items
      = 9 / 10 ∧
    accumulateInt (check_SNR sqrtOfSquare 2 (1 / 2) [] sigmaBuffer [0, 1] twoChannelsCN0).2.2.items
      = 0 ∧
    (check_SNR sqrtOfSquare 2 (1 / 2) [] sigmaBuffer [0, 1] twoChannelsCN0).2.1
      = [{ spoofing_case := 10, description := " the SNR stdev is below expected values, " }] := by
  decide!



/-! ## The external assistance checks -/

theorem foldl_flag_iff (l : List Bool) (b : Bool) :
    l.foldl (fun the_same d => if d then false else the_same) b = true ↔
      b = true ∧ ∀ d ∈ l, d = false := by
  induction l generalizing b with
  | nil => simp
  | cons x t ih =>
    rw [List.foldl_cons, ih]
    cases x <;> simp

theorem theSame_iff (l : List Bool) : theSame l = true ↔ ∀ d ∈ l, d = false := by
  unfold theSame
  rw [foldl_flag_iff]
  simp

theorem compare_ephemeris_iff (a b : Gps_Ephemeris)
    (h : a.i_satellite_PRN = b.i_satellite_PRN) : compare_ephemeris a b = true ↔ a = b := by
  constructor
  · intro hc
    unfold compare_ephemeris at hc
    rw [if_neg (not_not.2 h), theSame_iff] at hc
    simp only [List.mem_cons, List.mem_singleton, forall_eq_or_imp, forall_eq,
      decide_eq_false_iff_not, not_not, List.not_mem_nil, false_imp_iff, implies_true,
      and_true, ne_eq] at hc
    cases a
    cases b
    simp only [Gps_Ephemeris.mk.injEq]
    simp only at h hc
    tauto
  · intro hab
    subst hab
    unfold compare_ephemeris
    rw [if_neg (by simp), theSame_iff]
    intro d hd
    simp at hd
    exact hd

/-- C15. For two ephemerides of the same PRN `compare_ephemeris` is true exactly when the
records agree in every compared member, and it is false when the second differs from the first
in `d_IODC` only. So `check_external_ephemeris` pushes exactly one case-0 message when the
cached record of the PRN differs from the on-air record in `d_IODC` only, and nothing when
the cached record equals the on-air record. -/
theorem external_ephemeris_mismatch (a b : Gps_Ephemeris) (queue : List Spoofing_Message)
    (gps_ephemeris_map : List (Int × Gps_Ephemeris)) (PRN : Int) :
    (a.i_satellite_PRN = b.i_satellite_PRN → (compare_ephemeris a b = true ↔ a = b)) ∧
    (∀ v : ℚ, v ≠ a.d_IODC → compare_ephemeris a { a with d_IODC := v } = false) ∧
    (∀ v : ℚ, v ≠ a.d_IODC → mapAt gps_ephemeris_map PRN = some { a with d_IODC := v } →
      check_external_ephemeris queue gps_ephemeris_map a PRN
        = queue ++ [{ spoofing_case := 0
                      description :=
                        "External ephemeris not consistent with ephemeris records from satellite " }]) ∧
    (mapAt gps_ephemeris_map PRN = some a →
      check_external_ephemeris queue gps_ephemeris_map a PRN = queue) := by
  have hdiff : ∀ v : ℚ, v ≠ a.d_IODC → compare_ephemeris a { a with d_IODC := v } = false := by
    intro v hv
    have hne : ¬ compare_ephemeris a { a with d_IODC := v } = true := by
      intro hc
      have heq := (compare_ephemeris_iff a { a with d_IODC := v } rfl).1 hc
      have : a.d_IODC = v := congrArg Gps_Ephemeris.d_IODC heq
      exact hv this.symm
    simpa using hne
  have hsame : compare_ephemeris a a = true := (compare_ephemeris_iff a a rfl).2 rfl
  refine ⟨compare_ephemeris_iff a b, hdiff, fun v hv hm => ?_, fun hm => ?_⟩
  · simp [check_external_ephemeris, hm, hdiff v hv, spoofing_detected]
  · simp [check_external_ephemeris, hm, hsame]

/-- Witness of C15: the cached record of PRN 3 has `d_IODC = 11` where the on-air record has 10,
and one case-0 message is pushed. -/
theorem external_ephemeris_mismatch_witness :
    check_external_ephemeris [] [(3, { ephPRN3 with d_IODC := 11 })] ephPRN3 3
      = [] ++ [{ spoofing_case := 0
                 description :=
                  "External ephemeris not consistent with ephemeris records from satellite " }] :=
  (external_ephemeris_mismatch ephPRN3 ephPRN3 [] [(3, { ephPRN3 with d_IODC := 11 })] 3).2.2.1
    11 (by decide!) (by decide!)

/-- C16. With no matching record in the external cache the external checks push nothing, whatever
the on-air data are: no ephemeris entry for the PRN, no almanac entry for any PRN of the
on-air almanac, or an external UTC model, iono model or reference time that is not valid. -/
theorem empty_external_cache_is_silent (queue : List Spoofing_Message) :
    (∀ (gps_ephemeris_map : List (Int × Gps_Ephemeris)) (eph_internal : Gps_Ephemeris)
        (PRN : Int), mapAt gps_ephemeris_map PRN = none →
      check_external_ephemeris queue gps_ephemeris_map eph_internal PRN = queue) ∧
    (∀ (gps_almanac_map internal_map : List (Int × Gps_Almanac)),
      (∀ e ∈ internal_map, mapAt gps_almanac_map e.1 = none) →
      check_external_almanac queue gps_almanac_map internal_map = queue) ∧
    (∀ (gps_utc internal : Gps_Utc_Model), gps_utc.valid = false →
      check_external_utc queue gps_utc internal = queue) ∧
    (∀ (gps_iono internal : Gps_Iono), gps_iono.valid = false →
      check_external_iono queue gps_iono internal = queue) ∧
    (∀ (gps_time : Gps_Ref_Time) (internal_week internal_TOW : Int), gps_time.valid = false →
      check_external_gps_time queue gps_time internal_week internal_TOW = queue) := by
  refine ⟨fun m eph PRN h => ?_, fun m internal_map h => ?_, fun u i h => ?_, fun u i h => ?_,
    fun t w tow h => ?_⟩
  · simp [check_external_ephemeris, h]
  · unfold check_external_almanac
    refine foldl_fixed _ _ _ (fun e he acc => ?_)
    simp [almanacStep, h e he]
  · simp [check_external_utc, h]
  · simp [check_external_iono, h]
  · simp [check_external_gps_time, h]

/-- Witness of C16: with an empty external ephemeris map nothing is pushed for PRN 3. -/
theorem empty_external_cache_is_silent_witness :
    check_external_ephemeris [] [] ephPRN3 3 = [] :=
  (empty_external_cache_is_silent []).1 [] ephPRN3 3 rfl



/-! ## The case ids of the messages -/

/-- C21. For every `sqrtA`, `check_middle_earth` pushes exactly one case-5 message when
`sqrtA = 0` and nothing when `sqrtA != 0`. -/
theorem check_middle_earth_alert (queue : List Spoofing_Message) (sqrtA : ℚ) :
    (sqrtA = 0 →
      check_middle_earth queue sqrtA
        = queue ++ [{ spoofing_case := 5, description := "middle of the earth attack" }]) ∧
    (sqrtA ≠ 0 → check_middle_earth queue sqrtA = queue) := by
  refine ⟨fun h => ?_, fun h => ?_⟩
  · simp [check_middle_earth, h, spoofing_detected]
  · simp [check_middle_earth, h]

/-- Witness of C21: a semi-major axis of 0 pushes one case-5 message. -/
theorem check_middle_earth_alert_witness :
    check_middle_earth [] 0
      = [] ++ [{ spoofing_case := 5, description := "middle of the earth attack" }] :=
  (check_middle_earth_alert [] 0).1 rfl

/-- C22. For every `(lat, lng, alt)`, `check_position` pushes exactly one case-4 message
(negative height) when `alt < 0`, exactly one case-4 message when `alt > d_max_alt`, and
nothing when `0 <= alt <= d_max_alt`; the result is the same for every `lat` and `lng`. -/
theorem check_position_alert (d_max_alt : ℚ) (queue : List Spoofing_Message)
    (lat lng alt : ℚ) :
    (alt < 0 →
      check_position d_max_alt queue lat lng alt
        = queue ++ [{ spoofing_case := 4, description := "Height of position is negative" }]) ∧
    (alt > d_max_alt →
      ∃ description : String,
        check_position d_max_alt queue lat lng alt
          = queue ++ [{ spoofing_case := 4, description := description }]) ∧
    (0 ≤ alt → alt ≤ d_max_alt → check_position d_max_alt queue lat lng alt = queue) ∧
    (∀ lat2 lng2 : ℚ,
      check_position d_max_alt queue lat2 lng2 alt
        = check_position d_max_alt queue lat lng alt) := by
  refine ⟨fun h => ?_, fun h => ?_, fun h0 h1 => ?_, fun lat2 lng2 => rfl⟩
  · simp [check_position, h, spoofing_detected]
  · unfold check_position
    split_ifs
    · exact ⟨_, rfl⟩
    · exact ⟨_, rfl⟩
  · simp [check_position, not_lt.2 h0, not_lt.2 h1]

/-- Witness of C22: an altitude of -20 pushes one case-4 message. -/
theorem check_position_alert_witness :
    check_position 20 [] 0 0 (-20)
      = [] ++ [{ spoofing_case := 4, description := "Height of position is negative" }] :=
  (check_position_alert 20 [] 0 0 (-20)).1 (by decide!)

/-- C23. For every argument `max_rx_discrepancy` the detector built by the five-argument
constructor has `d_max_rx_discrepancy = 0.0005`, and `d_max_tow_discrepancy` is the argument
`max_tow_discrepancy` divided by 1000. -/
theorem constructor_overrides_rx_discrepancy (ap_detection inter_satellite_check
    external_nav_check : Bool) (max_rx_discrepancy max_tow_discrepancy : ℚ) :
    (Spoofing_Detector_time ap_detection inter_satellite_check external_nav_check
      max_rx_discrepancy max_tow_discrepancy).d_max_rx_discrepancy = 5 / 10000 ∧
    (Spoofing_Detector_time ap_detection inter_satellite_check external_nav_check
      max_rx_discrepancy max_tow_discrepancy).d_max_tow_discrepancy
        = max_tow_discrepancy / 1000 :=
  ⟨rfl, rfl⟩



/-! ## The C/N0 moving window -/

theorem cbPushBack_capacity (cb : CircularBuffer) (x : ℚ) :
    (cbPushBack cb x).capacity = cb.capacity := by
  unfold cbPushBack
  split_ifs <;> rfl

theorem cbPushBack_bounded (cb : CircularBuffer) (x : ℚ)
    (h : cb.items.length ≤ cb.capacity) :
    (cbPushBack cb x).items.length ≤ cb.capacity := by
  unfold cbPushBack
  split_ifs with h0 h1
  · exact h
  · simp only [List.length_append, List.length_singleton]
    omega
  · simp only [List.length_append, List.length_singleton, List.length_tail]
    omega

theorem check_SNR_bounded (sqrt : ℚ → ℚ) (d_cno_count : Int) (d_cno_min : ℚ)
    (queue : List Spoofing_Message) (cb : CircularBuffer) (channels : List Nat)
    (CN0_dB_hz : Nat → ℚ) (h : cb.items.length ≤ cb.capacity) (hc : cb.capacity < 1000) :
    (check_SNR sqrt d_cno_count d_cno_min queue cb channels CN0_dB_hz).2.1 = queue ∧
    (check_SNR sqrt d_cno_count d_cno_min queue cb channels CN0_dB_hz).2.2.capacity
      = cb.capacity ∧
    (check_SNR sqrt d_cno_count d_cno_min queue cb channels CN0_dB_hz).2.2.items.length
      ≤ cb.capacity := by
  unfold check_SNR
  split_ifs with h1 h2 h3
  · exact ⟨rfl, rfl, h⟩
  · have := cbPushBack_bounded cb (StdDeviation sqrt (channels.map CN0_dB_hz)) h
    omega
  · have := cbPushBack_bounded cb (StdDeviation sqrt (channels.map CN0_dB_hz)) h
    omega
  · exact ⟨rfl, cbPushBack_capacity _ _, cbPushBack_bounded _ _ h⟩

theorem snrCalls_bounded (sqrt : ℚ → ℚ) (d_cno_count : Int) (d_cno_min : ℚ)
    (calls : List (List Nat × (Nat → ℚ))) (queue : List Spoofing_Message)
    (cb : CircularBuffer) (h : cb.items.length ≤ cb.capacity) (hc : cb.capacity < 1000) :
    (calls.foldl (snrCall sqrt d_cno_count d_cno_min) (queue, cb)).1 = queue ∧
    (calls.foldl (snrCall sqrt d_cno_count d_cno_min) (queue, cb)).2.items.length
      ≤ cb.capacity := by
  induction calls generalizing cb with
  | nil => exact ⟨rfl, h⟩
  | cons c t ih =>
    obtain ⟨hq, hcap, hlen⟩ :=
      check_SNR_bounded sqrt d_cno_count d_cno_min queue cb c.1 c.2 h hc
    rw [List.foldl_cons]
    have hstep : snrCall sqrt d_cno_count d_cno_min (queue, cb) c
        = (queue, (check_SNR sqrt d_cno_count d_cno_min queue cb c.1 c.2).2.2) := by
      unfold snrCall
      exact Prod.ext hq rfl
    rw [hstep]
    have := ih (check_SNR sqrt d_cno_count d_cno_min queue cb c.1 c.2).2.2
      (by rw [hcap]; exact hlen) (by rw [hcap]; exact hc)
    rw [hcap] at this
    exact this

/-- C29. If the eight-argument constructor builds a detector with
`snr_moving_avg_window < 1000`, then after every sequence of `check_SNR` calls the queue is
the one before the calls (no case-10 message is pushed) and `stdev_cb`, whose capacity is the
window, holds fewer than 1000 values. -/
theorem small_window_never_alerts (sqrt : ℚ → ℚ) (ap_detection cno_detection : Bool)
    (cno_count : Int) (cno_min : ℚ) (alt_detection : Bool) (max_alt : ℚ)
    (satpos_detection : Bool) (snr_moving_avg_window : Int) (d : DetectorSnrMembers)
    (hd : Spoofing_Detector_snr ap_detection cno_detection cno_count cno_min alt_detection
      max_alt satpos_detection snr_moving_avg_window = some d)
    (hw : snr_moving_avg_window < 1000) (queue : List Spoofing_Message)
    (calls : List (List Nat × (Nat → ℚ))) :
    (d.stdev_cb.capacity : Int) = snr_moving_avg_window ∧
    (calls.foldl (snrCall sqrt d.d_cno_count d.d_cno_min) (queue, d.stdev_cb)).1 = queue ∧
    (calls.foldl (snrCall sqrt d.d_cno_count d.d_cno_min)
      (queue, d.stdev_cb)).2.items.length < 1000 := by
  unfold Spoofing_Detector_snr at hd
  split_ifs at hd with hneg
  have hd2 := Option.some.inj hd
  have hcb : d.stdev_cb = { capacity := snr_moving_avg_window.toNat, items := [] } := by
    rw [← hd2]
  have hcap : d.stdev_cb.capacity = snr_moving_avg_window.toNat := by rw [hcb]
  have hitems : d.stdev_cb.items = [] := by rw [hcb]
  have hlt : d.stdev_cb.capacity < 1000 := by rw [hcap]; omega
  obtain ⟨hq, hlen⟩ := snrCalls_bounded sqrt d.d_cno_count d.d_cno_min calls queue d.stdev_cb
    (by rw [hitems]; exact Nat.zero_le _) hlt
  refine ⟨?_, hq, by omega⟩
  rw [hcap]
  omega

/-- Witness of C29: a window of 2 and three calls with two channels each. -/
theorem small_window_never_alerts_witness :
    ([([0, 1], twoChannelsCN0), ([0, 1], twoChannelsCN0), ([0, 1], twoChannelsCN0)].foldl
      (snrCall sqrtOfSquare 2 (1 / 2))
      ([], ({ capacity := 2, items := [] } : CircularBuffer))).1 = [] :=
  (small_window_never_alerts sqrtOfSquare true true 2 (1 / 2) true 20 true 2
    { d_ap_detection := true, d_cno_detection := true, d_cno_count := 2, d_cno_min := 1 / 2,
      d_alt_detection := true, d_max_alt := 20, d_satpos_detection := true,
      d_snr_moving_avg_window := 2, stdev_cb := { capacity := 2, items := [] } }
    (by decide!) (by decide) []
    [([0, 1], twoChannelsCN0), ([0, 1], twoChannelsCN0), ([0, 1], twoChannelsCN0)]).2.1



/-! ## Counting the Doppler bins -/

/-- C28. The branch of `hybrid_pvt_cc::general_work` that writes RTCM messages after the
first time takes the remainder of `d_sample_counter` by `rate / 4` before it compares the
rate with 0: when one of the four rates is 0 (or 1, 2, 3 for MT1019) a remainder by zero is
evaluated for every counter value, while the first-time branch prints nothing for that
message and takes no remainder. -/
theorem rtcm_rate_zero_takes_remainder_by_zero (d_sample_counter : Nat) (a b c : Int)
    (gps_ephemerides galileo_ephemerides : Nat) (gps_found gal_found : Bool) :
    rtcm_writing d_sample_counter 0 a b c gps_ephemerides galileo_ephemerides gps_found
      gal_found = none ∧
    rtcm_writing d_sample_counter 1 a b c gps_ephemerides galileo_ephemerides gps_found
      gal_found = none ∧
    rtcm_writing d_sample_counter 2 a b c gps_ephemerides galileo_ephemerides gps_found
      gal_found = none ∧
    rtcm_writing d_sample_counter 3 a b c gps_ephemerides galileo_ephemerides gps_found
      gal_found = none ∧
    rtcm_writing d_sample_counter a 0 b c gps_ephemerides galileo_ephemerides gps_found
      gal_found = none ∧
    rtcm_writing d_sample_counter a b 0 c gps_ephemerides galileo_ephemerides gps_found
      gal_found = none ∧
    rtcm_writing d_sample_counter a b c 0 gps_ephemerides galileo_ephemerides gps_found
      gal_found = none ∧
    rtcm_first_time 0 0 0 0 gps_ephemerides galileo_ephemerides gps_found gal_found = [] := by
  have h0 : counterIsMultiple d_sample_counter 0 = none := rfl
  have h1 : counterIsMultiple d_sample_counter 1 = none := rfl
  have h2 : counterIsMultiple d_sample_counter 2 = none := rfl
  have h3 : counterIsMultiple d_sample_counter 3 = none := rfl
  refine ⟨?_, ?_, ?_, ?_, ?_, ?_, ?_, ?_⟩
  · simp [rtcm_writing, rtcmDue, h0]
  · simp [rtcm_writing, rtcmDue, h1]
  · simp [rtcm_writing, rtcmDue, h2]
  · simp [rtcm_writing, rtcmDue, h3]
  · unfold rtcm_writing
    cases rtcmDue d_sample_counter a <;> simp [rtcmDue, h0]
  · unfold rtcm_writing
    cases rtcmDue d_sample_counter a <;> cases rtcmDue d_sample_counter b <;>
      simp [rtcmDue, rtcmEitherMsm, h0]
    cases hc : counterIsMultiple d_sample_counter c with
    | none => simp
    | some m => cases m <;> simp
  · unfold rtcm_writing
    cases rtcmDue d_sample_counter a <;> cases rtcmDue d_sample_counter b <;>
      simp [rtcmDue, rtcmEitherMsm, h0]
  · simp [rtcm_first_time]



/-! ## The rows handed to the extrema finder -/

theorem mapAt_mapAssign_same {β : Type} (m : List (Int × β)) (k : Int) (v : β) :
    mapAt (mapAssign m k v) k = some v := by
  induction m with
  | nil => simp [mapAssign, mapAt]
  | cons e t ih =>
    obtain ⟨k', v'⟩ := e
    simp only [mapAssign]
    split_ifs with h1 h2
    · simp [mapAt]
    · simp [mapAt]
    · have hne : ¬ k' = k := fun h => h2 h.symm
      have : mapAt ((k', v') :: mapAssign t k v) k = mapAt (mapAssign t k v) k := by
        simp [mapAt, List.find?_cons, hne]
      rw [this]
      exact ih

theorem mapAt_mapAssign_ne {β : Type} (m : List (Int × β)) (k k2 : Int) (v : β)
    (hne : k ≠ k2) : mapAt (mapAssign m k v) k2 = mapAt m k2 := by
  induction m with
  | nil => simp [mapAssign, mapAt, List.find?_cons, hne]
  | cons e t ih =>
    obtain ⟨k', v'⟩ := e
    simp only [mapAssign]
    split_ifs with h1 h2
    · simp [mapAt, List.find?_cons, hne]
    · subst h2
      simp [mapAt, List.find?_cons, hne]
    · by_cases hk : k' = k2
      · simp [mapAt, List.find?_cons, hk]
      · have e1 : mapAt ((k', v') :: mapAssign t k v) k2 = mapAt (mapAssign t k v) k2 := by
          simp [mapAt, List.find?_cons, hk]
        have e2 : mapAt ((k', v') :: t) k2 = mapAt t k2 := by
          simp [mapAt, List.find?_cons, hk]
        rw [e1, e2]
        exact ih

theorem pushRow_fold (d_magnitude : List ℚ) (thr nf : ℚ) (row : List ℚ) (n : Nat) :
    (List.range n).foldl
      (fun (acc : ℚ × List ℚ) i =>
        let tmp := if d_magnitude.getD i 0 > thr
          then d_magnitude.getD i 0 / (nf * nf) else acc.1
        (tmp, acc.2 ++ [tmp]))
      (0, row)
    = (tmpAfter d_magnitude thr nf n,
        row ++ (List.range n).map (fun i => tmpAfter d_magnitude thr nf (i + 1))) := by
  induction n with
  | zero => simp [tmpAfter]
  | succ k ih =>
    rw [List.range_succ, List.foldl_append, ih]
    simp [tmpAfter, List.append_assoc]

theorem pushRow_eq (d_magnitude : List ℚ) (thr nf : ℚ) (n : Nat) (row : List ℚ) :
    pushRow d_magnitude thr nf n row
      = row ++ (List.range n).map (fun i => tmpAfter d_magnitude thr nf (i + 1)) := by
  unfold pushRow
  rw [pushRow_fold]

theorem binDoppler_injective (cfg : AcqConfig) (hstep : 0 < cfg.d_doppler_step) (a b : Nat)
    (h : binDoppler cfg a = binDoppler cfg b) : a = b := by
  unfold binDoppler at h
  have hs : (cfg.d_doppler_step : Int) ≠ 0 := by exact_mod_cast (Nat.pos_iff_ne_zero.1 hstep)
  have h2 : (cfg.d_doppler_step : Int) * (a : Int) = (cfg.d_doppler_step : Int) * (b : Int) := by
    linarith
  exact_mod_cast mul_left_cancel₀ hs h2

theorem initPeaks2_rows (cfg : AcqConfig) (k : Nat) :
    ∀ d : Nat, d < k →
      mapAt ((List.range k).foldl
        (fun peaks2 doppler_index =>
          mapAssign peaks2 (binDoppler cfg doppler_index) (List.replicate cfg.d_fft_size 0))
        []) (binDoppler cfg d) = some (List.replicate cfg.d_fft_size (0 : ℚ)) := by
  induction k with
  | zero => intro d hd; omega
  | succ k ih =>
    intro d hd
    rw [List.range_succ, List.foldl_append]
    simp only [List.foldl_cons, List.foldl_nil]
    by_cases hk : binDoppler cfg k = binDoppler cfg d
    · rw [hk]; exact mapAt_mapAssign_same _ _ _
    · rw [mapAt_mapAssign_ne _ _ _ _ hk]
      have hdk : d ≠ k := fun h => hk (by rw [h])
      exact ih d (by omega)

theorem foldl_dopplerStep_rows (cfg : AcqConfig) (inp : DwellInput) (thr : ℚ)
    (hstep : 0 < cfg.d_doppler_step) (st : AcqState) (k : Nat)
    (hk : k ≤ cfg.d_num_doppler_bins) :
    ∀ d : Nat, d < cfg.d_num_doppler_bins →
      mapAt ((List.range k).foldl (dopplerStep cfg inp thr) (st, initPeaks2 cfg)).2
        (binDoppler cfg d)
      = some (if d < k then
          List.replicate cfg.d_fft_size 0
            ++ (List.range cfg.d_fft_size).map (fun i =>
                tmpAfter (gridMagnitude cfg inp d) thr
                  ((cfg.d_fft_size : ℚ) * (cfg.d_fft_size : ℚ)) (i + 1))
        else List.replicate cfg.d_fft_size 0) := by
  induction k with
  | zero =>
    intro d hd
    simp only [List.range_zero, List.foldl_nil, Nat.not_lt_zero, if_false]
    exact initPeaks2_rows cfg cfg.d_num_doppler_bins d hd
  | succ k ih =>
    intro d hd
    have ih2 := ih (by omega)
    rw [List.range_succ, List.foldl_append]
    simp only [List.foldl_cons, List.foldl_nil]
    generalize hacc : (List.range k).foldl (dopplerStep cfg inp thr) (st, initPeaks2 cfg) = acc
      at ih2 ⊢
    have hstepeq : (dopplerStep cfg inp thr acc k).2
        = mapAssign acc.2 (binDoppler cfg k)
            (pushRow (gridMagnitude cfg inp k) thr
              ((cfg.d_fft_size : ℚ) * (cfg.d_fft_size : ℚ)) cfg.d_fft_size
              ((mapAt acc.2 (binDoppler cfg k)).getD [])) := rfl
    rw [hstepeq]
    by_cases hdk : d = k
    · subst hdk
      rw [mapAt_mapAssign_same, ih2 d hd, pushRow_eq]
      simp
    · have hne : binDoppler cfg k ≠ binDoppler cfg d := fun h =>
        hdk (binDoppler_injective cfg hstep k d h).symm
      rw [mapAt_mapAssign_ne _ _ _ _ hne, ih2 d hd]
      have h1 : (d < k + 1) = (d < k) := by
        apply propext
        constructor <;> intro h <;> omega
      simp only [h1]

theorem extremaRow_eq (cfg : AcqConfig) (inp : DwellInput) (st : AcqState)
    (hstep : 0 < cfg.d_doppler_step) (d : Nat) (hd : d < cfg.d_num_doppler_bins) :
    extremaRow cfg inp st d
      = some (List.replicate cfg.d_fft_size 0
          ++ (List.range cfg.d_fft_size).map (fun i =>
              tmpAfter (gridMagnitude cfg inp d) (thresholdSpoofing cfg inp)
                ((cfg.d_fft_size : ℚ) * (cfg.d_fft_size : ℚ)) (i + 1))) := by
  have h := foldl_dopplerStep_rows cfg inp (thresholdSpoofing cfg inp) hstep
    { st with
      d_input_power := inputPower cfg inp
      d_mag := 0
      d_sample_counter := st.d_sample_counter + cfg.d_fft_size
      d_well_count := st.d_well_count + 1 } cfg.d_num_doppler_bins (le_refl _) d hd
  rw [if_pos hd] at h
  exact h



theorem getD_cells (f : Nat → ℚ) (n i : Nat) (hi : i < n) :
    ((List.range n).map f).getD i 0 = f i := by
  simp [List.getD_eq_getElem?_getD, List.getElem?_map, List.getElem?_range hi]

theorem getD_zeros (n i : Nat) : (List.replicate n (0 : ℚ)).getD i 0 = 0 := by
  simp only [List.getD_eq_getElem?_getD, List.getElem?_replicate]
  split_ifs <;> rfl

theorem getD_row_cell (cells : List ℚ) (n i : Nat) :
    (List.replicate n (0 : ℚ) ++ cells).getD (n + i) 0 = cells.getD i 0 := by
  rw [List.getD_append_right _ _ _ _ (by simp)]
  simp

theorem getD_row_zero (cells : List ℚ) (n i : Nat) (hi : i < n) :
    (List.replicate n (0 : ℚ) ++ cells).getD i 0 = 0 := by
  rw [List.getD_append _ _ _ _ (by simpa using hi)]
  exact getD_zeros n i

/-- Counterexample to C26 as stated: one Doppler bin of 8 cells whose normalised magnitudes
are 4 at cell 3, 1 at cell 4 and 0 elsewhere. The row handed to the extrema finder has 16
entries, not 8, and its entry for cell 5 is 1 while the normalised magnitude of cell 5
is 0. -/
theorem grid_row_counterexample :
    extremaRow cfgRankZero inpOnePeak stActivated 0
      = some [0, 0, 0, 0, 0, 0, 0, 0, 0, 0, 0, 4, 1, 1, 1, 1] ∧
    (List.range 8).map (cellMagnitude cfgRankZero inpOnePeak 0) = [0, 0, 0, 4, 1, 0, 0, 0] ∧
    cfgRankZero.d_fft_size = 8 := by
  decide!

/-- C26, amended. For a positive Doppler step, every Doppler bin `d` and every cell
`i < fft_size`: the row `G[d]` handed to the peak extraction has `2 * fft_size` entries, the
first `fft_size` of them are 0, and the entry at index `fft_size + i` equals the squared
correlation magnitude of cell `i` divided by `fft_size^4` when that squared magnitude is
above `threshold_spoofing`. -/
theorem grid_row_entries (cfg : AcqConfig) (inp : DwellInput) (st : AcqState)
    (hstep : 0 < cfg.d_doppler_step) (d : Nat) (hd : d < cfg.d_num_doppler_bins) :
    ∃ row : List ℚ, extremaRow cfg inp st d = some row ∧
      row.length = 2 * cfg.d_fft_size ∧
      (∀ i : Nat, i < cfg.d_fft_size → row.getD i 0 = 0) ∧
      (∀ i : Nat, i < cfg.d_fft_size →
        (gridMagnitude cfg inp d).getD i 0 > thresholdSpoofing cfg inp →
        row.getD (cfg.d_fft_size + i) 0 = cellMagnitude cfg inp d i) := by
  refine ⟨_, extremaRow_eq cfg inp st hstep d hd, ?_, fun i hi => ?_, fun i hi habove => ?_⟩
  · simp only [List.length_append, List.length_replicate, List.length_map, List.length_range]
    omega
  · exact getD_row_zero _ _ _ hi
  · rw [getD_row_cell, getD_cells _ _ _ hi]
    simp only [tmpAfter]
    rw [if_pos habove]
    rfl

/-- Witness of C26, amended: the bin of the one-peak dwell. -/
theorem grid_row_entries_witness :
    ∃ row : List ℚ, extremaRow cfgRankZero inpOnePeak stActivated 0 = some row ∧
      row.length = 2 * cfgRankZero.d_fft_size ∧
      (∀ i : Nat, i < cfgRankZero.d_fft_size → row.getD i 0 = 0) ∧
      (∀ i : Nat, i < cfgRankZero.d_fft_size →
        (gridMagnitude cfgRankZero inpOnePeak 0).getD i 0
          > thresholdSpoofing cfgRankZero inpOnePeak →
        row.getD (cfgRankZero.d_fft_size + i) 0 = cellMagnitude cfgRankZero inpOnePeak 0 i) :=
  grid_row_entries cfgRankZero inpOnePeak stActivated (by decide) 0 (by decide)

theorem magnitude_zero (v : List (ℚ × ℚ)) (n : Nat) (h : ∀ i : Nat, v.getD i (0, 0) = (0, 0))
    (i : Nat) : (volk_32fc_magnitude_squared_32f v n).getD i 0 = 0 := by
  unfold volk_32fc_magnitude_squared_32f
  rw [List.getD_eq_getElem?_getD, List.getElem?_map]
  cases (List.range n)[i]? with
  | none => rfl
  | some j =>
    simp only [Option.map_some', Option.getD_some]
    rw [h j]
    simp

theorem accumulator_zero (v : List ℚ) (h : ∀ i : Nat, v.getD i 0 = 0) (l : List Nat) (s : ℚ) :
    l.foldl (fun s i => s + v.getD i 0) s = s := by
  induction l generalizing s with
  | nil => rfl
  | cons i t ih => rw [List.foldl_cons, h i, add_zero]; exact ih s

theorem inputPower_zero (cfg : AcqConfig) (inp : DwellInput) (hzero : ZeroBlock inp) :
    inputPower cfg inp = 0 := by
  unfold inputPower volk_32f_accumulator_s32f
  rw [accumulator_zero _ (magnitude_zero inp.input cfg.d_fft_size hzero.1)]
  exact zero_div _

theorem tmpAfter_zero (m : List ℚ) (thr nf : ℚ) (h : ∀ i : Nat, m.getD i 0 = 0) (k : Nat) :
    tmpAfter m thr nf k = 0 := by
  induction k with
  | zero => rfl
  | succ k ih =>
    simp only [tmpAfter, h k, zero_div, ih]
    split_ifs <;> rfl

theorem foldl_dopplerStep_zero_state (cfg : AcqConfig) (inp : DwellInput) (thr : ℚ)
    (hzero : ZeroBlock inp) (l : List Nat) (acc : AcqState × List (Int × List ℚ))
    (hmag : acc.1.d_mag = 0) : (l.foldl (dopplerStep cfg inp thr) acc).1 = acc.1 := by
  induction l generalizing acc with
  | nil => rfl
  | cons i t ih =>
    rw [List.foldl_cons]
    have hstep : (dopplerStep cfg inp thr acc i).1 = acc.1 := by
      simp only [dopplerStep]
      rw [magnitude_zero _ _ (hzero.2 i), zero_div]
      unfold recordMax
      rw [if_neg (by rw [hmag]; exact lt_irrefl 0)]
    rw [ih _ (by rw [hstep]; exact hmag), hstep]

theorem initPeaks2_zero (cfg : AcqConfig) (l : List Nat) (m : List (Int × List ℚ))
    (hm : ∀ e ∈ m, ∀ x ∈ e.2, x = (0 : ℚ)) :
    ∀ e ∈ l.foldl
        (fun peaks2 doppler_index =>
          mapAssign peaks2 (binDoppler cfg doppler_index) (List.replicate cfg.d_fft_size 0))
        m, ∀ x ∈ e.2, x = (0 : ℚ) := by
  induction l generalizing m with
  | nil => exact hm
  | cons i t ih =>
    rw [List.foldl_cons]
    refine ih _ (fun e he x hx => ?_)
    rcases mem_mapAssign _ _ _ e he with h | h
    · rw [h] at hx
      exact List.eq_of_mem_replicate hx
    · exact hm e h x hx

theorem foldl_dopplerStep_zero_rows (cfg : AcqConfig) (inp : DwellInput) (thr : ℚ)
    (hzero : ZeroBlock inp) (l : List Nat) (acc : AcqState × List (Int × List ℚ))
    (hm : ∀ e ∈ acc.2, ∀ x ∈ e.2, x = (0 : ℚ)) :
    ∀ e ∈ (l.foldl (dopplerStep cfg inp thr) acc).2, ∀ x ∈ e.2, x = (0 : ℚ) := by
  induction l generalizing acc with
  | nil => exact hm
  | cons i t ih =>
    rw [List.foldl_cons]
    refine ih _ (fun e he x hx => ?_)
    have hstepeq : (dopplerStep cfg inp thr acc i).2
        = mapAssign acc.2 (binDoppler cfg i)
            (pushRow (gridMagnitude cfg inp i) thr
              ((cfg.d_fft_size : ℚ) * (cfg.d_fft_size : ℚ)) cfg.d_fft_size
              ((mapAt acc.2 (binDoppler cfg i)).getD [])) := rfl
    rw [hstepeq] at he
    rcases mem_mapAssign _ _ _ e he with h | h
    · rw [h, pushRow_eq] at hx
      rcases List.mem_append.1 hx with hx1 | hx2
      · cases hrow : mapAt acc.2 (binDoppler cfg i) with
        | none => rw [hrow] at hx1; simp at hx1
        | some row =>
          rw [hrow] at hx1
          exact hm _ (mapAt_mem _ _ _ hrow) x hx1
      · obtain ⟨j, _, hj⟩ := List.mem_map.1 hx2
        rw [← hj]
        exact tmpAfter_zero _ _ _ (magnitude_zero _ _ (hzero.2 i)) _
    · exact hm e h x hx

theorem searchPhase_zero (cfg : AcqConfig) (inp : DwellInput) (st : AcqState)
    (hzero : ZeroBlock inp) :
    (searchPhase cfg inp st).1.d_test_statistics = st.d_test_statistics ∧
    ∀ e ∈ (searchPhase cfg inp st).2, ∀ x ∈ e.2, x = (0 : ℚ) := by
  unfold searchPhase
  constructor
  · rw [foldl_dopplerStep_zero_state cfg inp _ hzero _ _ rfl]
  · refine foldl_dopplerStep_zero_rows cfg inp _ hzero _ _ ?_
    exact initPeaks2_zero cfg _ [] (by intro e he; simp at he)

theorem getD_of_all_zero (dp : List ℚ) (h : ∀ x ∈ dp, x = (0 : ℚ)) (i : Nat) :
    dp.getD i 0 = 0 := by
  rw [List.getD_eq_getElem?_getD]
  cases hi : dp[i]? with
  | none => rfl
  | some x => exact h x (List.getElem?_mem hi)

theorem collectRow_zero (cfg : AcqConfig) (doppler : Int) (dp : List ℚ) (extrema : List Nat)
    (hp : List (ℚ × Peak)) (hdp : ∀ x ∈ dp, x = (0 : ℚ)) (h : ∀ e ∈ hp, e.1 = 0) :
    ∀ e ∈ collectRow cfg doppler dp extrema hp, e.1 = 0 := by
  unfold collectRow
  induction extrema generalizing hp with
  | nil => exact h
  | cons i t ih =>
    rw [List.foldl_cons]
    refine ih _ (fun e he => ?_)
    rcases mem_mapAssign _ _ _ e he with h1 | h1
    · rw [h1]; exact getD_of_all_zero dp hdp i
    · exact h e h1

theorem collectCandidates_zero (cfg : AcqConfig) (RunPersistence : List ℚ → List Nat)
    (thr : ℚ) (peaks2 : List (Int × List ℚ)) (hrows : ∀ e ∈ peaks2, ∀ x ∈ e.2, x = (0 : ℚ)) :
    ∀ e ∈ collectCandidates cfg RunPersistence thr peaks2, e.1 = 0 := by
  unfold collectCandidates
  suffices hgen : ∀ hp : List (ℚ × Peak), (∀ e ∈ hp, e.1 = 0) →
      ∀ e ∈ peaks2.foldl
        (fun hp row =>
          if maxElement row.2 < thr then hp
          else collectRow cfg row.1 row.2 (RunPersistence row.2) hp) hp, e.1 = 0 from
    hgen [] (by intro e he; simp at he)
  induction peaks2 with
  | nil => intro hp h; exact h
  | cons row t ih =>
    intro hp h
    rw [List.foldl_cons]
    refine ih (fun e he => hrows e (List.mem_cons_of_mem _ he)) _ ?_
    split_ifs
    · exact h
    · exact collectRow_zero cfg row.1 row.2 _ hp (hrows row (List.mem_cons_self _ _)) h

theorem foldl_selectStep_zero (cfg : AcqConfig) (l : List (ℚ × Peak)) (t : ℚ)
    (acc : (Bool × AcqState) × Nat) (hl : ∀ e ∈ l, e.1 = 0)
    (hacc : acc.1.2.d_test_statistics = t ∨ acc.1.2.d_test_statistics = 0) :
    (l.foldl (selectStep cfg) acc).1.2.d_test_statistics = t ∨
      (l.foldl (selectStep cfg) acc).1.2.d_test_statistics = 0 := by
  induction l generalizing acc with
  | nil => exact hacc
  | cons e r ih =>
    rw [List.foldl_cons]
    refine ih _ (fun x hx => hl x (List.mem_cons_of_mem _ hx)) ?_
    unfold selectStep
    split_ifs
    · right
      simp only [reportPeak]
      rw [hl e (List.mem_cons_self _ _), zero_div]
    · exact hacc

theorem selectPeak_zero (cfg : AcqConfig) (reduced : List (ℚ × Peak)) (st : AcqState)
    (h : ∀ e ∈ reduced, e.1 = 0) :
    (selectPeak cfg reduced st).2.d_test_statistics = st.d_test_statistics ∨
      (selectPeak cfg reduced st).2.d_test_statistics = 0 := by
  unfold selectPeak
  split_ifs
  · exact Or.inl rfl
  · exact foldl_selectStep_zero cfg _ _ _ (fun e he => h e (List.mem_reverse.1 he)) (Or.inl rfl)
  · exact Or.inl rfl

theorem auxPhase_zero (cfg : AcqConfig) (inp : DwellInput) (st : AcqState)
    (hzero : ZeroBlock inp) :
    (auxPhase cfg inp st).2.d_test_statistics = st.d_test_statistics ∨
      (auxPhase cfg inp st).2.d_test_statistics = 0 := by
  obtain ⟨hts, hrows⟩ := searchPhase_zero cfg inp st hzero
  unfold auxPhase
  split_ifs
  · have h := selectPeak_zero cfg (reducedPeaks cfg inp st) (searchPhase cfg inp st).1
      (fun e he => collectCandidates_zero cfg _ _ _ hrows e (dedupWalk_mem _ _ e he))
    rw [hts] at h
    exact h
  · exact Or.inl hts

theorem zero_block_dwell (cfg : AcqConfig) (inp : DwellInput) (st : AcqState)
    (hzero : ZeroBlock inp) (hthr : 0 ≤ cfg.d_threshold) (hst : st.d_state = 1)
    (hts : st.d_test_statistics ≤ cfg.d_threshold) :
    (general_work_case1 cfg inp st).d_state ≠ 2 ∧
    (general_work_case1 cfg inp st).d_test_statistics ≤ cfg.d_threshold ∧
    (st.d_well_count + 1 = cfg.d_max_dwells → (general_work_case1 cfg inp st).d_state = 3) := by
  obtain ⟨hW, hS⟩ := auxPhase_kept cfg inp st
  have hle : (auxPhase cfg inp st).2.d_test_statistics ≤ cfg.d_threshold := by
    rcases auxPhase_zero cfg inp st hzero with h | h
    · rw [h]; exact hts
    · rw [h]; exact hthr
  have hnot : ¬ (auxPhase cfg inp st).2.d_test_statistics > cfg.d_threshold := not_lt.2 hle
  have hstate : (auxPhase cfg inp st).2.d_state = 1 := hS.trans hst
  unfold general_work_case1
  refine ⟨?_, ?_, fun hw => ?_⟩
  · unfold verdict
    split_ifs <;> simp [hstate]
  · rw [(verdict_kept _ _ _ _).1]
    exact hle
  · have hwc : (auxPhase cfg inp st).2.d_well_count = cfg.d_max_dwells := hW.trans hw
    unfold verdict
    split_ifs <;> rfl

/-! ## The running test statistic -/

theorem foldl_max_eq (l : List ℚ) (a M : ℚ) (hub : ∀ x ∈ l, x ≤ M) (ha : a ≤ M)
    (hat : M = a ∨ M ∈ l) : l.foldl max a = M := by
  induction l generalizing a with
  | nil =>
    rcases hat with h | h
    · exact h.symm
    · simp at h
  | cons x t ih =>
    rw [List.foldl_cons]
    have hx : x ≤ M := hub x (List.mem_cons_self _ _)
    refine ih (max a x) (fun y hy => hub y (List.mem_cons_of_mem _ hy)) (max_le ha hx) ?_
    rcases hat with h | h
    · left
      rw [h] at hx ⊢
      exact (max_eq_left hx).symm
    · rcases List.mem_cons.1 h with h1 | h1
      · left
        rw [h1] at ha ⊢
        exact (max_eq_right ha).symm
      · exact Or.inr h1

theorem foldl_max_ge (l : List ℚ) (a : ℚ) : a ≤ l.foldl max a := by
  induction l generalizing a with
  | nil => exact le_refl _
  | cons x t ih => exact le_trans (le_max_left a x) (ih (max a x))

theorem foldl_max_gt_iff (l : List ℚ) (a c : ℚ) :
    l.foldl max a > c ↔ a > c ∨ ∃ x ∈ l, x > c := by
  induction l generalizing a with
  | nil => simp
  | cons x t ih =>
    rw [List.foldl_cons, ih]
    simp only [gt_iff_lt, lt_max_iff, List.mem_cons, exists_eq_or_imp]
    tauto

theorem index_max_fold (v : List ℚ) (k : Nat) :
    (∀ i : Nat, i < k → v.getD i 0 ≤ v.getD (volk_32f_index_max_16u v k) 0) ∧
    (volk_32f_index_max_16u v k < k ∨ volk_32f_index_max_16u v k = 0) := by
  induction k with
  | zero => exact ⟨fun i hi => by omega, Or.inr rfl⟩
  | succ k ih =>
    have hs : volk_32f_index_max_16u v (k + 1)
        = if v.getD k 0 > v.getD (volk_32f_index_max_16u v k) 0 then k
          else volk_32f_index_max_16u v k := by
      unfold volk_32f_index_max_16u
      rw [List.range_succ, List.foldl_append]
      rfl
    rw [hs]
    obtain ⟨h1, h2⟩ := ih
    split_ifs with hgt
    · refine ⟨fun i hi => ?_, Or.inl (by omega)⟩
      rcases Nat.lt_succ_iff_lt_or_eq.1 hi with h | h
      · exact le_trans (h1 i h) (le_of_lt hgt)
      · rw [h]
    · refine ⟨fun i hi => ?_, ?_⟩
      · rcases Nat.lt_succ_iff_lt_or_eq.1 hi with h | h
        · exact h1 i h
        · rw [h]; exact not_lt.1 hgt
      · rcases h2 with h | h
        · exact Or.inl (by omega)
        · exact Or.inr h

theorem nf_sq_nonneg (cfg : AcqConfig) :
    (0 : ℚ) ≤ ((cfg.d_fft_size : ℚ) * (cfg.d_fft_size : ℚ))
      * ((cfg.d_fft_size : ℚ) * (cfg.d_fft_size : ℚ)) :=
  mul_self_nonneg _

theorem binMaximum_spec (cfg : AcqConfig) (inp : DwellInput) (d : Nat)
    (hd : d < cfg.d_num_doppler_bins) :
    (∀ i : Nat, i < cfg.d_fft_size →
      cellMagnitude cfg inp d i
        ≤ cellMagnitude cfg inp d
            (volk_32f_index_max_16u (gridMagnitude cfg inp d) cfg.d_fft_size)) ∧
    (cellMagnitude cfg inp d (volk_32f_index_max_16u (gridMagnitude cfg inp d) cfg.d_fft_size)
        = 0 ∨
      cellMagnitude cfg inp d (volk_32f_index_max_16u (gridMagnitude cfg inp d) cfg.d_fft_size)
        ∈ gridCells cfg inp) := by
  obtain ⟨h1, h2⟩ := index_max_fold (gridMagnitude cfg inp d) cfg.d_fft_size
  refine ⟨fun i hi => ?_, ?_⟩
  · unfold cellMagnitude
    exact div_le_div_of_nonneg_right (h1 i hi) (nf_sq_nonneg cfg)
  · rcases Nat.eq_zero_or_pos cfg.d_fft_size with h0 | hpos
    · left
      unfold cellMagnitude gridMagnitude volk_32fc_magnitude_squared_32f
      rw [h0]
      simp
    · right
      have hidx : volk_32f_index_max_16u (gridMagnitude cfg inp d) cfg.d_fft_size
          < cfg.d_fft_size := by
        rcases h2 with h | h
        · exact h
        · rw [h]; exact hpos
      unfold gridCells
      rw [List.mem_flatMap]
      exact ⟨d, List.mem_range.2 hd, List.mem_map.2 ⟨_, List.mem_range.2 hidx, rfl⟩⟩

theorem recordMax_max (cfg : AcqConfig) (st : AcqState) (magt t0 : ℚ) (indext : Nat)
    (doppler : Int) (hflag : cfg.d_bit_transition_flag = true) (hP : 0 < st.d_input_power)
    (hts : st.d_test_statistics = max t0 (st.d_mag / st.d_input_power)) :
    (recordMax cfg st magt indext doppler).d_mag = max st.d_mag magt ∧
    (recordMax cfg st magt indext doppler).d_test_statistics
      = max t0 ((recordMax cfg st magt indext doppler).d_mag / st.d_input_power) := by
  unfold recordMax
  simp only [hflag, Bool.not_true, Bool.or_false, decide_eq_true_eq]
  split_ifs with h1 h2
  · refine ⟨(max_eq_right (le_of_lt h1)).symm, ?_⟩
    show magt / st.d_input_power = max t0 (magt / st.d_input_power)
    rw [hts] at h2
    exact (max_eq_right (le_of_lt (lt_of_le_of_lt (le_max_left _ _) h2))).symm
  · refine ⟨(max_eq_right (le_of_lt h1)).symm, ?_⟩
    show st.d_test_statistics = max t0 (magt / st.d_input_power)
    have hlt : st.d_mag / st.d_input_power < magt / st.d_input_power :=
      div_lt_div_of_pos_right h1 hP
    have hge : magt / st.d_input_power ≤ st.d_test_statistics := not_lt.1 h2
    have ht0 : st.d_test_statistics = t0 := by
      rcases max_choice t0 (st.d_mag / st.d_input_power) with h | h
      · rw [hts, h]
      · rw [hts, h] at hge
        exact absurd hlt (not_lt.2 hge)
    rw [ht0] at hge ⊢
    exact (max_eq_left hge).symm
  · exact ⟨(max_eq_left (not_lt.1 h1)).symm, hts⟩

theorem foldl_dopplerStep_max (cfg : AcqConfig) (inp : DwellInput) (thr t0 : ℚ)
    (hflag : cfg.d_bit_transition_flag = true) (l : List Nat)
    (acc : AcqState × List (Int × List ℚ)) (hP : 0 < acc.1.d_input_power)
    (hts : acc.1.d_test_statistics = max t0 (acc.1.d_mag / acc.1.d_input_power)) :
    (l.foldl (dopplerStep cfg inp thr) acc).1.d_test_statistics
      = max t0 ((l.foldl (dopplerStep cfg inp thr) acc).1.d_mag / acc.1.d_input_power) ∧
    acc.1.d_mag ≤ (l.foldl (dopplerStep cfg inp thr) acc).1.d_mag ∧
    (∀ d ∈ l,
      cellMagnitude cfg inp d (volk_32f_index_max_16u (gridMagnitude cfg inp d) cfg.d_fft_size)
        ≤ (l.foldl (dopplerStep cfg inp thr) acc).1.d_mag) ∧
    ((l.foldl (dopplerStep cfg inp thr) acc).1.d_mag = acc.1.d_mag ∨
      ∃ d ∈ l, (l.foldl (dopplerStep cfg inp thr) acc).1.d_mag
        = cellMagnitude cfg inp d
            (volk_32f_index_max_16u (gridMagnitude cfg inp d) cfg.d_fft_size)) := by
  induction l generalizing acc with
  | nil => exact ⟨hts, le_refl _, fun d hd => by simp at hd, Or.inl rfl⟩
  | cons i t ih =>
    rw [List.foldl_cons]
    have hstep : (dopplerStep cfg inp thr acc i).1
        = recordMax cfg acc.1
            (cellMagnitude cfg inp i
              (volk_32f_index_max_16u (gridMagnitude cfg inp i) cfg.d_fft_size))
            (volk_32f_index_max_16u (gridMagnitude cfg inp i) cfg.d_fft_size)
            (binDoppler cfg i) := rfl
    obtain ⟨hm, ht⟩ := recordMax_max cfg acc.1
      (cellMagnitude cfg inp i
        (volk_32f_index_max_16u (gridMagnitude cfg inp i) cfg.d_fft_size)) t0
      (volk_32f_index_max_16u (gridMagnitude cfg inp i) cfg.d_fft_size)
      (binDoppler cfg i) hflag hP hts
    have hPk : (dopplerStep cfg inp thr acc i).1.d_input_power = acc.1.d_input_power := by
      rw [hstep]; exact (recordMax_kept _ _ _ _ _).1
    rw [← hstep] at hm ht
    obtain ⟨g1, g2, g3, g4⟩ := ih (dopplerStep cfg inp thr acc i) (by rw [hPk]; exact hP)
      (by rw [hPk]; exact ht)
    rw [hPk] at g1
    refine ⟨g1, ?_, fun d hd => ?_, ?_⟩
    · exact le_trans (by rw [hm]; exact le_max_left _ _) g2
    · rcases List.mem_cons.1 hd with h | h
      · rw [h]
        exact le_trans (by rw [hm]; exact le_max_right _ _) g2
      · exact g3 d h
    · rcases g4 with h | ⟨d, hd, h⟩
      · rw [h, hm]
        rcases max_choice acc.1.d_mag (cellMagnitude cfg inp i
          (volk_32f_index_max_16u (gridMagnitude cfg inp i) cfg.d_fft_size)) with h2 | h2
        · exact Or.inl h2
        · exact Or.inr ⟨i, List.mem_cons_self _ _, h2⟩
      · exact Or.inr ⟨d, List.mem_cons_of_mem _ hd, h⟩



theorem gridCells_le (cfg : AcqConfig) (inp : DwellInput) (M : ℚ)
    (h : ∀ d : Nat, d < cfg.d_num_doppler_bins →
      cellMagnitude cfg inp d (volk_32f_index_max_16u (gridMagnitude cfg inp d) cfg.d_fft_size)
        ≤ M) :
    ∀ x ∈ gridCells cfg inp, x ≤ M := by
  intro x hx
  unfold gridCells at hx
  obtain ⟨d, hd, hx2⟩ := List.mem_flatMap.1 hx
  obtain ⟨i, hi, rfl⟩ := List.mem_map.1 hx2
  have hd2 := List.mem_range.1 hd
  exact le_trans ((binMaximum_spec cfg inp d hd2).1 i (List.mem_range.1 hi)) (h d hd2)

theorem searchPhase_max (cfg : AcqConfig) (inp : DwellInput) (st : AcqState)
    (hflag : cfg.d_bit_transition_flag = true) (hP : 0 < inputPower cfg inp)
    (hts : 0 ≤ st.d_test_statistics) :
    (searchPhase cfg inp st).1.d_test_statistics
      = max st.d_test_statistics (dwellStatistic cfg inp) := by
  have hfold := foldl_dopplerStep_max cfg inp (thresholdSpoofing cfg inp) st.d_test_statistics
    hflag (List.range cfg.d_num_doppler_bins)
    ({ st with
        d_input_power := inputPower cfg inp
        d_mag := 0
        d_sample_counter := st.d_sample_counter + cfg.d_fft_size
        d_well_count := st.d_well_count + 1 }, initPeaks2 cfg) hP
    (by
      show st.d_test_statistics = max st.d_test_statistics (0 / inputPower cfg inp)
      rw [zero_div]
      exact (max_eq_left hts).symm)
  have hsp : searchPhase cfg inp st
      = (List.range cfg.d_num_doppler_bins).foldl
          (dopplerStep cfg inp (thresholdSpoofing cfg inp))
          ({ st with
              d_input_power := inputPower cfg inp
              d_mag := 0
              d_sample_counter := st.d_sample_counter + cfg.d_fft_size
              d_well_count := st.d_well_count + 1 }, initPeaks2 cfg) := rfl
  rw [← hsp] at hfold
  obtain ⟨g1, g2, g3, g4⟩ := hfold
  have hmax : gridMaximum cfg inp = (searchPhase cfg inp st).1.d_mag := by
    unfold gridMaximum
    refine foldl_max_eq _ _ _ (gridCells_le cfg inp _ (fun d hd => g3 d (List.mem_range.2 hd)))
      g2 ?_
    rcases g4 with h | ⟨d, hd, h⟩
    · exact Or.inl h
    · rcases (binMaximum_spec cfg inp d (List.mem_range.1 hd)).2 with h0 | hmem
      · left
        rw [h, h0]
      · right
        rw [h]
        exact hmem
  rw [g1]
  unfold dwellStatistic
  rw [hmax]

theorem dwellStatistic_nonneg (cfg : AcqConfig) (inp : DwellInput)
    (hP : 0 < inputPower cfg inp) : 0 ≤ dwellStatistic cfg inp :=
  div_nonneg (foldl_max_ge _ 0) (le_of_lt hP)

theorem dwell_rank_one_flagged (cfg : AcqConfig) (inp : DwellInput) (st : AcqState)
    (hflag : cfg.d_bit_transition_flag = true) (hk : cfg.d_peak = 1) :
    (general_work_case1 cfg inp st).d_test_statistics
      = (searchPhase cfg inp st).1.d_test_statistics ∧
    (st.d_well_count + 1 = cfg.d_max_dwells →
      ((general_work_case1 cfg inp st).d_state = 2 ↔
        (searchPhase cfg inp st).1.d_test_statistics > cfg.d_threshold)) := by
  obtain ⟨_, hW, _, _⟩ := searchPhase_kept cfg inp st
  constructor
  · unfold general_work_case1
    rw [(verdict_kept _ _ _ _).1, auxPhase_rank_one cfg inp st hk]
  · intro hw
    have hwc : (searchPhase cfg inp st).1.d_well_count = cfg.d_max_dwells := hW.trans hw
    have hgw : general_work_case1 cfg inp st
        = if (searchPhase cfg inp st).1.d_test_statistics > cfg.d_threshold
          then { (searchPhase cfg inp st).1 with d_state := 2 }
          else { (searchPhase cfg inp st).1 with d_state := 3 } := by
      unfold general_work_case1
      rw [auxPhase_rank_one cfg inp st hk]
      simp [verdict, hflag, hk, hwc]
    rw [hgw]
    split_ifs with h <;> simp [h]

theorem runDwells_flagged (cfg : AcqConfig) (hflag : cfg.d_bit_transition_flag = true)
    (hk : cfg.d_peak = 1) (inps : List DwellInput) :
    ∀ st : AcqState, st.d_state = 1 → 0 ≤ st.d_test_statistics →
      (∀ inp ∈ inps, 0 < inputPower cfg inp) →
      st.d_well_count + inps.length = cfg.d_max_dwells → inps ≠ [] →
      (runDwells cfg inps st).d_test_statistics
        = (inps.map (dwellStatistic cfg)).foldl max st.d_test_statistics ∧
      ((runDwells cfg inps st).d_state = 2 ↔
        (inps.map (dwellStatistic cfg)).foldl max st.d_test_statistics > cfg.d_threshold) := by
  induction inps with
  | nil => intro st _ _ _ _ hne; exact absurd rfl hne
  | cons inp rest ih =>
    intro st hst hts hP hw _
    have hPi := hP inp (List.mem_cons_self _ _)
    obtain ⟨e1, e2⟩ := dwell_rank_one_flagged cfg inp st hflag hk
    have hmax := searchPhase_max cfg inp st hflag hPi hts
    rw [hmax] at e1 e2
    obtain ⟨f1, f2, _⟩ := dwell_flagged cfg inp st hflag
    simp only [runDwells, hst, if_true, List.map_cons, List.foldl_cons]
    rw [← e1]
    cases rest with
    | nil =>
      simp only [runDwells, List.map_nil, List.foldl_nil]
      refine ⟨trivial, ?_⟩
      rw [e1]
      exact e2 (by simpa using hw)
    | cons inp2 rest2 =>
      refine ih (general_work_case1 cfg inp st) ?_ ?_
        (fun x hx => hP x (List.mem_cons_of_mem _ hx)) ?_ (by simp)
      · rw [f2 (by simp only [List.length_cons] at hw; omega), hst]
      · rw [e1]; exact le_trans hts (le_max_left _ _)
      · rw [f1]
        simp only [List.length_cons] at hw ⊢
        omega

/-- C25. With `bit_transition_flag` set and peak rank 1: a dwell with positive input power
that starts from a non-negative `d_test_statistics` leaves it at the maximum of that value and
the dwell's largest normalised magnitude divided by the dwell's input power, so it never
decreases; over the `max_dwells` dwells of an acquisition started by `case 0` (where it is
0) it ends at the maximum of the per-dwell test statistics, and the verdict after the final
dwell is Positive (state 2) exactly when that maximum exceeds `d_threshold`, that is, when
the test statistic of some dwell does. -/
theorem test_statistic_is_running_maximum (cfg : AcqConfig)
    (hflag : cfg.d_bit_transition_flag = true) (hk : cfg.d_peak = 1) :
    (∀ (inp : DwellInput) (st : AcqState), 0 < inputPower cfg inp →
      0 ≤ st.d_test_statistics →
      (general_work_case1 cfg inp st).d_test_statistics
        = max st.d_test_statistics (dwellStatistic cfg inp) ∧
      st.d_test_statistics ≤ (general_work_case1 cfg inp st).d_test_statistics) ∧
    (∀ (inps : List DwellInput) (st : AcqState) (ninput_items : Nat),
      (∀ inp ∈ inps, 0 < inputPower cfg inp) → inps.length = cfg.d_max_dwells → inps ≠ [] →
      (runDwells cfg inps (general_work_case0 cfg true ninput_items st)).d_test_statistics
        = (inps.map (dwellStatistic cfg)).foldl max 0 ∧
      ((runDwells cfg inps (general_work_case0 cfg true ninput_items st)).d_state = 2 ↔
        (inps.map (dwellStatistic cfg)).foldl max 0 > cfg.d_threshold) ∧
      ((runDwells cfg inps (general_work_case0 cfg true ninput_items st)).d_state = 2 ↔
        ∃ inp ∈ inps, dwellStatistic cfg inp > cfg.d_threshold)) := by
  refine ⟨fun inp st hP hts => ?_, fun inps st n hP hlen hne => ?_⟩
  · have e1 := (dwell_rank_one_flagged cfg inp st hflag hk).1
    rw [searchPhase_max cfg inp st hflag hP hts] at e1
    rw [e1]
    exact ⟨rfl, le_max_left _ _⟩
  · obtain ⟨r1, r2⟩ := runDwells_flagged cfg hflag hk inps
      (general_work_case0 cfg true n st) rfl (le_refl _) hP
      (by
        show 0 + inps.length = cfg.d_max_dwells
        rw [Nat.zero_add]
        exact hlen) hne
    have r1b : (runDwells cfg inps (general_work_case0 cfg true n st)).d_test_statistics
        = (inps.map (dwellStatistic cfg)).foldl max 0 := r1
    have r2b : (runDwells cfg inps (general_work_case0 cfg true n st)).d_state = 2 ↔
        (inps.map (dwellStatistic cfg)).foldl max 0 > cfg.d_threshold := r2
    refine ⟨r1b, r2b, r2b.trans ?_⟩
    rw [foldl_max_gt_iff]
    constructor
    · rintro (h | ⟨x, hx, hgt⟩)
      · obtain ⟨inp, rest, rfl⟩ := List.exists_cons_of_ne_nil hne
        exact ⟨inp, List.mem_cons_self _ _,
          lt_of_lt_of_le h (dwellStatistic_nonneg cfg inp (hP inp (List.mem_cons_self _ _)))⟩
      · obtain ⟨inp, hinp, rfl⟩ := List.mem_map.1 hx
        exact ⟨inp, hinp, hgt⟩
    · rintro ⟨inp, hinp, hgt⟩
      exact Or.inr ⟨_, List.mem_map.2 ⟨inp, hinp, rfl⟩, hgt⟩

/-- Witness of C25: the two dwells that the adapter sets, the first with a peak of test
statistic 4 and the second with a peak of test statistic 9. -/
theorem test_statistic_is_running_maximum_witness :
    (runDwells cfgBitTransition [inpOnePeak, inpTwoPeaks]
      (general_work_case0 cfgBitTransition true 1 stActivated)).d_test_statistics
        = ([inpOnePeak, inpTwoPeaks].map (dwellStatistic cfgBitTransition)).foldl max 0 :=
  ((test_statistic_is_running_maximum cfgBitTransition rfl rfl).2 [inpOnePeak, inpTwoPeaks]
    stActivated 1
    (fun inp h => by
      rcases List.mem_cons.1 h with h1 | h1
      · rw [h1]; decide!
      · rw [List.mem_singleton.1 h1]; decide!)
    rfl (by simp)).1

/-! ## The verdict of a dwell on an all-zero sample block -/

/-- Counterexample to C24 as stated: with `bit_transition_flag` and peak rank 1, a first dwell
with a correlation peak leaves `d_test_statistics = 4` above the threshold 1/2, and a second
dwell on an all-zero block (input power 0) ends Positive (state 2). -/
theorem zero_block_counterexample :
    inputPower cfgBitTransition inpZeroBlock = 0 ∧
    inpZeroBlock.input = List.replicate 8 (0, 0) ∧
    0 ≤ cfgBitTransition.d_threshold ∧
    (general_work_case1 cfgBitTransition inpOnePeak stActivated).d_state = 1 ∧
    (general_work_case1 cfgBitTransition inpZeroBlock
      (general_work_case1 cfgBitTransition inpOnePeak stActivated)).d_state = 2 := by
  decide!

/-- C24, amended. For an all-zero sample block the input power estimate is 0 and, for every
peak rank and every non-negative threshold, a dwell that starts with `d_test_statistics` not
above the threshold (as the first dwell after activation does, where it is 0) does not end
Positive and leaves `d_test_statistics` not above the threshold; when it is the dwell that
completes `max_dwells` (the first dwell for `max_dwells = 1`) it ends Negative. With peak
rank 1 the all-zero dwell leaves `d_test_statistics` as it found it, so with
`bit_transition_flag`, when an earlier dwell left it above the threshold, the all-zero dwell
that completes `max_dwells` ends Positive. -/
theorem zero_block_dwell_is_not_positive (cfg : AcqConfig) (inp : DwellInput) (st : AcqState)
    (ninput_items : Nat) (hzero : ZeroBlock inp) (hthr : 0 ≤ cfg.d_threshold) :
    inputPower cfg inp = 0 ∧
    (st.d_state = 1 → st.d_test_statistics ≤ cfg.d_threshold →
      (general_work_case1 cfg inp st).d_state ≠ 2 ∧
      (general_work_case1 cfg inp st).d_test_statistics ≤ cfg.d_threshold ∧
      (st.d_well_count + 1 = cfg.d_max_dwells →
        (general_work_case1 cfg inp st).d_state = 3)) ∧
    (general_work_case1 cfg inp (general_work_case0 cfg true ninput_items st)).d_state ≠ 2 ∧
    (cfg.d_max_dwells = 1 →
      (general_work_case1 cfg inp (general_work_case0 cfg true ninput_items st)).d_state
        = 3) ∧
    (cfg.d_peak = 1 →
      (general_work_case1 cfg inp st).d_test_statistics = st.d_test_statistics) ∧
    (cfg.d_bit_transition_flag = true → cfg.d_peak = 1 →
      st.d_well_count + 1 = cfg.d_max_dwells → st.d_test_statistics > cfg.d_threshold →
      (general_work_case1 cfg inp st).d_state = 2) := by
  have hact := zero_block_dwell cfg inp (general_work_case0 cfg true ninput_items st) hzero hthr
    rfl hthr
  have hkept : cfg.d_peak = 1 →
      (general_work_case1 cfg inp st).d_test_statistics = st.d_test_statistics := by
    intro hk
    unfold general_work_case1
    rw [(verdict_kept _ _ _ _).1, auxPhase_rank_one cfg inp st hk]
    exact (searchPhase_zero cfg inp st hzero).1
  refine ⟨inputPower_zero cfg inp hzero, fun hst hts => zero_block_dwell cfg inp st hzero hthr
    hst hts, hact.1, fun hmax => hact.2.2 ?_, hkept, fun hflag hk hw hgt => ?_⟩
  · rw [hmax]
    rfl
  · rw [((dwell_rank_one_flagged cfg inp st hflag hk).2 hw), (searchPhase_zero cfg inp st hzero).1]
    exact hgt

/-- Witness of C24, amended: the first dwell of an acquisition with peak rank 2 and one
dwell, on the block of 8 zero samples, ends Negative; and with `bit_transition_flag` and peak
rank 1 the second dwell, on that block, ends Positive after a first dwell that left the test
statistic 4 above the threshold 1/2. -/
theorem zero_block_dwell_is_not_positive_witness :
    (general_work_case1 cfgRankTwo inpZeroBlock
      (general_work_case0 cfgRankTwo true 1 stActivated)).d_state = 3 ∧
    (general_work_case1 cfgBitTransition inpZeroBlock
      (general_work_case1 cfgBitTransition inpOnePeak stActivated)).d_state = 2 :=
  ⟨(zero_block_dwell_is_not_positive cfgRankTwo inpZeroBlock stActivated 1
      ⟨fun i => by
          simp only [inpZeroBlock, List.getD_eq_getElem?_getD, List.getElem?_replicate]
          split_ifs <;> rfl,
        fun _ i => by
          simp only [inpZeroBlock, List.getD_eq_getElem?_getD, List.getElem?_replicate]
          split_ifs <;> rfl⟩
      (by decide!)).2.2.2.1 rfl,
    (zero_block_dwell_is_not_positive cfgBitTransition inpZeroBlock
      (general_work_case1 cfgBitTransition inpOnePeak stActivated) 1
      ⟨fun i => by
          simp only [inpZeroBlock, List.getD_eq_getElem?_getD, List.getElem?_replicate]
          split_ifs <;> rfl,
        fun _ i => by
          simp only [inpZeroBlock, List.getD_eq_getElem?_getD, List.getElem?_replicate]
          split_ifs <;> rfl⟩
      (by decide!)).2.2.2.2.2 rfl rfl (by decide!) (by decide!)⟩


end Spree
